import Mathlib

/-!
# Visual-odometry pose estimator (`kinect_vo`): embedding and properties

A shallow embedding of `src/kinect_vo/src/pose_estimator.cpp`.

* `float`/`double` values are modelled by exact rationals; a depth sample that may be NaN is a
  `DepthSample`. A quotient is the exact one; where the divisor is zero the `double` quotient of
  the code is `inf` or NaN, not a number, so statements about a quotient are made where its
  divisor is not zero, and `calculateNewCovarianceDouble` records whether a divisor of
  `calculateNewCovariance` is zero.
* `std::vector` is `List`; an element read with an `int` index is `vecAt`, which has no value
  outside the vector (the C++ read is undefined or throws there), and the function doing the read
  then yields `Fault.outOfRange`. The read of `reverse_matches` in the mutual-match loop is an
  unchecked `operator[]`; `findMutualMatchesUnchecked` lets it find what the memory past the
  vector holds.
* A failed `ROS_ASSERT` yields `Fault.assertion`.
* OpenCV / RANSAC library calls are fields of a `Vision` record (their code is not part of the
  file that is embedded); every theorem quantifies over that record.
-/

namespace RelativeNav

/-! ## Data model -/

/-- The ways a call can stop without returning. -/
inductive Fault where
  | assertion
  | outOfRange
deriving DecidableEq, Repr

/-- The type `cv::Point2f`. -/
structure Point2f where
  x : ℚ
  y : ℚ
deriving DecidableEq

/-- The type `cv::Point3d`. -/
structure Point3d where
  x : ℚ
  y : ℚ
  z : ℚ
deriving DecidableEq

/-- The type `cv::KeyPoint`. -/
structure KeyPoint where
  pt : Point2f
  size : ℚ
  angle : ℚ
  response : ℚ
  octave : Int
  class_id : Int
deriving DecidableEq

/-- The type `cv::DMatch` (query index, train index, distance). -/
structure DMatch where
  queryIdx : Int
  trainIdx : Int
  distance : ℚ
deriving DecidableEq

/-- Element read `v[i]` of a `std::vector` with an `int` index: defined only inside the vector. -/
def vecAt {α : Type} (xs : List α) (i : Int) : Option α :=
  if 0 ≤ i then xs[i.toNat]? else none

/-- A `float` depth sample: NaN, or a number. -/
inductive DepthSample where
  | nan
  | val (z : ℚ)
deriving DecidableEq

/-- A `CV_32FC1` depth image, as its rows of samples. -/
abbrev DepthImage := List (List DepthSample)

/-- An 8-bit image (colour, gray or mask), as its rows of pixel values. -/
abbrev Image := List (List Nat)

/-- A descriptor matrix: one row per key point. -/
abbrev Descriptors := List (List Nat)

/-- A `cv::Mat` of doubles: dimensions and row-major data. -/
structure CvMat where
  rows : Nat
  cols : Nat
  data : List ℚ
deriving DecidableEq

/-- The type `Eigen::Quaterniond`. -/
structure Quaterniond where
  w : ℚ
  x : ℚ
  y : ℚ
  z : ℚ
deriving DecidableEq

/-- The type `Eigen::Vector3d`. -/
structure Vector3d where
  x : ℚ
  y : ℚ
  z : ℚ
deriving DecidableEq

/-- The calibration message `sensor_msgs::CameraInfo`: `K` (3×3 row-major), `P` (3×4), `D`. -/
structure CameraInfo where
  K : Fin 9 → ℚ
  P : Fin 12 → ℚ
  D : List ℚ

/-- The reference-frame state and settings of the class `PoseEstimator`. -/
structure PoseEstimator where
  enable_optimizer_ : Bool
  enable_display_ : Bool
  num_features_ : Int
  num_iterations_ : Int
  reference_set_ : Bool
  reference_img_RGB_ : Image
  reference_img_gray_ : Image
  reference_img_depth_ : DepthImage
  reference2D_features_ : List KeyPoint
  reference2D_idealized_ : List Point2f
  reference3D_features_ : List Point3d
  reference_descriptors_ : Descriptors
  depth_info_ : CameraInfo
  rgb_info_ : CameraInfo
  rgb_camera_matrix_ : CvMat
  rgb_camera_P_ : CvMat
  rgb_camera_distortion_ : List ℚ
  deltaI_ : Matrix (Fin 7) (Fin 7) ℚ
  image_noise_ : Matrix (Fin 3) (Fin 3) ℚ
  calc_hess_covariance_ : Bool
  hess_covariance_ : Matrix (Fin 7) (Fin 7) ℚ
  pose_vertex_id_ : Int

/-- What `RANSAC::runRANSAC` writes through its pointer arguments. -/
structure RansacResult where
  final_rotation : CvMat
  final_translation : CvMat
  inliers : Int
  inlier_list : List Int
  solution_list : List Int
  svd_D : CvMat
  svd_U : CvMat
  svd_V : CvMat
deriving DecidableEq

/-- The library calls made by the estimator: OpenCV image processing, detection, description,
undistortion (`none` when it throws `cv::Exception`), masks and matchers, `RANSAC::runRANSAC`
(arguments of the `RANSAC` constructor first, the initial contents of the result variables last),
`convertRToQuaternion`, and `atan2` / `asin` of the C library. -/
structure Vision where
  cvtColor : Image → Image
  detect : Int → Image → Image → List KeyPoint
  GaussianBlur : Image → Image
  compute : Image → List KeyPoint → List KeyPoint × Descriptors
  undistortPoints : List Point2f → CvMat → List ℚ → CvMat → Option (List Point2f)
  windowedMatchingMask : List KeyPoint → List KeyPoint → Int → Int → Image
  matcher_forward_ : Descriptors → Descriptors → Image → List DMatch
  matcher_reverse_ : Descriptors → Descriptors → Image → List DMatch
  runRANSAC : Int → Int → ℚ → CameraInfo → Bool →
    List Point3d → List Point3d → List Point2f → RansacResult → RansacResult
  convertRToQuaternion : CvMat → Quaterniond
  atan2 : ℚ → ℚ → ℚ
  asin : ℚ → ℚ

/-- The caller's variables behind the output pointers of `setCurrentAndFindTransform`. -/
structure Outputs where
  rotation : Quaterniond
  translation : Vector3d
  covariance : Matrix (Fin 7) (Fin 7) ℚ
  inliers : Int
  corresponding : Int
  total : Int
  rot_opt : Quaterniond
  tran_opt : Vector3d

/-- The input arguments of `setCurrentAndFindTransform`. -/
structure Args where
  visual_cur_image : Image
  depth_curr_image_float : DepthImage
  depth_curr_image_CV8UC1 : Image
  setAsReference : Bool
  rotation_guess : CvMat

/-- The per-frame local variables of `setCurrentAndFindTransform` once the frame is processed. -/
structure CurrentFrame where
  gray_image : Image
  current2D_features : List KeyPoint
  current_descriptors : Descriptors
  idealized_curr_pts : List Point2f
  current3D_features : List Point3d
deriving DecidableEq

/-- Conversion of a `float` to `int`: truncation toward zero. -/
def toInt (q : ℚ) : Int :=
  if 0 ≤ q then ⌊q⌋ else ⌈q⌉

/-- Element read `m.at<float>(row, col)` of a depth image: defined only inside the image. -/
def DepthImage.sample (img : DepthImage) (row col : Int) : Option DepthSample :=
  match vecAt img row with
  | none => none
  | some r => vecAt r col

/-- Element read `m.at<double>(i, j)`: defined only inside the matrix. -/
def CvMat.entry (m : CvMat) (i j : Nat) : Option ℚ :=
  if i < m.rows ∧ j < m.cols then m.data[i * m.cols + j]? else none

/-- The matrix `cv::Mat::zeros(rows, cols, CV_64FC1)`. -/
def CvMat.zeros (rows cols : Nat) : CvMat :=
  ⟨rows, cols, List.replicate (rows * cols) 0⟩

/-- A default-constructed `cv::Mat`. -/
def CvMat.empty : CvMat :=
  ⟨0, 0, []⟩

/-- The conversion `cv::KeyPoint::convert` of key points to their image locations. -/
def KeyPoint.convert (keypoints : List KeyPoint) : List Point2f :=
  keypoints.map (fun k => k.pt)

/-! ## Mutual matches (`setCurrentAndFindTransform`, "Find mutual matches") -/

/-- The loop
`for(int i = 0; i < (int)forward_matches.size(); i++)
   if(reverse_matches[forward_matches[i].trainIdx].trainIdx == i)
     final_matches.push_back(cv::DMatch(i,forward_matches[i].trainIdx,0.f));`
run on the forward matches still to visit, the loop counter `i` and the `final_matches` built so
far. -/
def findMutualMatchesLoop (reverse_matches : List DMatch) :
    List DMatch → Int → List DMatch → Except Fault (List DMatch)
  | [], _, final_matches => .ok final_matches
  | f :: rest, i, final_matches =>
    match vecAt reverse_matches f.trainIdx with
    | none => .error Fault.outOfRange
    | some r =>
      if r.trainIdx = i then
        findMutualMatchesLoop reverse_matches rest (i + 1)
          (final_matches ++ [DMatch.mk i f.trainIdx 0])
      else
        findMutualMatchesLoop reverse_matches rest (i + 1) final_matches

/-- The mutual-match selection of `setCurrentAndFindTransform`: the loop started at `i = 0` with
an empty `final_matches`. -/
def findMutualMatches (forward_matches reverse_matches : List DMatch) :
    Except Fault (List DMatch) :=
  findMutualMatchesLoop reverse_matches forward_matches 0 []

/-! ## Ordered correspondence arrays (`setCurrentAndFindTransform`, "ordered pairs") -/

/-- The four parallel arrays handed to RANSAC. -/
structure Ordered where
  ordered_reference3D : List Point3d
  ordered_reference2D : List Point2f
  ordered_current3D : List Point3d
  ordered_current2D : List Point2f
deriving DecidableEq

/-- The loop
`for(unsigned int i = 0; i < final_matches.size(); i++) { m1 = final_matches[i];
   ordered_reference3D.push_back(reference3D_features_[m1.trainIdx]);
   ordered_reference2D.push_back(reference2D_idealized_[m1.trainIdx]);
   ordered_current3D.push_back(current3D_features[m1.queryIdx]);
   ordered_current2D.push_back(idealized_curr_pts[m1.queryIdx]); }`
run on the matches still to visit and the arrays built so far. -/
def orderLoop (reference3D_features_ : List Point3d) (reference2D_idealized_ : List Point2f)
    (current3D_features : List Point3d) (idealized_curr_pts : List Point2f) :
    List DMatch → Ordered → Except Fault Ordered
  | [], acc => .ok acc
  | m1 :: rest, acc =>
    match vecAt reference3D_features_ m1.trainIdx, vecAt reference2D_idealized_ m1.trainIdx,
          vecAt current3D_features m1.queryIdx, vecAt idealized_curr_pts m1.queryIdx with
    | some r3, some r2, some c3, some c2 =>
      orderLoop reference3D_features_ reference2D_idealized_ current3D_features
        idealized_curr_pts rest
        { ordered_reference3D := acc.ordered_reference3D ++ [r3]
          ordered_reference2D := acc.ordered_reference2D ++ [r2]
          ordered_current3D := acc.ordered_current3D ++ [c3]
          ordered_current2D := acc.ordered_current2D ++ [c2] }
    | _, _, _, _ => .error Fault.outOfRange

/-- The ordered arrays built from `final_matches`, starting from four empty vectors. -/
def orderCorrespondences (reference3D_features_ : List Point3d)
    (reference2D_idealized_ : List Point2f) (current3D_features : List Point3d)
    (idealized_curr_pts : List Point2f) (final_matches : List DMatch) : Except Fault Ordered :=
  orderLoop reference3D_features_ reference2D_idealized_ current3D_features idealized_curr_pts
    final_matches ⟨[], [], [], []⟩

/-! ## Back-projection (`calc3DPoints`) -/

/-- The depth used for a sample: `8.0` when `std::isnan(z)`, the sample itself otherwise. -/
def depthOrFallback : DepthSample → ℚ
  | .nan => 8.0
  | .val z => z

/-- The loop of `calc3DPoints` over `features2D_undistored`, with the counter `i` and the
`features3D` built so far: the depth is read at the raw point `features2D->at(i)` (which throws
outside the vector), then `x = ((u - cx) * z) / fx`, `y = ((v - cy) * z) / fy`. -/
def calc3DPointsLoop (depth_float : DepthImage) (cx cy fx fy : ℚ) (features2D : List Point2f) :
    List Point2f → Nat → List Point3d → Except Fault (List Point3d)
  | [], _, features3D => .ok features3D
  | u :: rest, i, features3D =>
    match features2D[i]? with
    | none => .error Fault.outOfRange
    | some p =>
      match depth_float.sample (toInt p.y) (toInt p.x) with
      | none => .error Fault.outOfRange
      | some d =>
        let z := depthOrFallback d
        let x := ((u.x - cx) * z) / fx
        let y := ((u.y - cy) * z) / fy
        calc3DPointsLoop depth_float cx cy fx fy features2D rest (i + 1)
          (features3D ++ [Point3d.mk x y z])

/-- The method `PoseEstimator::calc3DPoints`; the last argument is the prior content of the output
vector `features3D`, the result its final content. -/
def calc3DPoints (depth_float : DepthImage) (kinect_calibration : CameraInfo)
    (features2D features2D_undistored : List Point2f) (features3D : List Point3d) :
    Except Fault (List Point3d) :=
  if kinect_calibration.K 0 = 0 then .error Fault.assertion
  else
    let cx := kinect_calibration.K 2
    let cy := kinect_calibration.K 5
    let fx := kinect_calibration.K 0
    let fy := kinect_calibration.K 4
    let cleared := if features3D.length ≠ 0 then [] else features3D
    calc3DPointsLoop depth_float cx cy fx fy features2D features2D_undistored 0 cleared

/-! ## Estimator life cycle -/

/-- The constructor `PoseEstimator::PoseEstimator(optimize, display)`; members it does not assign
are default-constructed (empty). -/
def PoseEstimator.construct (optimize display : Bool) : PoseEstimator :=
  { enable_optimizer_ := optimize
    enable_display_ := display
    num_features_ := if optimize then 300 else 750
    num_iterations_ := if optimize then 100 else 300
    reference_set_ := false
    reference_img_RGB_ := []
    reference_img_gray_ := []
    reference_img_depth_ := []
    reference2D_features_ := []
    reference2D_idealized_ := []
    reference3D_features_ := []
    reference_descriptors_ := []
    depth_info_ := ⟨fun _ => 0, fun _ => 0, []⟩
    rgb_info_ := ⟨fun _ => 0, fun _ => 0, []⟩
    rgb_camera_matrix_ := CvMat.empty
    rgb_camera_P_ := CvMat.empty
    rgb_camera_distortion_ := []
    deltaI_ := Matrix.diagonal ![1, 1, 1, 87, 153, 121, 100]
    image_noise_ := Matrix.diagonal ![4, 4, 0.01 * 0.01]
    calc_hess_covariance_ := false
    hess_covariance_ := 0
    pose_vertex_id_ := 0 }

/-- The method `PoseEstimator::setKinectCalibration`. -/
def setKinectCalibration (self : PoseEstimator) (depth_info rbg_info : CameraInfo) :
    Except Fault PoseEstimator :=
  let K := rbg_info.K
  let P := rbg_info.P
  let self1 : PoseEstimator :=
    { self with
      depth_info_ := depth_info
      rgb_info_ := rbg_info
      rgb_camera_matrix_ := ⟨3, 3, [K 0, 0, K 2, 0, K 4, K 5, 0, 0, 1]⟩
      rgb_camera_P_ := ⟨3, 4, [P 0, 0, P 2, P 3, 0, P 5, P 6, P 7, 0, 0, 1, 0]⟩
      rgb_camera_distortion_ := rbg_info.D }
  if 0 < self1.rgb_camera_distortion_.length then .ok self1 else .error Fault.assertion

/-- The method `PoseEstimator::setCurrentAsReference`: every reference member is overwritten with
the given frame and the flag is raised. -/
def setCurrentAsReference (self : PoseEstimator) (color_image mono_image : Image)
    (depth_image : DepthImage) (features2D : List KeyPoint) (idealized_pts : List Point2f)
    (features3D : List Point3d) (descriptors : Descriptors) : PoseEstimator :=
  { self with
    reference_img_RGB_ := color_image
    reference_img_gray_ := mono_image
    reference_img_depth_ := depth_image
    reference2D_features_ := features2D
    reference2D_idealized_ := idealized_pts
    reference3D_features_ := features3D
    reference_descriptors_ := descriptors
    reference_set_ := true }

/-- The method `PoseEstimator::setReferenceView`, statement by statement: the three images and
the detected features are stored in the members first; with fewer than 200 features the method
returns there; otherwise descriptors, idealized points (return if undistortion throws) and 3D
points are stored and the flag is raised. -/
def setReferenceView (env : Vision) (self : PoseEstimator) (visual_image : Image)
    (depth_image_float : DepthImage) (depth_image_CV8UC1 : Image) : Except Fault PoseEstimator :=
  let gray_image := env.cvtColor visual_image
  let self1 : PoseEstimator :=
    { self with
      reference_img_RGB_ := visual_image
      reference_img_gray_ := gray_image
      reference_img_depth_ := depth_image_float }
  let self2 : PoseEstimator :=
    { self1 with
      reference2D_features_ := env.detect self.num_features_ gray_image depth_image_CV8UC1 }
  if self2.reference2D_features_.isEmpty || decide (self2.reference2D_features_.length < 200) then
    .ok self2
  else
    let smooth_gray := env.GaussianBlur gray_image
    let described := env.compute smooth_gray self2.reference2D_features_
    let self3 : PoseEstimator :=
      { self2 with
        reference2D_features_ := described.1
        reference_descriptors_ := described.2 }
    let feature_points := KeyPoint.convert self3.reference2D_features_
    match env.undistortPoints feature_points self3.rgb_camera_matrix_
        self3.rgb_camera_distortion_ self3.rgb_camera_P_ with
    | none => .ok self3
    | some idealized_pts =>
      let self4 : PoseEstimator := { self3 with reference2D_idealized_ := idealized_pts }
      match calc3DPoints depth_image_float self4.rgb_info_ feature_points idealized_pts
          self4.reference3D_features_ with
      | .error e => .error e
      | .ok pts => .ok { self4 with reference3D_features_ := pts, reference_set_ := true }

/-! ## Matching window -/

/-- The method `PoseEstimator::extractAngles`, returning `(roll, pitch, yaw)`. -/
def extractAngles (env : Vision) (rotation_matrix : CvMat) : Except Fault (ℚ × ℚ × ℚ) :=
  match rotation_matrix.entry 0 0 with
  | none => .error Fault.outOfRange
  | some m00 =>
    if m00 ≠ 0 then
      match rotation_matrix.entry 1 2, rotation_matrix.entry 2 2, rotation_matrix.entry 0 2,
            rotation_matrix.entry 0 1 with
      | some m12, some m22, some m02, some m01 =>
        let phi := env.atan2 m12 m22
        let theta := env.asin (-m02)
        let psi := env.atan2 m01 m00
        .ok (psi, phi, theta)
      | _, _, _, _ => .error Fault.outOfRange
    else .ok (0, 0, 0)

/-- The window `(wx, wy)` chosen from the angles of the rotation guess. -/
def windowForAngles (roll pitch yaw : ℚ) : Int × Int :=
  if |roll| > 0.2 then (120, 120)
  else if |pitch| > 0.12 then (300, 180)
  else if |yaw| > 0.12 then (250, 200)
  else (300, 200)

/-- The window `(wx, wy)` of `setCurrentAndFindTransform`: `(300, 200)` unless the entry `(0,0)`
of the rotation guess is at least `0.1`, in which case the angles decide. -/
def matchingWindow (env : Vision) (rotation_guess : CvMat) : Except Fault (Int × Int) :=
  match rotation_guess.entry 0 0 with
  | none => .error Fault.outOfRange
  | some g =>
    if g ≥ 0.1 ∨ g ≥ 0.1 ∨ g ≥ 0.1 then
      match extractAngles env rotation_guess with
      | .error e => .error e
      | .ok (roll, pitch, yaw) => .ok (windowForAngles roll pitch yaw)
    else .ok (300, 200)

/-! ## `setCurrentAndFindTransform` -/

/-- The covariance written on the success path (`*covariance << 0.0015, 0, ...`). -/
def fixedCovariance : Matrix (Fin 7) (Fin 7) ℚ :=
  Matrix.diagonal ![0.0015, 0.0015, 0.0012, 4.8e-5, 4.4e-4, 3.2e-5, 7.1e-8]

/-- Processing of a current frame with detected features (from `cv::GaussianBlur` to the call of
`calc3DPoints`): descriptors, raw and idealized points (none if undistortion throws, the exception
being caught), 3D points. -/
def processCurrent (env : Vision) (self : PoseEstimator) (a : Args) (gray_image : Image)
    (current2D_features : List KeyPoint) : Except Fault CurrentFrame :=
  let smooth_gray := env.GaussianBlur gray_image
  let described := env.compute smooth_gray current2D_features
  let feature_points_cur := KeyPoint.convert described.1
  let idealized_curr_pts :=
    match env.undistortPoints feature_points_cur self.rgb_camera_matrix_
        self.rgb_camera_distortion_ self.rgb_camera_P_ with
    | none => []
    | some pts => pts
  match calc3DPoints a.depth_curr_image_float self.rgb_info_ feature_points_cur
      idealized_curr_pts [] with
  | .error e => .error e
  | .ok current3D_features =>
    .ok { gray_image := gray_image
          current2D_features := described.1
          current_descriptors := described.2
          idealized_curr_pts := idealized_curr_pts
          current3D_features := current3D_features }

/-- Matching of a processed current frame against the reference (window, the two masks, forward
and reverse matching, mutual matches): the `final_matches`. -/
def currentMutualMatches (env : Vision) (self : PoseEstimator) (a : Args) (cf : CurrentFrame) :
    Except Fault (List DMatch) :=
  match matchingWindow env a.rotation_guess with
  | .error e => .error e
  | .ok (wx, wy) =>
    let mask := env.windowedMatchingMask cf.current2D_features self.reference2D_features_ wx wy
    let mask_r := env.windowedMatchingMask self.reference2D_features_ cf.current2D_features wx wy
    let forward_matches :=
      env.matcher_forward_ cf.current_descriptors self.reference_descriptors_ mask
    let reverse_matches :=
      env.matcher_reverse_ self.reference_descriptors_ cf.current_descriptors mask_r
    findMutualMatches forward_matches reverse_matches

/-- The reference after an optional promotion of the current frame (`if(setAsReference)
setCurrentAsReference(...)`). -/
def promote (self : PoseEstimator) (a : Args) (cf : CurrentFrame) : PoseEstimator :=
  if a.setAsReference then
    setCurrentAsReference self a.visual_cur_image cf.gray_image a.depth_curr_image_float
      cf.current2D_features cf.idealized_curr_pts cf.current3D_features cf.current_descriptors
  else self

/-- The call `ransac->runRANSAC(...)` of `setCurrentAndFindTransform` on the ordered arrays, with
the constructor arguments `(num_iterations_, 20, 0.95, rgb_info_, enable_optimizer_)` and the
result variables as initialised by the caller. -/
def callRANSAC (env : Vision) (self : PoseEstimator) (ord : Ordered) (inliers : Int) :
    RansacResult :=
  env.runRANSAC self.num_iterations_ 20 0.95 self.rgb_info_ self.enable_optimizer_
    ord.ordered_reference3D ord.ordered_current3D ord.ordered_current2D
    { final_rotation := CvMat.zeros 3 3
      final_translation := CvMat.zeros 3 1
      inliers := inliers
      inlier_list := []
      solution_list := []
      svd_D := CvMat.empty
      svd_U := CvMat.empty
      svd_V := CvMat.empty }

/-- The vector `trans_guess` read from entries `(0,0)`, `(1,0)`, `(2,0)` of the translation. -/
def readTranslation (translation_matrix : CvMat) : Except Fault Vector3d :=
  match translation_matrix.entry 0 0, translation_matrix.entry 1 0,
        translation_matrix.entry 2 0 with
  | some t0, some t1, some t2 => .ok ⟨t0, t1, t2⟩
  | _, _, _ => .error Fault.outOfRange

/-- The method `PoseEstimator::setCurrentAndFindTransform`: the returned `int`, the estimator
afterwards and the caller's output variables afterwards (display drawing is left out). -/
def setCurrentAndFindTransform (env : Vision) (self : PoseEstimator) (a : Args) (out : Outputs) :
    Except Fault (Int × PoseEstimator × Outputs) :=
  if self.reference_set_ = false then .error Fault.assertion
  else
    let gray_image := env.cvtColor a.visual_cur_image
    let current2D_features := env.detect self.num_features_ gray_image a.depth_curr_image_CV8UC1
    if current2D_features.isEmpty then
      if a.setAsReference then .ok (0, { self with reference_set_ := false }, out)
      else .ok (0, self, out)
    else
      match processCurrent env self a gray_image current2D_features with
      | .error e => .error e
      | .ok cf =>
        match currentMutualMatches env self a cf with
        | .error e => .error e
        | .ok final_matches =>
          if (final_matches.length : Int) ≤ 3 then
            .ok (0, promote self a cf,
              { out with
                corresponding := final_matches.length
                total := cf.idealized_curr_pts.length })
          else
            match orderCorrespondences self.reference3D_features_ self.reference2D_idealized_
                cf.current3D_features cf.idealized_curr_pts final_matches with
            | .error e => .error e
            | .ok ord =>
              let out1 : Outputs :=
                { out with
                  corresponding := final_matches.length
                  total := cf.idealized_curr_pts.length }
              let r := callRANSAC env self ord out1.inliers
              let out2 : Outputs := { out1 with inliers := r.inliers }
              if ¬ (r.final_rotation.cols = 3 ∧ r.final_rotation.rows = 3) then
                let self1 := promote self a cf
                .ok (0, self1,
                  { out2 with
                    corresponding := final_matches.length
                    total := self1.reference2D_idealized_.length })
              else
                let rot_guess := env.convertRToQuaternion r.final_rotation
                match readTranslation r.final_translation with
                | .error e => .error e
                | .ok trans_guess =>
                  let self1 : PoseEstimator :=
                    if self.enable_display_ then
                      { self with pose_vertex_id_ := self.pose_vertex_id_ + 1 }
                    else self
                  let out3 : Outputs :=
                    if self.enable_optimizer_ then out2
                    else
                      { out2 with
                        rotation := rot_guess
                        translation := trans_guess
                        rot_opt := ⟨1, 0, 0, 0⟩
                        tran_opt := ⟨0, 0, 0⟩ }
                  let out4 : Outputs := { out3 with covariance := fixedCovariance }
                  .ok (1, promote self1 a cf, out4)

/-- The features `grid_detector_->detect` finds in the current frame. -/
def currentFeatures (env : Vision) (self : PoseEstimator) (a : Args) : List KeyPoint :=
  env.detect self.num_features_ (env.cvtColor a.visual_cur_image) a.depth_curr_image_CV8UC1

/-- The processed current frame of a call of `setCurrentAndFindTransform`. -/
def currentFrame (env : Vision) (self : PoseEstimator) (a : Args) : Except Fault CurrentFrame :=
  processCurrent env self a (env.cvtColor a.visual_cur_image) (currentFeatures env self a)

/-- A frame handed to `setReferenceView`. -/
structure RefFrame where
  visual_image : Image
  depth_image_float : DepthImage
  depth_image_CV8UC1 : Image

/-- The features `grid_detector_->detect` finds in a frame handed to `setReferenceView`. -/
def detectedIn (env : Vision) (self : PoseEstimator) (f : RefFrame) : List KeyPoint :=
  env.detect self.num_features_ (env.cvtColor f.visual_image) f.depth_image_CV8UC1

/-- Consecutive calls of `setReferenceView`, one per frame, each on the estimator left by the
call before. -/
def setReferenceViews (env : Vision) : PoseEstimator → List RefFrame → Except Fault PoseEstimator
  | self, [] => .ok self
  | self, f :: rest =>
    match setReferenceView env self f.visual_image f.depth_image_float f.depth_image_CV8UC1 with
    | .error e => .error e
    | .ok self1 => setReferenceViews env self1 rest

/-! ## Worked examples (concrete inputs on which the theorems below are run) -/

/-- A forward list with one accepted and one rejected position. -/
def forwardExample : List DMatch := [⟨0, 1, 5⟩, ⟨1, 1, 7⟩]

/-- A reverse list for `forwardExample`. -/
def reverseExample : List DMatch := [⟨0, 0, 7⟩, ⟨1, 0, 5⟩]

/-- Reference 3D points for the worked example. -/
def ref3DExample : List Point3d := [⟨1, 2, 3⟩, ⟨4, 5, 6⟩]

/-- Reference idealized points for the worked example. -/
def ref2DExample : List Point2f := [⟨10, 20⟩, ⟨30, 40⟩]

/-- Current 3D points for the worked example. -/
def cur3DExample : List Point3d := [⟨7, 8, 9⟩, ⟨1, 1, 1⟩]

/-- Current idealized points for the worked example. -/
def cur2DExample : List Point2f := [⟨50, 60⟩, ⟨70, 80⟩]

/-- A 1×2 depth image: one NaN sample, one sample of two units. -/
def depthExample : DepthImage := [[DepthSample.nan, DepthSample.val 2]]

/-- A calibration with `fx = fy = 1` and `cx = cy = 1`. -/
def unitCalibration : CameraInfo := ⟨fun _ => 1, fun _ => 0, []⟩

/-- Two raw feature points, one on each sample of `depthExample`. -/
def rawExample : List Point2f := [⟨0, 0⟩, ⟨1, 0⟩]

/-- The idealized points of `rawExample`. -/
def undistortedExample : List Point2f := [⟨3, 5⟩, ⟨4, 2⟩]

/-- A 1×1 depth image whose only sample is a depth of zero. -/
def zeroDepthExample : DepthImage := [[DepthSample.val 0]]

/-- A stand-in for the library: one key point per mask row, at `x` = the row's length and `y = 0`;
one descriptor row per key point; undistortion that returns its input; matchers that pair
position `k` with position `k`; a RANSAC that leaves the result variables as initialised. -/
def exampleVision : Vision where
  cvtColor := fun img => img
  detect := fun _ _ mask => mask.map (fun row => KeyPoint.mk ⟨row.length, 0⟩ 1 0 0 0 0)
  GaussianBlur := fun img => img
  compute := fun _ kps => (kps, kps.map (fun _ => [0]))
  undistortPoints := fun pts _ _ _ => some pts
  windowedMatchingMask := fun _ _ _ _ => []
  matcher_forward_ := fun q _ _ =>
    (List.range q.length).map (fun (k : Nat) => DMatch.mk (Int.ofNat k) (Int.ofNat k) 0)
  matcher_reverse_ := fun q _ _ =>
    (List.range q.length).map (fun (k : Nat) => DMatch.mk (Int.ofNat k) (Int.ofNat k) 0)
  runRANSAC := fun _ _ _ _ _ _ _ _ init => init
  convertRToQuaternion := fun _ => ⟨1, 0, 0, 0⟩
  atan2 := fun _ _ => 0
  asin := fun _ => 0

/-- A 1×4 depth image. -/
def depthRow4 : DepthImage :=
  [[DepthSample.nan, DepthSample.val 2, DepthSample.val 3, DepthSample.val 1]]

/-- A mask on which `exampleVision` detects four key points, at `x = 0, 1, 2, 3`. -/
def mask4 : Image := [[], [0], [0, 0], [0, 0, 0]]

/-- A mask on which `exampleVision` detects two key points, at `x = 0, 1`. -/
def mask2 : Image := [[], [0]]

/-- The four key points of `mask4`. -/
def keyPoints4 : List KeyPoint :=
  [⟨⟨0, 0⟩, 1, 0, 0, 0, 0⟩, ⟨⟨1, 0⟩, 1, 0, 0, 0, 0⟩, ⟨⟨2, 0⟩, 1, 0, 0, 0, 0⟩,
   ⟨⟨3, 0⟩, 1, 0, 0, 0, 0⟩]

/-- The 3D points of `keyPoints4` on `depthRow4` under `unitCalibration`. -/
def points4 : List Point3d := [⟨-8, -8, 8⟩, ⟨0, -2, 2⟩, ⟨3, -3, 3⟩, ⟨2, -1, 1⟩]

/-- A constructed estimator with the unit calibration set. -/
def calibratedEstimator : PoseEstimator :=
  { PoseEstimator.construct false false with rgb_info_ := unitCalibration }

/-- An estimator whose reference is the four-feature frame. -/
def exampleEstimator : PoseEstimator :=
  setCurrentAsReference calibratedEstimator [[7]] [[7]] depthRow4 keyPoints4
    (KeyPoint.convert keyPoints4) points4 [[0], [0], [0], [0]]

/-- Caller variables before a call. -/
def exampleOut : Outputs :=
  ⟨⟨1, 0, 0, 0⟩, ⟨0, 0, 0⟩, 0, 0, 0, 0, ⟨1, 0, 0, 0⟩, ⟨0, 0, 0⟩⟩

/-- A call on a frame with four features, not to be promoted. -/
def exampleArgs4 : Args := ⟨[[1]], depthRow4, mask4, false, CvMat.zeros 3 3⟩

/-- A call on a frame with two features, to be promoted. -/
def exampleArgs2 : Args := ⟨[[1]], depthRow4, mask2, true, CvMat.zeros 3 3⟩

/-- A call on a frame with no feature, to be promoted. -/
def exampleArgs0 : Args := ⟨[[1]], depthRow4, [], true, CvMat.zeros 3 3⟩

/-- The processed four-feature frame. -/
def exampleFrame4 : CurrentFrame :=
  ⟨[[1]], keyPoints4, [[0], [0], [0], [0]], KeyPoint.convert keyPoints4, points4⟩

/-- The processed two-feature frame. -/
def exampleFrame2 : CurrentFrame :=
  ⟨[[1]], keyPoints4.take 2, [[0], [0]], KeyPoint.convert (keyPoints4.take 2), points4.take 2⟩

/-- A frame in which `exampleVision` detects two features. -/
def fewFeaturesFrame : RefFrame := ⟨[[1]], [[DepthSample.val 5]], mask2⟩

/-! ## Observers of a call's result (used to evaluate concrete runs) -/

/-- The fault a call stopped with, if it did not return. -/
def faultOf {α : Type} (r : Except Fault α) : Option Fault :=
  match r with
  | .ok _ => none
  | .error e => some e

/-- The returned `int` and the diagnostic outputs `corresponding`, `total` of a returned call. -/
def diagnosticsOf (r : Except Fault (Int × PoseEstimator × Outputs)) : Option (Int × Int × Int) :=
  match r with
  | .ok (ret, _, o) => some (ret, o.corresponding, o.total)
  | .error _ => none

/-- The returned `int` and the pose outputs `rotation`, `translation` of a returned call. -/
def poseOf (r : Except Fault (Int × PoseEstimator × Outputs)) :
    Option (Int × Quaterniond × Vector3d) :=
  match r with
  | .ok (ret, _, o) => some (ret, o.rotation, o.translation)
  | .error _ => none

/-- A matrix is symmetric positive semi-definite: it equals its transpose and its quadratic form
is nowhere negative. -/
def IsPSD {n : Type} [Fintype n] (M : Matrix n n ℚ) : Prop :=
  M.IsSymm ∧ ∀ x : n → ℚ, 0 ≤ Matrix.dotProduct x (M.mulVec x)

/-! ## Worked examples for the failure paths -/

/-- Caller variables holding values left by an earlier call. -/
def staleOut : Outputs :=
  ⟨⟨0, 1, 0, 0⟩, ⟨9, 9, 9⟩, 0, 0, 7, 9, ⟨1, 0, 0, 0⟩, ⟨0, 0, 0⟩⟩

/-- Five key points: those of `keyPoints4` and one more. -/
def keyPoints5 : List KeyPoint := keyPoints4 ++ [⟨⟨3, 0⟩, 1, 0, 0, 0, 0⟩]

/-- Five 3D points: those of `points4` and one more. -/
def points5 : List Point3d := points4 ++ [⟨2, -1, 1⟩]

/-- An estimator whose reference holds five features. -/
def exampleEstimator5 : PoseEstimator :=
  setCurrentAsReference calibratedEstimator [[7]] [[7]] depthRow4 keyPoints5
    (KeyPoint.convert keyPoints5) points5 [[0], [0], [0], [0], [0]]

/-- An estimator constructed with the optimizer enabled, its reference the four-feature frame. -/
def optimizingEstimator : PoseEstimator :=
  setCurrentAsReference { PoseEstimator.construct true false with rgb_info_ := unitCalibration }
    [[7]] [[7]] depthRow4 keyPoints4 (KeyPoint.convert keyPoints4) points4 [[0], [0], [0], [0]]

/-- The stand-in library with a RANSAC that finds no fit: the rotation it leaves is empty. -/
def failingRansacVision : Vision :=
  { exampleVision with
    runRANSAC := fun _ _ _ _ _ _ _ _ init => { init with final_rotation := CvMat.empty } }

/-- The stand-in library with an undistortion that throws. -/
def throwingVision : Vision :=
  { exampleVision with undistortPoints := fun _ _ _ _ => none }

/-- A rotation guess with a large roll angle and entry `(0,0)` below `0.1`: the half turn about
the axis `(1, 1, 1)`. -/
def halfTurnGuess : CvMat :=
  ⟨3, 3, [-1/3, 2/3, 2/3, 2/3, -1/3, 2/3, 2/3, 2/3, -1/3]⟩

/-- A rotation guess close to the identity with a roll above the threshold. -/
def rolledGuess : CvMat :=
  ⟨3, 3, [9/10, 2/5, 0, -2/5, 9/10, 0, 0, 0, 1]⟩

/-- The stand-in library with the values of `atan2` and `asin` needed for `halfTurnGuess` and
`rolledGuess` (`atan2(2/3, -1/3) ≈ 2.03`, `atan2(2/5, 9/10) ≈ 0.42`, `asin(-2/3) ≈ -0.73`). -/
def tableVision : Vision :=
  { exampleVision with
    atan2 := fun y x =>
      if y = 2/3 ∧ x = -1/3 then 2.03 else if y = 2/5 ∧ x = 9/10 then 0.42 else 0
    asin := fun v => if v = -2/3 then -0.73 else 0 }

/-! ## RANSAC sampling (`ransac.h`) -/

/-- The type `cv::Point2d`. -/
structure Point2d where
  x : ℚ
  y : ℚ
deriving DecidableEq

/-- Conversion of a `cv::Point2f` to a `cv::Point2d`. -/
def Point2f.toPoint2d (p : Point2f) : Point2d :=
  ⟨p.x, p.y⟩

/-- The part of the Qt runtime the sampler relies on: `QSet<int>::toList`, whose order is
unspecified; it lists exactly the elements of the set (given here in insertion order). -/
structure QtRuntime where
  toList : List Int → List Int
  toList_perm : ∀ s, (toList s).Perm s

/-- The loop of `RANSAC::uniformSampler`, run on the values still to come from
`rnd_gen->uniform(min, max)` and the set `sample` built so far (in insertion order):
`while(sample.count() < number_samples) { value = uniform(min, max);
   if(!sample.contains(value)) sample.insert(value); }`.
The result is `none` when the given draws are used up with the loop still running. -/
def uniformSamplerLoop (number_samples : Int) : List Int → List Int → Option (List Int)
  | [], sample => if (sample.length : Int) < number_samples then none else some sample
  | value :: rest, sample =>
    if (sample.length : Int) < number_samples then
      if sample.contains value then uniformSamplerLoop number_samples rest sample
      else uniformSamplerLoop number_samples rest (sample ++ [value])
    else some sample

/-- The method `RANSAC::uniformSampler(number_samples, min, max)`; `draws` are the successive
values of `rnd_gen->uniform(min, max)`. -/
def uniformSampler (rt : QtRuntime) (number_samples : Int) (_min _max : Int)
    (draws : List Int) : Option (List Int) :=
  (uniformSamplerLoop number_samples draws []).map rt.toList

/-- The four output vectors of `RANSAC::sample`. -/
structure Samples where
  reference_sample : List Point3d
  current_sample : List Point3d
  current2D_sample : List Point2d
  list : List Int
deriving DecidableEq

/-- The loop of `RANSAC::sample` over `sample_set`, pushing onto the four output vectors. -/
def sampleLoop (reference_points current_points : List Point3d)
    (current2D_points : List Point2f) : List Int → Samples → Except Fault Samples
  | [], acc => .ok acc
  | s :: rest, acc =>
    match vecAt reference_points s, vecAt current_points s, vecAt current2D_points s with
    | some r, some c, some c2 =>
      sampleLoop reference_points current_points current2D_points rest
        { reference_sample := acc.reference_sample ++ [r]
          current_sample := acc.current_sample ++ [c]
          current2D_sample := acc.current2D_sample ++ [c2.toPoint2d]
          list := acc.list ++ [s] }
    | _, _, _ => .error Fault.outOfRange

/-- The method `RANSAC::sample`; `prior` holds the contents of the four output vectors before
the call. Only `reference_sample` and `current_sample` are cleared before the loop. The result is
`none` when the sampler does not return on the given draws. -/
def sample (rt : QtRuntime) (draws : List Int) (reference_points current_points : List Point3d)
    (current2D_points : List Point2f) (prior : Samples) : Option (Except Fault Samples) :=
  match uniformSampler rt 3 0 reference_points.length draws with
  | none => none
  | some sample_set =>
    some (sampleLoop reference_points current_points current2D_points sample_set
      { reference_sample := []
        current_sample := []
        current2D_sample := prior.current2D_sample
        list := prior.list })

/-- A Qt runtime whose sets list their elements in insertion order. -/
def insertionOrder : QtRuntime :=
  ⟨fun s => s, fun s => List.Perm.refl s⟩

/-- Output vectors that already hold one 2D point and one index. -/
def priorSamples : Samples :=
  ⟨[⟨5, 5, 5⟩], [⟨6, 6, 6⟩], [⟨9, 9⟩], [7]⟩

/-! ## Covariance propagation (`calculateNewCovariance`) -/

/-- The type `Eigen::Matrix3d`. -/
abbrev Matrix3d := Matrix (Fin 3) (Fin 3) ℚ

/-- The assignment `X.block<k,k>(off, off) = B` of a square block on the diagonal of `X`. -/
def setBlock {N k : ℕ} (X : Matrix (Fin N) (Fin N) ℚ) (off : ℕ) (B : Matrix (Fin k) (Fin k) ℚ) :
    Matrix (Fin N) (Fin N) ℚ :=
  fun c d =>
    if h : off ≤ c.val ∧ c.val < off + k ∧ off ≤ d.val ∧ d.val < off + k then
      B ⟨c.val - off, by omega⟩ ⟨d.val - off, by omega⟩
    else X c d

/-- The selection matrix of the block at offset `off`: entry `(c, a)` is 1 when row `c` of the
large matrix is row `a` of the block. -/
def blockSelector (N k off : ℕ) : Matrix (Fin N) (Fin k) ℚ :=
  fun c a => if c.val = off + a.val then 1 else 0

/-- Step 1: the matrix `JacobianR1` (or `JacobianC1`) of one point, from its 3D position and
image location: entries `(0,0) = z/fx`, `(0,2) = (u - ox)/fx`, `(1,1) = z/fy`,
`(1,2) = (v - oy)/fy`, `(2,2) = 1`, all others zero. -/
def jacobian1 (fx fy ox oy : ℚ) (pt3 : Point3d) (pt2 : Point2f) : Matrix3d :=
  !![pt3.z / fx, 0, (pt2.x - ox) / fx;
     0, pt3.z / fy, (pt2.y - oy) / fy;
     0, 0, 1]

/-- Step 1: the loop `for (int i = 0; i < number; i++)` that pushes
`JacobianR1*image_noise_*JacobianR1.transpose()` onto `covariance_Ref_pts` and the same for the
current points onto `covariance_Cur_pts`; `remaining` iterations are left at counter `i`. -/
def pointCovariancesLoop (image_noise_ : Matrix3d) (fx fy ox oy : ℚ)
    (reference_image_pts current_image_pts : List Point2f)
    (reference_3D_pts current_3D_pts : List Point3d) :
    Nat → Nat → List Matrix3d → List Matrix3d → Except Fault (List Matrix3d × List Matrix3d)
  | 0, _, covariance_Ref_pts, covariance_Cur_pts => .ok (covariance_Ref_pts, covariance_Cur_pts)
  | remaining + 1, i, covariance_Ref_pts, covariance_Cur_pts =>
    match reference_3D_pts[i]?, reference_image_pts[i]?, current_3D_pts[i]?,
          current_image_pts[i]? with
    | some r3, some r2, some c3, some c2 =>
      let JacobianR1 := jacobian1 fx fy ox oy r3 r2
      let JacobianC1 := jacobian1 fx fy ox oy c3 c2
      pointCovariancesLoop image_noise_ fx fy ox oy reference_image_pts current_image_pts
        reference_3D_pts current_3D_pts remaining (i + 1)
        (covariance_Ref_pts ++ [JacobianR1 * image_noise_ * JacobianR1.transpose])
        (covariance_Cur_pts ++ [JacobianC1 * image_noise_ * JacobianC1.transpose])
    | _, _, _, _ => .error Fault.outOfRange

/-- The matrix `covariance_corresopond` (set to zero in the source). -/
def covariance_corresopond : Matrix3d := 0

/-- Step 2a: the matrix pushed for point `i`, the sum over `j` of
`(1 - 1/n)*(1 - 1/n)*cov[j] + covariance_corresopond` for `j = i` and of
`(1/n)*(1/n)*cov[j] + covariance_corresopond` for `j ≠ i`. -/
def centeredCovariance (n : ℚ) (covariance_pts : List Matrix3d) (i : Nat) : Matrix3d :=
  (covariance_pts.enum.map (fun jc =>
    if i = jc.1 then ((1 - 1 / n) * (1 - 1 / n)) • jc.2 + covariance_corresopond
    else ((1 / n) * (1 / n)) • jc.2 + covariance_corresopond)).sum

/-- Step 2b: the matrix `JacobianR2`, filled from a centered current point. -/
def jacobianR2 (p : Point3d) : Matrix (Fin 9) (Fin 3) ℚ :=
  !![p.x, 0, 0; p.x, 0, 0; p.x, 0, 0; 0, p.y, 0; 0, p.y, 0; 0, p.y, 0;
     0, 0, p.z; 0, 0, p.z; 0, 0, p.z]

/-- Step 2b: the matrix `JacobianC2`, filled from a centered reference point. -/
def jacobianC2 (p : Point3d) : Matrix (Fin 9) (Fin 3) ℚ :=
  !![p.x, 0, 0; p.y, 0, 0; p.z, 0, 0; 0, p.x, 0; 0, p.y, 0; 0, p.z, 0;
     0, 0, p.x; 0, 0, p.y; 0, 0, p.z]

/-- Step 2b: the loop accumulating `CovarianceH`, over the centered covariances of the points
still to visit, with the counter `i`. -/
def covarianceHLoop (reference_cent_3D_pts current_cent_3D_pts : List Point3d) :
    List (Matrix3d × Matrix3d) → Nat → Matrix (Fin 9) (Fin 9) ℚ →
      Except Fault (Matrix (Fin 9) (Fin 9) ℚ)
  | [], _, CovarianceH => .ok CovarianceH
  | (covariance_Ref_Cent_i, covariance_Cur_Cent_i) :: rest, i, CovarianceH =>
    match current_cent_3D_pts[i]?, reference_cent_3D_pts[i]? with
    | some c, some r =>
      covarianceHLoop reference_cent_3D_pts current_cent_3D_pts rest (i + 1)
        (CovarianceH +
          (jacobianR2 c * covariance_Ref_Cent_i * (jacobianR2 c).transpose +
           jacobianC2 r * covariance_Cur_Cent_i * (jacobianC2 r).transpose))
    | _, _ => .error Fault.outOfRange

/-- Step 3: the matrix `omega_Uij` for entry `(i, j)` of `H`: the three entries above the
diagonal from the closed forms, then `(1,0) = (0,1)`, `(2,0) = (0,2)`, `(2,1) = (1,2)`. -/
def omegaU (d1 d2 d3 : ℚ) (svd_U svd_V : Matrix3d) (i j : Fin 3) : Matrix3d :=
  let o01 := 1.0 * 1.0 / (d2 * d2 - d1 * d1) *
    (d2 * (svd_U i 0 * svd_V j 1) - d1 * (-svd_U i 1 * svd_V j 0))
  let o02 := 1.0 * 1.0 / (d3 * d3 - d1 * d1) *
    (d3 * (svd_U i 0 * svd_V j 2) - d1 * (-svd_U i 2 * svd_V j 0))
  let o12 := (1.0 / 1.0) * 1.0 / (d3 * d3 - d2 * d2) *
    (d3 * (svd_U i 1 * svd_V j 2) - d2 * (-svd_U i 2 * svd_V j 1))
  !![0, o01, o02; o01, 0, o12; o02, o12, 0]

/-- Step 3: the matrix `omega_Vij` for entry `(i, j)` of `H`, built like `omega_Uij`. -/
def omegaV (d1 d2 d3 : ℚ) (svd_U svd_V : Matrix3d) (i j : Fin 3) : Matrix3d :=
  let o01 := 1.0 * 1.0 / (d2 * d2 - d1 * d1) *
    (-d1 * (svd_U i 0 * svd_V j 1) + d2 * (-svd_U i 1 * svd_V j 0))
  let o02 := 1.0 * 1.0 / (d3 * d3 - d1 * d1) *
    (-d1 * (svd_U i 0 * svd_V j 2) + d3 * (-svd_U i 2 * svd_V j 0))
  let o12 := (1.0 / 1.0) * 1.0 / (d3 * d3 - d2 * d2) *
    (-d2 * (svd_U i 1 * svd_V j 2) + d3 * (-svd_U i 2 * svd_V j 1))
  !![0, o01, o02; o01, 0, o12; o02, o12, 0]

/-- Step 3: the flag `negateCol`, raised when `det(svd_V*svd_U.transpose()) < 0`. -/
def negateCol (svd_U svd_V : Matrix3d) : Bool :=
  decide ((svd_V * svd_U.transpose).det < 0)

/-- Step 3: the matrix `negColumn`, the identity with entry `(2,2)` set to `-1`. -/
def negColumn : Matrix3d :=
  Matrix.diagonal ![1, 1, -1]

/-- Step 3: the matrix `JacobianVUt` for entry `(i, j)` of `H`; in the second branch the factor
of `omega_Uij` is `svd_V*negateCol`, the flag taken as the number 1. -/
def jacobianVUt (svd_D svd_U svd_V : Matrix3d) (i j : Fin 3) : Matrix3d :=
  let d1 := svd_D 0 0
  let d2 := svd_D 1 0
  let d3 := svd_D 2 0
  let omega_Uij := omegaU d1 d2 d3 svd_U svd_V i j
  let omega_Vij := omegaV d1 d2 d3 svd_U svd_V i j
  if negateCol svd_U svd_V = false then
    -svd_V * omega_Vij * svd_U.transpose - svd_V * omega_Uij * svd_U.transpose
  else
    -svd_V * omega_Vij * negColumn * svd_U.transpose -
      ((if negateCol svd_U svd_V then (1 : ℚ) else 0) • svd_V) * omega_Uij * svd_U.transpose

/-- Step 3: the matrix `Jacobian3`. Column `position = 3*j + i` (loops `j` outer, `i` inner)
holds the three columns of the `JacobianVUt` of entry `(i, j)` stacked: row `3*c + r` is its entry
`(r, c)`. -/
def jacobian3 (svd_D svd_U svd_V : Matrix3d) : Matrix (Fin 9) (Fin 9) ℚ :=
  fun row position =>
    jacobianVUt svd_D svd_U svd_V
      ⟨position.val % 3, Nat.mod_lt _ (by decide)⟩ ⟨position.val / 3, by omega⟩
      ⟨row.val % 3, Nat.mod_lt _ (by decide)⟩ ⟨row.val / 3, by omega⟩

/-- Step 4: the matrix `Jacobian4`; `sqrt` and `pow` are the C library functions. -/
def jacobian4 (sqrt : ℚ → ℚ) (pow : ℚ → ℚ → ℚ) (R : Matrix3d) : Matrix (Fin 4) (Fin 9) ℚ :=
  let qw := 1.0 / 2.0 * sqrt (R 0 0 + R 1 1 + R 2 2 + 1.0)
  let dterm := R 0 0 + R 1 1 + R 2 2 + 1.0
  let j00 := (R 2 1 - R 1 2) / (4.0 * pow dterm (3.0 / 2.0))
  let j05 := -1.0 / (4. * qw)
  let j10 := (R 0 2 - R 2 0) / (4.0 * pow dterm (3.0 / 2.0))
  let j12 := 1.0 / (4.0 * qw)
  let j20 := (R 1 0 - R 0 1) / (4.0 * pow dterm (1.0 / 2.0))
  let j21 := -1.0 / (4.0 * qw)
  let j30 := 1.0 / (4.0 * sqrt dterm)
  !![j00, 0, 0, 0, j00, j05, 0, -j05, j00;
     j10, 0, j12, 0, j10, 0, -j12, 0, j10;
     j20, j21, 0, -j21, j20, 0, 0, 0, j20;
     j30, 0, 0, 0, j30, 0, 0, 0, j30]

/-- Step 5: the matrix `Jacobian5`. -/
def jacobian5 (reference_centroid_pt : Point3d) (R : Matrix3d) : Matrix (Fin 3) (Fin 15) ℚ :=
  let cx := reference_centroid_pt.x
  let cy := reference_centroid_pt.y
  let cz := reference_centroid_pt.z
  !![-cx, -cx, -cx, 0, 0, 0, 0, 0, 0, -R 0 0, -R 0 1, -R 0 2, 1, 0, 0;
     0, 0, 0, -cy, -cy, -cy, 0, 0, 0, -R 1 0, -R 1 1, -R 1 2, 0, 1, 0;
     0, 0, 0, 0, 0, 0, -cz, -cz, -cz, -R 2 0, -R 2 1, -R 2 2, 0, 0, 1]

/-- Step 5: a centroid covariance, the sum of `1.0/(n*n)*cov[i]`. -/
def centroidCovariance (n : ℚ) (covariance_pts : List Matrix3d) : Matrix3d :=
  (covariance_pts.map (fun c => (1.0 / (n * n)) • c)).sum

/-- Steps 3 to 5 of `calculateNewCovariance` and the final assembly, from `CovarianceH`, the
point covariances of step 1 and `n = (double)number`: `CovarianceR`, `CovarianceQ`, the centroid
covariances, `Combined_Covariance`, `CovarianceT`, and `finalCovariance` with its two blocks. The
`unique` flags of step 3 only decide what is printed and are left out. -/
def covarianceFromH (sqrt : ℚ → ℚ) (pow : ℚ → ℚ → ℚ) (n : ℚ)
    (covariance_Ref_pts covariance_Cur_pts : List Matrix3d)
    (CovarianceH : Matrix (Fin 9) (Fin 9) ℚ) (reference_centroid_pt : Point3d)
    (svd_U svd_V svd_D R : Matrix3d) : Matrix (Fin 7) (Fin 7) ℚ :=
  let Jacobian3 := jacobian3 svd_D svd_U svd_V
  let CovarianceR := Jacobian3 * CovarianceH * Jacobian3.transpose
  let Jacobian4 := jacobian4 sqrt pow R
  let CovarianceQ := (1000000.0 : ℚ) • (Jacobian4 * CovarianceR * Jacobian4.transpose)
  let Covariance_Ref_C := centroidCovariance n covariance_Ref_pts
  let Covariance_Cur_C := centroidCovariance n covariance_Cur_pts
  let Jacobian5 := jacobian5 reference_centroid_pt R
  let Combined_Covariance : Matrix (Fin 15) (Fin 15) ℚ :=
    setBlock (setBlock (setBlock 0 0 CovarianceR) 9 Covariance_Ref_C) 12 Covariance_Cur_C
  let CovarianceT := (20 : ℚ) • (Jacobian5 * Combined_Covariance * Jacobian5.transpose)
  setBlock (setBlock 0 0 CovarianceT) 3 CovarianceQ

/-- The method `PoseEstimator::calculateNewCovariance`; `sqrt` and `pow` are the C library
functions. Steps 1 and 2 read the input vectors (a read outside a vector is a fault); steps 3 to 5
are `covarianceFromH`. The argument `T` is not used by the method. -/
def calculateNewCovariance (sqrt : ℚ → ℚ) (pow : ℚ → ℚ → ℚ) (self : PoseEstimator)
    (reference_image_pts current_image_pts : List Point2f)
    (reference_3D_pts current_3D_pts reference_cent_3D_pts current_cent_3D_pts : List Point3d)
    (reference_centroid_pt : Point3d) (svd_U svd_V svd_D R : Matrix3d) (_T : Vector3d) :
    Except Fault (Matrix (Fin 7) (Fin 7) ℚ) :=
  match self.rgb_camera_P_.entry 0 0, self.rgb_camera_P_.entry 1 1,
        self.rgb_camera_P_.entry 0 2, self.rgb_camera_P_.entry 1 2 with
  | some fx, some fy, some ox, some oy =>
    match pointCovariancesLoop self.image_noise_ fx fy ox oy reference_image_pts
        current_image_pts reference_3D_pts current_3D_pts reference_image_pts.length 0 [] [] with
    | .error e => .error e
    | .ok (covariance_Ref_pts, covariance_Cur_pts) =>
      match covarianceHLoop reference_cent_3D_pts current_cent_3D_pts
          (((List.range reference_image_pts.length).map
              (centeredCovariance (reference_image_pts.length : ℚ) covariance_Ref_pts)).zip
            ((List.range reference_image_pts.length).map
              (centeredCovariance (reference_image_pts.length : ℚ) covariance_Cur_pts)))
          0 0 with
      | .error e => .error e
      | .ok CovarianceH =>
        .ok (covarianceFromH sqrt pow (reference_image_pts.length : ℚ) covariance_Ref_pts
          covariance_Cur_pts CovarianceH reference_centroid_pt svd_U svd_V svd_D R)
  | _, _, _, _ => .error Fault.outOfRange

/-! ## The covariance the specification describes for a successful call -/

/-- Modelled from the spec: `RANSAC::findCentroid`, whose code (`ransac.cpp`) is not among the
embedded files. The centroid is the mean position of the point set; the centered points are the
points minus the centroid. The result is the pair (centered points, centroid). -/
def findCentroid (inpoints3D : List Point3d) : List Point3d × Point3d :=
  let n : ℚ := inpoints3D.length
  let centroid : Point3d :=
    ⟨(inpoints3D.map (fun p => p.x)).sum / n, (inpoints3D.map (fun p => p.y)).sum / n,
     (inpoints3D.map (fun p => p.z)).sum / n⟩
  (inpoints3D.map (fun p => ⟨p.x - centroid.x, p.y - centroid.y, p.z - centroid.z⟩), centroid)

/-- The entries of a vector at the indices of `solution_list`, in that order. -/
def pickSample {α : Type} (xs : List α) : List Int → Except Fault (List α)
  | [] => .ok []
  | s :: rest =>
    match vecAt xs s, pickSample xs rest with
    | some x, .ok picked => .ok (x :: picked)
    | _, _ => .error Fault.outOfRange

/-- The conversion `cv2eigen` of a `cv::Mat` to an `Eigen::Matrix3d`; an entry the source does
not have is taken as 0. -/
def CvMat.toMatrix3d (m : CvMat) : Matrix3d :=
  fun i j => (m.entry i.val j.val).getD 0

/-- The covariance claim C14 describes, following the spec's words (and the call that stands
commented out in `setCurrentAndFindTransform`): `calculateNewCovariance` applied to the RANSAC
winning sample (the points of the ordered arrays at `solution_list`), its 2D observations, the
centered points and reference centroid of the sample, the SVD factors of that sample and the
rotation. -/
def winningSampleCovariance (sqrt : ℚ → ℚ) (pow : ℚ → ℚ → ℚ) (self : PoseEstimator)
    (ord : Ordered) (r : RansacResult) (translation : Vector3d) :
    Except Fault (Matrix (Fin 7) (Fin 7) ℚ) :=
  match pickSample ord.ordered_reference2D r.solution_list,
        pickSample ord.ordered_current2D r.solution_list,
        pickSample ord.ordered_reference3D r.solution_list,
        pickSample ord.ordered_current3D r.solution_list with
  | .ok reference_image_pts, .ok current_image_pts, .ok reference_3D_pts, .ok current_3D_pts =>
    calculateNewCovariance sqrt pow self reference_image_pts current_image_pts reference_3D_pts
      current_3D_pts (findCentroid reference_3D_pts).1 (findCentroid current_3D_pts).1
      (findCentroid reference_3D_pts).2 r.svd_U.toMatrix3d r.svd_V.toMatrix3d
      r.svd_D.toMatrix3d r.final_rotation.toMatrix3d translation
  | _, _, _, _ => .error Fault.outOfRange

/-- An estimator like `exampleEstimator` whose projection matrix is set (`fx = fy = 1`,
`ox = oy = 1`). -/
def covarianceEstimator : PoseEstimator :=
  { exampleEstimator with rgb_camera_P_ := ⟨3, 4, [1, 0, 1, 0, 0, 1, 1, 0, 0, 0, 1, 0]⟩ }

/-- The stand-in library with a RANSAC that reports the identity motion fitted on the sample
`0, 1, 2`, with singular values `3, 2, 1` and identity factors `U`, `V`. -/
def svdVision : Vision :=
  { exampleVision with
    runRANSAC := fun _ _ _ _ _ _ _ _ init =>
      { init with
        final_rotation := ⟨3, 3, [1, 0, 0, 0, 1, 0, 0, 0, 1]⟩
        inliers := 4
        inlier_list := [0, 1, 2, 3]
        solution_list := [0, 1, 2]
        svd_D := ⟨3, 1, [3, 2, 1]⟩
        svd_U := ⟨3, 3, [1, 0, 0, 0, 1, 0, 0, 0, 1]⟩
        svd_V := ⟨3, 3, [1, 0, 0, 0, 1, 0, 0, 0, 1]⟩ } }

/-- The values of `sqrt` needed for the identity rotation (`sqrt(4) = 2`). -/
def sqrtTable : ℚ → ℚ :=
  fun x => if x = 4 then 2 else 0

/-- The values of `pow` needed for the identity rotation (`pow(4, 1.5) = 8`, `pow(4, 0.5) = 2`). -/
def powTable : ℚ → ℚ → ℚ :=
  fun x y => if x = 4 ∧ y = 3 / 2 then 8 else if x = 4 ∧ y = 1 / 2 then 2 else 0

/-- The ordered arrays of the four-feature frame against the four-feature reference. -/
def exampleOrdered4 : Ordered :=
  ⟨points4, KeyPoint.convert keyPoints4, points4, KeyPoint.convert keyPoints4⟩

/-- The 3D points of the sample `0, 1, 2` of the four-feature frame. -/
def samplePoints3D : List Point3d := [⟨-8, -8, 8⟩, ⟨0, -2, 2⟩, ⟨3, -3, 3⟩]

/-- The image points of the sample `0, 1, 2` of the four-feature frame. -/
def sampleImagePoints : List Point2f := [⟨0, 0⟩, ⟨1, 0⟩, ⟨2, 0⟩]

/-- The singular values `3, 2, 1` in the first column, as `svd_D` is read. -/
def sampleSingularValues : Matrix3d := !![3, 0, 0; 2, 0, 0; 1, 0, 0]

/-! ## Step 3 of `calculateNewCovariance`: the singular-value test -/

/-- The four flags `unique`, `unique12`, `unique13`, `unique23` of step 3. -/
structure UniqueFlags where
  unique : Bool
  unique12 : Bool
  unique13 : Bool
  unique23 : Bool
deriving DecidableEq

/-- Step 3: the test "Check to see if the singular values are unique". The three pairwise tests
form an `if` / `else if` / `else if` chain, each clearing one flag; `unique` is cleared when two
of the pairwise flags are cleared. The helper `maximum` is declared outside the embedded files and
is taken as a parameter. -/
def singularValueFlags (maximum : ℚ → ℚ → ℚ → ℚ) (svd_D : Matrix3d) : UniqueFlags :=
  let d1 := svd_D 0 0
  let d2 := svd_D 1 0
  let d3 := svd_D 2 0
  let TOLERANCE : ℚ := 0.01
  let pairwise : Bool × Bool × Bool :=
    if |d1 - d2| ≤ TOLERANCE * maximum 1.0 |d1| |d2| then (false, true, true)
    else if |d1 - d3| ≤ TOLERANCE * maximum 1.0 |d1| |d3| then (true, false, true)
    else if |d2 - d3| ≤ TOLERANCE * maximum 1.0 |d2| |d3| then (true, true, false)
    else (true, true, true)
  let unique12 := pairwise.1
  let unique13 := pairwise.2.1
  let unique23 := pairwise.2.2
  let unique :=
    if (!unique12 && !unique13) || (!unique12 && !unique23) || (!unique13 && !unique23) then false
    else true
  ⟨unique, unique12, unique13, unique23⟩

/-- Step 3: whether the diagnostic `ROS_WARN("SVD Resulted in None-Uniqe singular values:
minimum-norm solution used!")` is issued (`if(!unique)`). -/
def warnsNonUnique (maximum : ℚ → ℚ → ℚ → ℚ) (svd_D : Matrix3d) : Bool :=
  !(singularValueFlags maximum svd_D).unique

/-- Modelled from the spec: the helper `maximum(a, b, c)`, declared outside the embedded files:
the largest of its three arguments (the `max(1, |di|, |dj|)` of the relative tolerance). -/
def maximum (a b c : ℚ) : ℚ :=
  max a (max b c)

/-- Singular values `2.01, 2, 1` in the first column: the first two differ by `0.01`, within the
relative tolerance `0.01 * 2.01`. -/
def closeSingularValues : Matrix3d := !![201/100, 0, 0; 2, 0, 0; 1, 0, 0]

/-- Singular values `2.01, 2, 1.99` in the first column: every pair is within the relative
tolerance. -/
def crowdedSingularValues : Matrix3d := !![201/100, 0, 0; 2, 0, 0; 199/100, 0, 0]

/-! ## The quantities the Jacobians of steps 2 to 5 are claimed to differentiate -/

/-- The coordinates of a point as a vector. -/
def Point3d.toVec (p : Point3d) : Fin 3 → ℚ :=
  ![p.x, p.y, p.z]

/-- The flattening of a 3×3 matrix by rows: position `k` stands for entry `(k / 3, k % 3)`. -/
def rowMajor (k : Fin 9) : Fin 3 × Fin 3 :=
  (⟨k.val / 3, by omega⟩, ⟨k.val % 3, Nat.mod_lt _ (by decide)⟩)

/-- The order in which `CovarianceR` lays out the entries of `R`: `Jacobian3` stores column `c`
of `JacobianVUt` in its rows `3c, 3c+1, 3c+2`, so position `k` stands for entry
`(k % 3, k / 3)`. -/
def rotationLayout (k : Fin 9) : Fin 3 × Fin 3 :=
  (⟨k.val % 3, Nat.mod_lt _ (by decide)⟩, ⟨k.val / 3, by omega⟩)

/-- Modelled from the spec: the cross-covariance matrix
`H = Σ (current_centered · reference_centered^T)` of a sample of `n` matched points (it is built
in `ransac.cpp`, which is not among the embedded files). -/
def crossCovarianceH {n : ℕ} (current_centered reference_centered : Fin n → Point3d) : Matrix3d :=
  ∑ i, Matrix.vecMulVec (current_centered i).toVec (reference_centered i).toVec

/-- Three centered current points of a sample (they add up to zero); the first is `(1, 2, 3)`. -/
def sampleCentered : Fin 3 → Point3d :=
  ![⟨1, 2, 3⟩, ⟨-1, 0, -1⟩, ⟨0, -2, -2⟩]

/-- A point moved by a displacement. -/
def Point3d.displace (p : Point3d) (δ : Fin 3 → ℚ) : Point3d :=
  ⟨p.x + δ 0, p.y + δ 1, p.z + δ 2⟩

/-- Modelled from the spec: the translation `T = current_centroid − R·reference_centroid` (it is
computed in `ransac.cpp`, which is not among the embedded files). -/
def translationFromCentroids (R : Matrix3d) (reference_centroid current_centroid : Point3d) :
    Fin 3 → ℚ :=
  current_centroid.toVec - R.mulVec reference_centroid.toVec

/-- The column of `Jacobian5` for position `k` of the flattened rotation (columns `0..8`; the
two centroids take columns `9..11` and `12..14`). -/
def rotationColumn (k : Fin 9) : Fin 15 := ⟨k.val, by omega⟩

/-- The column of `Jacobian5` for coordinate `k` of the reference centroid. -/
def referenceCentroidColumn (k : Fin 3) : Fin 15 := ⟨9 + k.val, by omega⟩

/-- The column of `Jacobian5` for coordinate `k` of the current centroid. -/
def currentCentroidColumn (k : Fin 3) : Fin 15 := ⟨12 + k.val, by omega⟩

/-- Modelled from the spec: the quaternion `(qx, qy, qz, qw)` of a rotation matrix by the trace
formula, `qw = ½·sqrt(1 + trace R)` and the vector part the antisymmetric differences of `R`
divided by `4·qw`; written over any field with a square root so that it can be evaluated on
rationals and differentiated on reals. -/
def traceQuaternion {K : Type} [Field K] (sqrt : K → K) (R : Matrix (Fin 3) (Fin 3) K) :
    Fin 4 → K :=
  let qw := 1 / 2 * sqrt (1 + (R 0 0 + R 1 1 + R 2 2))
  ![(R 2 1 - R 1 2) / (4 * qw), (R 0 2 - R 2 0) / (4 * qw), (R 1 0 - R 0 1) / (4 * qw), qw]

/-- The rotation about the z axis by the angle with cosine `-7/25` and sine `24/25`
(`1 + trace = 36/25`). -/
def zTurn : Matrix3d := !![-7/25, -24/25, 0; 24/25, -7/25, 0; 0, 0, 1]

/-- The rotation about the x axis by the same angle: `zTurn` with the axes permuted cyclically
(`z → x → y → z`). -/
def xTurn : Matrix3d := !![1, 0, 0; 0, -7/25, -24/25; 0, 24/25, -7/25]

/-- The values of `sqrt` needed for `zTurn` and `xTurn` (`sqrt(36/25) = 6/5`). -/
def sqrtTurn : ℚ → ℚ :=
  fun x => if x = 36/25 then 6/5 else 0

/-- The values of `pow` needed for `zTurn` and `xTurn` (`pow(36/25, 1.5) = 216/125`,
`pow(36/25, 0.5) = 6/5`). -/
def powTurn : ℚ → ℚ → ℚ :=
  fun x y => if x = 36/25 ∧ y = 3/2 then 216/125 else if x = 36/25 ∧ y = 1/2 then 6/5 else 0

/-! ## The centered covariance the specification describes -/

/-- The centered-point covariance in the spec's words, for point `i` of a sample with per-point
covariances `C_0 .. C_(n-1)`: `(1 − 1/n)²·C_i + Σ_{j≠i} (1/n)²·C_j`. -/
def centeredCovarianceSpec (covariances : List Matrix3d) (i : Nat) : Matrix3d :=
  let n : ℚ := covariances.length
  ((1 - 1 / n) ^ 2) • covariances.getD i 0 +
    ∑ j in (Finset.range covariances.length).erase i, ((1 / n) ^ 2) • covariances.getD j 0

/-! ## A reachable estimator state -/

/-- A calibration with `fx = fy = 1`, `cx = cy = 1` and one distortion coefficient. -/
def kinectCalibration : CameraInfo := ⟨fun _ => 1, fun _ => 0, [0]⟩

/-- The number of features of the dense frame: the least number `setReferenceView` accepts. -/
def denseCount : Nat := 200

/-- A frame in which `exampleVision` detects 200 features, all at pixel `(0, 0)`. -/
def denseFrame : RefFrame := ⟨[[1]], depthRow4, List.replicate denseCount []⟩

/-- The estimator after construction, `setKinectCalibration` and one `setReferenceView` call per
frame of the list. -/
def estimatorAfter (env : Vision) (frames : List RefFrame) : Except Fault PoseEstimator :=
  match setKinectCalibration (PoseEstimator.construct false false) kinectCalibration
      kinectCalibration with
  | .error e => .error e
  | .ok self => setReferenceViews env self frames

/-- The stand-in library with an undistortion that throws on fewer than 200 points. -/
def shortThrowVision : Vision :=
  { exampleVision with
    undistortPoints := fun pts _ _ _ => if pts.length < 200 then none else some pts }

/-- The key point `exampleVision` detects for an empty mask row: pixel `(0, 0)`. -/
def originKeyPoint : KeyPoint := ⟨⟨0, 0⟩, 1, 0, 0, 0, 0⟩

/-- The estimator after construction and `setKinectCalibration` with `kinectCalibration`. -/
def calibratedByCall : PoseEstimator :=
  { PoseEstimator.construct false false with
    depth_info_ := kinectCalibration
    rgb_info_ := kinectCalibration
    rgb_camera_matrix_ := ⟨3, 3, [1, 0, 1, 0, 1, 1, 0, 0, 1]⟩
    rgb_camera_P_ := ⟨3, 4, [0, 0, 0, 0, 0, 0, 0, 0, 0, 0, 1, 0]⟩
    rgb_camera_distortion_ := [0] }

/-- The reference a successful `setReferenceView` on `denseFrame` leaves in the calibrated
estimator, given the 3D points computed for the frame. -/
def denseReference (pts : List Point3d) : PoseEstimator :=
  { calibratedByCall with
    reference_img_RGB_ := [[1]]
    reference_img_gray_ := [[1]]
    reference_img_depth_ := depthRow4
    reference2D_features_ := List.replicate denseCount originKeyPoint
    reference_descriptors_ := List.replicate denseCount [0]
    reference2D_idealized_ := List.replicate denseCount ⟨0, 0⟩
    reference3D_features_ := pts
    reference_set_ := true }

/-- The flag and the lengths of the four reference arrays (2D features, idealized points, 3D
points, descriptor rows) of an estimator. -/
def referenceShape (self : PoseEstimator) : Bool × Nat × Nat × Nat × Nat :=
  (self.reference_set_, self.reference2D_features_.length, self.reference2D_idealized_.length,
    self.reference3D_features_.length, self.reference_descriptors_.length)

/-! ## Mutual matches with the read of `reverse_matches` as the code makes it -/

/-- The read `reverse_matches[k]` of the mutual-match loop as the code makes it, without a range
check. Inside the vector it finds the element. Outside it the behaviour is undefined: `past k`
is what the read finds in the memory past the vector (`some`), or nothing when the program stops
at the read (`none`). That memory is taken as fixed while the loop runs. -/
def uncheckedRead (past : Int → Option DMatch) (reverse_matches : List DMatch) (k : Int) :
    Option DMatch :=
  match vecAt reverse_matches k with
  | some r => some r
  | none => past k

/-- The loop
`for(int i = 0; i < (int)forward_matches.size(); i++)
   if(reverse_matches[forward_matches[i].trainIdx].trainIdx == i)
     final_matches.push_back(cv::DMatch(i,forward_matches[i].trainIdx,0.f));`
with the read of `reverse_matches` unchecked (`uncheckedRead`), run on the forward matches still
to visit, the loop counter `i` and the `final_matches` built so far. -/
def findMutualMatchesLoopUnchecked (past : Int → Option DMatch) (reverse_matches : List DMatch) :
    List DMatch → Int → List DMatch → Except Fault (List DMatch)
  | [], _, final_matches => .ok final_matches
  | f :: rest, i, final_matches =>
    match uncheckedRead past reverse_matches f.trainIdx with
    | none => .error Fault.outOfRange
    | some r =>
      if r.trainIdx = i then
        findMutualMatchesLoopUnchecked past reverse_matches rest (i + 1)
          (final_matches ++ [DMatch.mk i f.trainIdx 0])
      else
        findMutualMatchesLoopUnchecked past reverse_matches rest (i + 1) final_matches

/-- The mutual-match selection with the unchecked read: the loop started at `i = 0` with an empty
`final_matches`. -/
def findMutualMatchesUnchecked (past : Int → Option DMatch)
    (forward_matches reverse_matches : List DMatch) : Except Fault (List DMatch) :=
  findMutualMatchesLoopUnchecked past reverse_matches forward_matches 0 []

/-- A forward list whose only match goes to reference index 5. -/
def strayForward : List DMatch := [⟨0, 5, 1⟩]

/-- A reverse list with a single entry, so without a position 5. -/
def strayReverse : List DMatch := [⟨0, 0, 1⟩]

/-- Memory past the vector that reads as zero bytes: every field of the `cv::DMatch` found there
is 0. -/
def zeroedMemory : Int → Option DMatch :=
  fun _ => some ⟨0, 0, 0⟩

/-- A calibration with four distinct intrinsics: `fx = K[0] = 2`, `cx = K[2] = 1`,
`fy = K[4] = 4`, `cy = K[5] = 3`. -/
def pinholeCalibration : CameraInfo :=
  ⟨fun i => if i = 0 then 2 else if i = 2 then 1 else if i = 4 then 4 else if i = 5 then 3
    else 0, fun _ => 0, []⟩

/-! ## The covariance propagation where a divisor is zero -/

/-- The divisors of `calculateNewCovariance`, in the order the method meets them: `fx` and `fy`
(step 1, inside the loop over the points, so only when `number` is not zero);
`d2*d2 - d1*d1`, `d3*d3 - d1*d1` and `d3*d3 - d2*d2` (step 3);
`4.0*pow(dterm,3.0/2.0)`, `4.*qw`, `4.0*pow(dterm,1.0/2.0)` and `4.0*sqrt(dterm)` (step 4).
The divisor `n` of steps 2 and 5 is `(double)number`, met only inside loops over the points,
where it is not zero; the divisors `1.0` and `2.0` are constants. -/
def covarianceDivisors (sqrt : ℚ → ℚ) (pow : ℚ → ℚ → ℚ) (number : Nat) (fx fy : ℚ)
    (svd_D R : Matrix3d) : List ℚ :=
  let d1 := svd_D 0 0
  let d2 := svd_D 1 0
  let d3 := svd_D 2 0
  let qw := 1.0 / 2.0 * sqrt (R 0 0 + R 1 1 + R 2 2 + 1.0)
  let dterm := R 0 0 + R 1 1 + R 2 2 + 1.0
  (if number = 0 then [] else [fx, fy]) ++
    [d2 * d2 - d1 * d1, d3 * d3 - d1 * d1, d3 * d3 - d2 * d2,
     4.0 * pow dterm (3.0 / 2.0), 4. * qw, 4.0 * pow dterm (1.0 / 2.0), 4.0 * sqrt dterm]

/-- The method `PoseEstimator::calculateNewCovariance` with the quotients of `double`
arithmetic. A `double` quotient by zero is `inf` or NaN, not a number, and sums and products
carry it on: every divisor of the method enters a matrix product whose result reaches
`finalCovariance`, so with a zero divisor the returned matrix has entries that are not numbers
and the result is `none`. With no zero divisor the quotients are the exact ones and the result
is the matrix of `calculateNewCovariance`. -/
def calculateNewCovarianceDouble (sqrt : ℚ → ℚ) (pow : ℚ → ℚ → ℚ) (self : PoseEstimator)
    (reference_image_pts current_image_pts : List Point2f)
    (reference_3D_pts current_3D_pts reference_cent_3D_pts current_cent_3D_pts : List Point3d)
    (reference_centroid_pt : Point3d) (svd_U svd_V svd_D R : Matrix3d) (T : Vector3d) :
    Except Fault (Option (Matrix (Fin 7) (Fin 7) ℚ)) :=
  match self.rgb_camera_P_.entry 0 0, self.rgb_camera_P_.entry 1 1 with
  | some fx, some fy =>
    match calculateNewCovariance sqrt pow self reference_image_pts current_image_pts
        reference_3D_pts current_3D_pts reference_cent_3D_pts current_cent_3D_pts
        reference_centroid_pt svd_U svd_V svd_D R T with
    | .error e => .error e
    | .ok finalCovariance =>
      if (0 : ℚ) ∈ covarianceDivisors sqrt pow reference_image_pts.length fx fy svd_D R then
        .ok none
      else
        .ok (some finalCovariance)
  | _, _ => .error Fault.outOfRange

/-- The rotation by a half turn about the x axis (`1 + trace = 0`). -/
def halfTurn : Matrix3d := !![1, 0, 0; 0, -1, 0; 0, 0, -1]

/-! ## Properties -/

/-- A vector read has a value exactly at a non-negative index holding that value. -/
theorem vecAt_eq_some_iff {α : Type} (xs : List α) (i : Int) (x : α) :
    vecAt xs i = some x ↔ 0 ≤ i ∧ xs[i.toNat]? = some x := by
  unfold vecAt
  split <;> simp_all

/-- A vector read at a natural-number index is the list lookup. -/
theorem vecAt_natCast {α : Type} (xs : List α) (k : Nat) : vecAt xs (k : Int) = xs[k]? := by
  simp [vecAt]

/-- A vector read has a value exactly at the positions of the vector. -/
theorem vecAt_isSome_iff {α : Type} (xs : List α) (i : Int) :
    (vecAt xs i).isSome ↔ 0 ≤ i ∧ i < xs.length := by
  unfold vecAt
  split
  · rename_i h
    rw [Option.isSome_iff_exists]
    constructor
    · rintro ⟨a, ha⟩
      have := (List.getElem?_eq_some_iff.1 ha).1
      omega
    · rintro ⟨_, h2⟩
      have : i.toNat < xs.length := by omega
      exact ⟨xs[i.toNat], List.getElem?_eq_getElem this⟩
  · simp; intro h; omega

/-- Invariant of the mutual-match loop: the matches present at the end are those present at the
start together with the accepted positions of the part still to visit. -/
theorem findMutualMatchesLoop_mem (reverse_matches : List DMatch) :
    ∀ (rest : List DMatch) (i : Int) (acc final : List DMatch),
      findMutualMatchesLoop reverse_matches rest i acc = .ok final →
      ∀ m : DMatch, m ∈ final ↔
        (m ∈ acc ∨ ∃ (k : Nat) (f r : DMatch), rest[k]? = some f ∧
          vecAt reverse_matches f.trainIdx = some r ∧ r.trainIdx = i + k ∧
          m = DMatch.mk (i + k) f.trainIdx 0) := by
  intro rest
  induction rest with
  | nil =>
    intro i acc final h m
    simp [findMutualMatchesLoop] at h
    subst h
    simp
  | cons f rest ih =>
    intro i acc final h m
    unfold findMutualMatchesLoop at h
    cases hr : vecAt reverse_matches f.trainIdx with
    | none => simp [hr] at h
    | some r =>
      simp only [hr] at h
      by_cases hri : r.trainIdx = i
      · rw [if_pos hri] at h
        rw [ih _ _ _ h m]
        constructor
        · rintro (hm | ⟨k, f', r', hk, hv, hrt, hm⟩)
          · rcases List.mem_append.1 hm with hm | hm
            · exact Or.inl hm
            · right
              refine ⟨0, f, r, by simp, hr, by simpa using hri, ?_⟩
              simpa using hm
          · right
            refine ⟨k + 1, f', r', by simpa using hk, hv, ?_, ?_⟩
            · rw [hrt]; push_cast; ring
            · rw [hm]; congr 1; push_cast; ring
        · rintro (hm | ⟨k, f', r', hk, hv, hrt, hm⟩)
          · exact Or.inl (List.mem_append.2 (Or.inl hm))
          · cases k with
            | zero =>
              simp at hk
              subst hk
              left
              simp [hm]
            | succ k =>
              right
              refine ⟨k, f', r', by simpa using hk, hv, ?_, ?_⟩
              · rw [hrt]; push_cast; ring
              · rw [hm]; congr 1; push_cast; ring
      · rw [if_neg hri] at h
        rw [ih _ _ _ h m]
        constructor
        · rintro (hm | ⟨k, f', r', hk, hv, hrt, hm⟩)
          · exact Or.inl hm
          · right
            refine ⟨k + 1, f', r', by simpa using hk, hv, ?_, ?_⟩
            · rw [hrt]; push_cast; ring
            · rw [hm]; congr 1; push_cast; ring
        · rintro (hm | ⟨k, f', r', hk, hv, hrt, hm⟩)
          · exact Or.inl hm
          · cases k with
            | zero =>
              simp at hk
              subst hk
              rw [hr] at hv
              simp at hv
              subst hv
              simp at hrt
              exact absurd hrt hri
            | succ k =>
              right
              refine ⟨k, f', r', by simpa using hk, hv, ?_, ?_⟩
              · rw [hrt]; push_cast; ring
              · rw [hm]; congr 1; push_cast; ring

/-- The mutual-match loop returns when every forward train index is a position of the reverse
list. -/
theorem findMutualMatchesLoop_ok (reverse_matches : List DMatch) :
    ∀ (rest : List DMatch) (i : Int) (acc : List DMatch),
      (∀ f ∈ rest, 0 ≤ f.trainIdx ∧ f.trainIdx < reverse_matches.length) →
      ∃ final, findMutualMatchesLoop reverse_matches rest i acc = .ok final := by
  intro rest
  induction rest with
  | nil => intro i acc _; exact ⟨acc, rfl⟩
  | cons f rest ih =>
    intro i acc h
    have hf := h f (List.mem_cons_self _ _)
    have hs : (vecAt reverse_matches f.trainIdx).isSome := (vecAt_isSome_iff _ _).2 hf
    obtain ⟨r, hr⟩ := Option.isSome_iff_exists.1 hs
    have hrest : ∀ g ∈ rest, 0 ≤ g.trainIdx ∧ g.trainIdx < reverse_matches.length :=
      fun g hg => h g (List.mem_cons_of_mem _ hg)
    unfold findMutualMatchesLoop
    simp only [hr]
    split
    · exact ih _ _ hrest
    · exact ih _ _ hrest

/-- The accepted matches are listed by increasing current index. -/
theorem findMutualMatchesLoop_sorted (reverse_matches : List DMatch) :
    ∀ (rest : List DMatch) (i : Int) (acc final : List DMatch),
      findMutualMatchesLoop reverse_matches rest i acc = .ok final →
      (acc.map (fun m => m.queryIdx)).Pairwise (fun a b => a < b) →
      (∀ m ∈ acc, m.queryIdx < i) →
      (final.map (fun m => m.queryIdx)).Pairwise (fun a b => a < b) := by
  intro rest
  induction rest with
  | nil =>
    intro i acc final h hs _
    simp [findMutualMatchesLoop] at h
    subst h
    exact hs
  | cons f rest ih =>
    intro i acc final h hs hlt
    unfold findMutualMatchesLoop at h
    cases hr : vecAt reverse_matches f.trainIdx with
    | none => simp [hr] at h
    | some r =>
      simp only [hr] at h
      split at h
      · refine ih _ _ _ h ?_ ?_
        · rw [List.map_append, List.pairwise_append]
          refine ⟨hs, by simp, ?_⟩
          intro a ha b hb
          simp at hb
          obtain ⟨m, hm, rfl⟩ := List.mem_map.1 ha
          rw [hb]
          exact hlt m hm
        · intro m hm
          rcases List.mem_append.1 hm with hm | hm
          · have := hlt m hm; omega
          · simp at hm; rw [hm]; simp
      · refine ih _ _ _ h hs ?_
        intro m hm
        have := hlt m hm
        omega

/-- The mutual-match selection on matcher outputs whose forward train indices are positions of
the reverse list, where every read of the loop is inside the vector: the selection returns, and a
match `(i, j)` is in the returned list if and only if `i` is a position of the forward list,
`j = forward[i].trainIdx` and `reverse[j].trainIdx = i` (every accepted match carries distance
`0`). -/
theorem mutual_matches_iff (forward_matches reverse_matches : List DMatch) :
    ((∀ f ∈ forward_matches, 0 ≤ f.trainIdx ∧ f.trainIdx < reverse_matches.length) →
      ∃ final, findMutualMatches forward_matches reverse_matches = .ok final) ∧
    ∀ final, findMutualMatches forward_matches reverse_matches = .ok final →
      ∀ m : DMatch, m ∈ final ↔
        (m.distance = 0 ∧ ∃ f r : DMatch, vecAt forward_matches m.queryIdx = some f ∧
          m.trainIdx = f.trainIdx ∧ vecAt reverse_matches m.trainIdx = some r ∧
          r.trainIdx = m.queryIdx) := by
  refine ⟨fun h => findMutualMatchesLoop_ok _ _ _ _ h, ?_⟩
  intro final h m
  rw [findMutualMatchesLoop_mem reverse_matches forward_matches 0 [] final h m]
  constructor
  · rintro (hm | ⟨k, f, r, hk, hv, hrt, hm⟩)
    · simp at hm
    · subst hm
      refine ⟨rfl, f, r, ?_, rfl, hv, by simpa using hrt⟩
      simp [vecAt, hk]
  · rintro ⟨hd, f, r, hf, hj, hv, hrt⟩
    right
    obtain ⟨h0, hk⟩ := (vecAt_eq_some_iff _ _ _).1 hf
    refine ⟨m.queryIdx.toNat, f, r, hk, hj ▸ hv, ?_, ?_⟩
    · rw [hrt]; simp [Int.toNat_of_nonneg h0]
    · cases m with
      | mk q t d =>
        simp at hd hj h0 ⊢
        refine ⟨?_, hj, hd⟩
        omega

/-- Invariant of the ordering loop: each array grows by one element per match visited, the
element read at that match's reference (train) or current (query) index. -/
theorem orderLoop_spec (ref3D : List Point3d) (ref2D : List Point2f) (cur3D : List Point3d)
    (cur2D : List Point2f) :
    ∀ (rest : List DMatch) (acc ord : Ordered),
      orderLoop ref3D ref2D cur3D cur2D rest acc = .ok ord →
      ∃ (s1 : List Point3d) (s2 : List Point2f) (s3 : List Point3d) (s4 : List Point2f),
        ord.ordered_reference3D = acc.ordered_reference3D ++ s1 ∧
        ord.ordered_reference2D = acc.ordered_reference2D ++ s2 ∧
        ord.ordered_current3D = acc.ordered_current3D ++ s3 ∧
        ord.ordered_current2D = acc.ordered_current2D ++ s4 ∧
        s1.map some = rest.map (fun m => vecAt ref3D m.trainIdx) ∧
        s2.map some = rest.map (fun m => vecAt ref2D m.trainIdx) ∧
        s3.map some = rest.map (fun m => vecAt cur3D m.queryIdx) ∧
        s4.map some = rest.map (fun m => vecAt cur2D m.queryIdx) := by
  intro rest
  induction rest with
  | nil =>
    intro acc ord h
    simp [orderLoop] at h
    subst h
    exact ⟨[], [], [], [], by simp⟩
  | cons m rest ih =>
    intro acc ord h
    unfold orderLoop at h
    split at h
    · rename_i r3 r2 c3 c2 h1 h2 h3 h4
      obtain ⟨s1, s2, s3, s4, e1, e2, e3, e4, m1, m2, m3, m4⟩ := ih _ _ h
      refine ⟨r3 :: s1, r2 :: s2, c3 :: s3, c2 :: s4, ?_, ?_, ?_, ?_, ?_, ?_, ?_, ?_⟩
      · simpa using e1
      · simpa using e2
      · simpa using e3
      · simpa using e4
      · simp [h1, m1]
      · simp [h2, m2]
      · simp [h3, m3]
      · simp [h4, m4]
    · simp at h

/-- The ordering loop returns when every match index is a position of the array it reads. -/
theorem orderLoop_ok (ref3D : List Point3d) (ref2D : List Point2f) (cur3D : List Point3d)
    (cur2D : List Point2f) :
    ∀ (rest : List DMatch) (acc : Ordered),
      (∀ m ∈ rest, (vecAt ref3D m.trainIdx).isSome ∧ (vecAt ref2D m.trainIdx).isSome ∧
        (vecAt cur3D m.queryIdx).isSome ∧ (vecAt cur2D m.queryIdx).isSome) →
      ∃ ord, orderLoop ref3D ref2D cur3D cur2D rest acc = .ok ord := by
  intro rest
  induction rest with
  | nil => intro acc _; exact ⟨acc, rfl⟩
  | cons m rest ih =>
    intro acc h
    obtain ⟨h1, h2, h3, h4⟩ := h m (List.mem_cons_self _ _)
    obtain ⟨r3, e1⟩ := Option.isSome_iff_exists.1 h1
    obtain ⟨r2, e2⟩ := Option.isSome_iff_exists.1 h2
    obtain ⟨c3, e3⟩ := Option.isSome_iff_exists.1 h3
    obtain ⟨c2, e4⟩ := Option.isSome_iff_exists.1 h4
    unfold orderLoop
    simp only [e1, e2, e3, e4]
    exact ih _ (fun g hg => h g (List.mem_cons_of_mem _ hg))

/-- Entry `k` of a list whose elements are the values of `g` along another list. -/
theorem getElem?_of_map_some_eq {α β : Type} (s : List α) (l : List β) (g : β → Option α)
    (h : s.map some = l.map g) (k : Nat) (m : β) (hk : l[k]? = some m) : s[k]? = g m := by
  have h1 : (s.map some)[k]? = (l.map g)[k]? := by rw [h]
  simp only [List.getElem?_map, hk, Option.map_some'] at h1
  cases hs : s[k]? with
  | none => rw [hs] at h1; simp at h1
  | some v => rw [hs] at h1; simpa using h1

/-- Claim C2. For every list of accepted mutual matches, the four ordered arrays built from it
(reference 3D, reference 2D idealized, current 3D, current 2D idealized) are returned whenever
every match index is a position of the array it reads; they all have the length of the match
list; entry `k` of each is the element at the `k`-th match's reference index (reference arrays) or
current index (current arrays); and the match list produced by the mutual-match selection, hence
the arrays, is in increasing current index. -/
theorem ordered_arrays_aligned (reference3D_features_ : List Point3d)
    (reference2D_idealized_ : List Point2f) (current3D_features : List Point3d)
    (idealized_curr_pts : List Point2f) (final_matches : List DMatch) :
    ((∀ m ∈ final_matches,
        (vecAt reference3D_features_ m.trainIdx).isSome ∧
        (vecAt reference2D_idealized_ m.trainIdx).isSome ∧
        (vecAt current3D_features m.queryIdx).isSome ∧
        (vecAt idealized_curr_pts m.queryIdx).isSome) →
      ∃ ord, orderCorrespondences reference3D_features_ reference2D_idealized_
        current3D_features idealized_curr_pts final_matches = .ok ord) ∧
    (∀ ord, orderCorrespondences reference3D_features_ reference2D_idealized_
        current3D_features idealized_curr_pts final_matches = .ok ord →
      ord.ordered_reference3D.length = final_matches.length ∧
      ord.ordered_reference2D.length = final_matches.length ∧
      ord.ordered_current3D.length = final_matches.length ∧
      ord.ordered_current2D.length = final_matches.length ∧
      ∀ (k : Nat) (m : DMatch), final_matches[k]? = some m →
        ord.ordered_reference3D[k]? = vecAt reference3D_features_ m.trainIdx ∧
        ord.ordered_reference2D[k]? = vecAt reference2D_idealized_ m.trainIdx ∧
        ord.ordered_current3D[k]? = vecAt current3D_features m.queryIdx ∧
        ord.ordered_current2D[k]? = vecAt idealized_curr_pts m.queryIdx) ∧
    (∀ forward_matches reverse_matches,
      findMutualMatches forward_matches reverse_matches = .ok final_matches →
      (final_matches.map (fun m => m.queryIdx)).Pairwise (fun a b => a < b)) := by
  refine ⟨fun h => orderLoop_ok _ _ _ _ _ _ h, ?_, ?_⟩
  · intro ord h
    obtain ⟨s1, s2, s3, s4, e1, e2, e3, e4, m1, m2, m3, m4⟩ := orderLoop_spec _ _ _ _ _ _ _ h
    simp only [List.nil_append] at e1 e2 e3 e4
    rw [e1, e2, e3, e4]
    refine ⟨?_, ?_, ?_, ?_, ?_⟩
    · simpa using congrArg List.length m1
    · simpa using congrArg List.length m2
    · simpa using congrArg List.length m3
    · simpa using congrArg List.length m4
    · intro k m hk
      exact ⟨getElem?_of_map_some_eq _ _ _ m1 k m hk, getElem?_of_map_some_eq _ _ _ m2 k m hk,
        getElem?_of_map_some_eq _ _ _ m3 k m hk, getElem?_of_map_some_eq _ _ _ m4 k m hk⟩
  · intro fwd rev h
    exact findMutualMatchesLoop_sorted rev fwd 0 [] final_matches h (by simp) (by simp)

/-- Claim C2 run on one accepted match `(0, 1)` over two-point arrays. -/
theorem ordered_arrays_aligned_witness :
    (∃ ord, orderCorrespondences ref3DExample ref2DExample cur3DExample cur2DExample
        [DMatch.mk 0 1 0] = .ok ord) ∧
    ((Ordered.mk [⟨4, 5, 6⟩] [⟨30, 40⟩] [⟨7, 8, 9⟩] [⟨50, 60⟩]).ordered_reference3D.length
        = [DMatch.mk 0 1 0].length) ∧
    ([DMatch.mk 0 1 0].map (fun m => m.queryIdx)).Pairwise (fun a b => a < b) :=
  ⟨(ordered_arrays_aligned ref3DExample ref2DExample cur3DExample cur2DExample
      [DMatch.mk 0 1 0]).1 (by decide),
   ((ordered_arrays_aligned ref3DExample ref2DExample cur3DExample cur2DExample
      [DMatch.mk 0 1 0]).2.1 ⟨[⟨4, 5, 6⟩], [⟨30, 40⟩], [⟨7, 8, 9⟩], [⟨50, 60⟩]⟩ (by rfl)).1,
   (ordered_arrays_aligned ref3DExample ref2DExample cur3DExample cur2DExample
      [DMatch.mk 0 1 0]).2.2 forwardExample reverseExample (by rfl)⟩

/-- Invariant of the loop of `calc3DPoints`: the output grows by exactly one point per
undistorted point visited, built from that point and the depth sample at the raw point of the
same index. -/
theorem calc3DPointsLoop_spec (depth_float : DepthImage) (cx cy fx fy : ℚ)
    (features2D : List Point2f) :
    ∀ (rest : List Point2f) (i : Nat) (acc out : List Point3d),
      calc3DPointsLoop depth_float cx cy fx fy features2D rest i acc = .ok out →
      ∃ s : List Point3d, out = acc ++ s ∧ s.length = rest.length ∧
        ∀ (k : Nat) (u : Point2f), rest[k]? = some u →
          ∃ (p : Point2f) (d : DepthSample), features2D[i + k]? = some p ∧
            depth_float.sample (toInt p.y) (toInt p.x) = some d ∧
            s[k]? = some (Point3d.mk (((u.x - cx) * depthOrFallback d) / fx)
              (((u.y - cy) * depthOrFallback d) / fy) (depthOrFallback d)) := by
  intro rest
  induction rest with
  | nil =>
    intro i acc out h
    simp [calc3DPointsLoop] at h
    subst h
    exact ⟨[], by simp⟩
  | cons u rest ih =>
    intro i acc out h
    unfold calc3DPointsLoop at h
    cases hp : features2D[i]? with
    | none => simp [hp] at h
    | some p =>
      simp only [hp] at h
      cases hd : depth_float.sample (toInt p.y) (toInt p.x) with
      | none => simp [hd] at h
      | some d =>
        simp only [hd] at h
        obtain ⟨s, hs, hlen, hent⟩ := ih _ _ _ h
        refine ⟨_ :: s, by simpa using hs, by simp [hlen], ?_⟩
        intro k v hk
        cases k with
        | zero =>
          simp at hk
          subst hk
          exact ⟨p, d, by simpa using hp, hd, by simp⟩
        | succ k =>
          obtain ⟨p', d', h1, h2, h3⟩ := hent k v (by simpa using hk)
          refine ⟨p', d', ?_, h2, by simpa using h3⟩
          rw [← h1]
          congr 1
          omega

/-- The loop of `calc3DPoints` returns when every undistorted point has a raw point of the same
index whose depth sample lies in the image. -/
theorem calc3DPointsLoop_ok (depth_float : DepthImage) (cx cy fx fy : ℚ)
    (features2D : List Point2f) :
    ∀ (rest : List Point2f) (i : Nat) (acc : List Point3d),
      (∀ (k : Nat), k < rest.length → ∃ (p : Point2f), features2D[i + k]? = some p ∧
        (depth_float.sample (toInt p.y) (toInt p.x)).isSome) →
      ∃ out, calc3DPointsLoop depth_float cx cy fx fy features2D rest i acc = .ok out := by
  intro rest
  induction rest with
  | nil => intro i acc _; exact ⟨acc, rfl⟩
  | cons u rest ih =>
    intro i acc h
    obtain ⟨p, hp, hd⟩ := h 0 (by simp)
    obtain ⟨d, hd⟩ := Option.isSome_iff_exists.1 hd
    unfold calc3DPointsLoop
    simp only [Nat.add_zero] at hp
    simp only [hp, hd]
    apply ih
    intro k hk
    obtain ⟨q, hq, hq2⟩ := h (k + 1) (by simp; omega)
    refine ⟨q, ?_, hq2⟩
    rw [← hq]
    congr 1
    omega

/-- What `calc3DPoints` returns, in terms of its inputs: one point per undistorted point. -/
theorem calc3DPoints_spec (depth_float : DepthImage) (kinect_calibration : CameraInfo)
    (features2D features2D_undistored : List Point2f) (features3D out : List Point3d)
    (h : calc3DPoints depth_float kinect_calibration features2D features2D_undistored features3D
      = .ok out) :
    kinect_calibration.K 0 ≠ 0 ∧ out.length = features2D_undistored.length ∧
    ∀ (k : Nat) (u : Point2f), features2D_undistored[k]? = some u →
      ∃ (p : Point2f) (d : DepthSample), features2D[k]? = some p ∧
        depth_float.sample (toInt p.y) (toInt p.x) = some d ∧
        out[k]? = some (Point3d.mk
          (((u.x - kinect_calibration.K 2) * depthOrFallback d) / kinect_calibration.K 0)
          (((u.y - kinect_calibration.K 5) * depthOrFallback d) / kinect_calibration.K 4)
          (depthOrFallback d)) := by
  unfold calc3DPoints at h
  split at h
  · simp at h
  · rename_i hK
    have hc : (if features3D.length ≠ 0 then ([] : List Point3d) else features3D) = [] := by
      cases features3D <;> simp
    simp only [hc] at h
    obtain ⟨s, hs, hlen, hent⟩ := calc3DPointsLoop_spec _ _ _ _ _ _ _ _ _ _ h
    simp only [List.nil_append] at hs
    subst hs
    refine ⟨hK, hlen, ?_⟩
    intro k u hk
    obtain ⟨p, d, h1, h2, h3⟩ := hent k u hk
    exact ⟨p, d, by simpa using h1, h2, h3⟩

/-- The method `calc3DPoints` returns when the calibration has `K[0] ≠ 0` and every undistorted
point has a raw point of the same index whose depth sample lies in the image. -/
theorem calc3DPoints_ok (depth_float : DepthImage) (kinect_calibration : CameraInfo)
    (features2D features2D_undistored : List Point2f) (features3D : List Point3d)
    (hK : kinect_calibration.K 0 ≠ 0)
    (hread : ∀ (k : Nat), k < features2D_undistored.length → ∃ (p : Point2f),
      features2D[k]? = some p ∧ (depth_float.sample (toInt p.y) (toInt p.x)).isSome) :
    ∃ out, calc3DPoints depth_float kinect_calibration features2D features2D_undistored
      features3D = .ok out := by
  unfold calc3DPoints
  rw [if_neg hK]
  apply calc3DPointsLoop_ok
  intro k hk
  simpa using hread k hk

/-- Claim C3. The method `calc3DPoints` never drops a point. It returns whenever `K[0] ≠ 0` and every
undistorted point has a raw point of the same index with its depth sample inside the image; and
whatever it returns has exactly as many entries as the undistorted 2D list, entry `k` being built
from undistorted entry `k` and the depth sample at raw entry `k`; a NaN sample gives a point with
`z` exactly `8.0`. -/
theorem calc3DPoints_never_drops (depth_float : DepthImage) (kinect_calibration : CameraInfo)
    (features2D features2D_undistored : List Point2f) (features3D : List Point3d) :
    (kinect_calibration.K 0 ≠ 0 →
      (∀ (k : Nat), k < features2D_undistored.length → ∃ (p : Point2f),
        features2D[k]? = some p ∧ (depth_float.sample (toInt p.y) (toInt p.x)).isSome) →
      ∃ out, calc3DPoints depth_float kinect_calibration features2D features2D_undistored
        features3D = .ok out) ∧
    ∀ out, calc3DPoints depth_float kinect_calibration features2D features2D_undistored
        features3D = .ok out →
      out.length = features2D_undistored.length ∧
      ∀ (k : Nat) (u : Point2f), features2D_undistored[k]? = some u →
        ∃ (p : Point2f) (d : DepthSample) (pt : Point3d), features2D[k]? = some p ∧
          depth_float.sample (toInt p.y) (toInt p.x) = some d ∧ out[k]? = some pt ∧
          pt.x = ((u.x - kinect_calibration.K 2) * pt.z) / kinect_calibration.K 0 ∧
          pt.y = ((u.y - kinect_calibration.K 5) * pt.z) / kinect_calibration.K 4 ∧
          (∀ z, d = DepthSample.val z → pt.z = z) ∧
          (d = DepthSample.nan → pt.z = 8) := by
  refine ⟨fun hK hread => calc3DPoints_ok _ _ _ _ _ hK hread, ?_⟩
  intro out h
  obtain ⟨_, hlen, hent⟩ := calc3DPoints_spec _ _ _ _ _ _ h
  refine ⟨hlen, ?_⟩
  intro k u hk
  obtain ⟨p, d, h1, h2, h3⟩ := hent k u hk
  refine ⟨p, d, _, h1, h2, h3, rfl, rfl, ?_, ?_⟩
  · intro z hz
    subst hz
    rfl
  · intro hd
    subst hd
    norm_num [depthOrFallback]

/-- Truncation of `0`. -/
theorem toInt_zero : toInt 0 = 0 := by simp [toInt]

/-- Truncation of `1`. -/
theorem toInt_one : toInt 1 = 1 := by simp [toInt]

/-- The run of `calc3DPoints` on the worked example. -/
theorem calc3DPoints_example :
    calc3DPoints depthExample unitCalibration rawExample undistortedExample []
      = .ok [⟨16, 32, 8⟩, ⟨6, 2, 2⟩] := by
  simp [calc3DPoints, calc3DPointsLoop, unitCalibration, rawExample, undistortedExample,
    depthExample, DepthImage.sample, vecAt, toInt_zero, toInt_one, depthOrFallback]
  norm_num

/-- Claim C3 run on the 1×2 depth image with one NaN sample. -/
theorem calc3DPoints_never_drops_witness :
    (∃ out, calc3DPoints depthExample unitCalibration rawExample undistortedExample []
        = .ok out) ∧
    ([⟨16, 32, 8⟩, ⟨6, 2, 2⟩] : List Point3d).length = undistortedExample.length :=
  ⟨(calc3DPoints_never_drops depthExample unitCalibration rawExample undistortedExample []).1
      (by simp [unitCalibration])
      (by
        intro k hk
        have hk2 : k < 2 := hk
        interval_cases k
        · exact ⟨⟨0, 0⟩, rfl, by simp [DepthImage.sample, vecAt, toInt_zero, depthExample]⟩
        · exact ⟨⟨1, 0⟩, rfl,
            by simp [DepthImage.sample, vecAt, toInt_zero, toInt_one, depthExample]⟩),
   ((calc3DPoints_never_drops depthExample unitCalibration rawExample undistortedExample []).2
      _ calc3DPoints_example).1⟩

/-- Claim C4. For every feature with idealized pixel `(u, v)` and depth `z` (the sample read at the raw
point, `8.0` if it is NaN), `calc3DPoints` returns the point `(x, y, z)` with `x = (u − cx)·z/fx`
and `y = (v − cy)·z/fy`, where `fx, fy, cx, cy` are `K[0], K[4], K[2], K[5]`. It returns under
the conditions of the first part; what it returns has one point for every idealized pixel, at
the pixel's own position, and that point has the stated coordinates (`fx ≠ 0` is asserted by the
code; `y` is stated for `fy ≠ 0`, where the exact quotient is the code's). So projecting the
point back through the pinhole model gives `(u, v)` again when `z ≠ 0`. -/
theorem calc3DPoints_pinhole (depth_float : DepthImage) (kinect_calibration : CameraInfo)
    (features2D features2D_undistored : List Point2f) (features3D : List Point3d) :
    (kinect_calibration.K 0 ≠ 0 →
      (∀ (k : Nat), k < features2D_undistored.length → ∃ (p : Point2f),
        features2D[k]? = some p ∧ (depth_float.sample (toInt p.y) (toInt p.x)).isSome) →
      ∃ out, calc3DPoints depth_float kinect_calibration features2D features2D_undistored
        features3D = .ok out) ∧
    ∀ out, calc3DPoints depth_float kinect_calibration features2D features2D_undistored
        features3D = .ok out →
      out.length = features2D_undistored.length ∧
      ∀ (k : Nat) (u : Point2f), features2D_undistored[k]? = some u →
        ∃ (p : Point2f) (d : DepthSample) (pt : Point3d), features2D[k]? = some p ∧
          depth_float.sample (toInt p.y) (toInt p.x) = some d ∧ out[k]? = some pt ∧
          pt.z = depthOrFallback d ∧
          pt.x = (u.x - kinect_calibration.K 2) * depthOrFallback d / kinect_calibration.K 0 ∧
          (kinect_calibration.K 4 ≠ 0 →
            pt.y = (u.y - kinect_calibration.K 5) * depthOrFallback d / kinect_calibration.K 4 ∧
            (pt.z ≠ 0 →
              u.x = kinect_calibration.K 0 * pt.x / pt.z + kinect_calibration.K 2 ∧
              u.y = kinect_calibration.K 4 * pt.y / pt.z + kinect_calibration.K 5)) := by
  refine ⟨fun hK hread => calc3DPoints_ok _ _ _ _ _ hK hread, ?_⟩
  intro out h
  obtain ⟨hK, hlen, hent⟩ := calc3DPoints_spec _ _ _ _ _ _ h
  refine ⟨hlen, ?_⟩
  intro k u hu
  obtain ⟨p, d, h1, h2, h3⟩ := hent k u hu
  refine ⟨p, d, _, h1, h2, h3, rfl, rfl, ?_⟩
  intro hfy
  refine ⟨rfl, ?_⟩
  intro hz
  simp only at hz ⊢
  constructor
  · field_simp
  · field_simp

/-- Claim C4 run on the 1×2 depth image with one NaN sample, under a calibration with four distinct
intrinsics: the call returns two points, and the point of the first feature, idealized pixel
`(3, 5)` with a NaN sample, is `((3 − 1)·8/2, (5 − 3)·8/4, 8) = (8, 4, 8)`, which projects back
to `(3, 5)`. -/
theorem calc3DPoints_pinhole_witness :
    ∃ out, calc3DPoints depthExample pinholeCalibration rawExample undistortedExample []
        = .ok out ∧ out.length = 2 ∧
      ∃ pt, out[0]? = some pt ∧ pt.z = 8 ∧ pt.x = 8 ∧ pt.y = 4 ∧
        (3 : ℚ) = pinholeCalibration.K 0 * pt.x / pt.z + pinholeCalibration.K 2 ∧
        (5 : ℚ) = pinholeCalibration.K 4 * pt.y / pt.z + pinholeCalibration.K 5 := by
  obtain ⟨out, hout⟩ :=
    (calc3DPoints_pinhole depthExample pinholeCalibration rawExample undistortedExample []).1
      (by
        have k0 : pinholeCalibration.K 0 = 2 := rfl
        rw [k0]
        norm_num)
      (by
        intro k hk
        have hk2 : k < 2 := hk
        interval_cases k
        · exact ⟨⟨0, 0⟩, rfl, by simp [DepthImage.sample, vecAt, toInt_zero, depthExample]⟩
        · exact ⟨⟨1, 0⟩, rfl,
            by simp [DepthImage.sample, vecAt, toInt_zero, toInt_one, depthExample]⟩)
  obtain ⟨hlen, hent⟩ :=
    (calc3DPoints_pinhole depthExample pinholeCalibration rawExample undistortedExample []).2
      out hout
  obtain ⟨p, d, pt, hp, hd, hpt, hz, hx, hy⟩ := hent 0 ⟨3, 5⟩ rfl
  have hp0 : p = ⟨0, 0⟩ := by
    have h0 : rawExample[0]? = some (⟨0, 0⟩ : Point2f) := rfl
    rw [h0] at hp
    exact (Option.some.inj hp).symm
  subst hp0
  have hd0 : d = DepthSample.nan := by
    have h0 : depthExample.sample (toInt (0 : ℚ)) (toInt (0 : ℚ)) = some DepthSample.nan := by
      simp [DepthImage.sample, vecAt, toInt_zero, depthExample]
    rw [h0] at hd
    exact (Option.some.inj hd).symm
  subst hd0
  have hz8 : pt.z = 8 := by rw [hz]; norm_num [depthOrFallback]
  have hfy : pinholeCalibration.K 4 ≠ 0 := by
    have k4 : pinholeCalibration.K 4 = 4 := rfl
    rw [k4]
    norm_num
  obtain ⟨hy1, hback⟩ := hy hfy
  have hback2 := hback (by rw [hz8]; norm_num)
  refine ⟨out, hout, hlen, pt, hpt, hz8, ?_, ?_, hback2.1, hback2.2⟩
  · have k0 : pinholeCalibration.K 0 = 2 := rfl
    have k2 : pinholeCalibration.K 2 = 1 := rfl
    rw [hx, k0, k2]; norm_num [depthOrFallback]
  · have k4 : pinholeCalibration.K 4 = 4 := rfl
    have k5 : pinholeCalibration.K 5 = 3 := rfl
    rw [hy1, k4, k5]; norm_num [depthOrFallback]

/-- Claim C5 fails as stated: on a depth image whose sample is `0`, `calc3DPoints` returns a point
with `z = 0`. -/
theorem calc3DPoints_z_not_positive :
    ∃ out, calc3DPoints zeroDepthExample unitCalibration [⟨0, 0⟩] [⟨3, 5⟩] [] = .ok out ∧
      ∃ pt ∈ out, ¬ 0 < pt.z := by
  refine ⟨[⟨0, 0, 0⟩], ?_, ⟨0, 0, 0⟩, by simp, by simp⟩
  simp [calc3DPoints, calc3DPointsLoop, unitCalibration, zeroDepthExample, DepthImage.sample,
    vecAt, toInt_zero, depthOrFallback]

/-- Claim C5, amended. Every 3D point produced by `calc3DPoints` (which returns under the conditions of
the first part) has as `z` the depth sample read at the raw point of the same index, or `8.0`
when that sample is NaN; so `z > 0` exactly when the sample is NaN or a positive number. -/
theorem calc3DPoints_z_pos_iff (depth_float : DepthImage) (kinect_calibration : CameraInfo)
    (features2D features2D_undistored : List Point2f) (features3D : List Point3d) :
    (kinect_calibration.K 0 ≠ 0 →
      (∀ (k : Nat), k < features2D_undistored.length → ∃ (p : Point2f),
        features2D[k]? = some p ∧ (depth_float.sample (toInt p.y) (toInt p.x)).isSome) →
      ∃ out, calc3DPoints depth_float kinect_calibration features2D features2D_undistored
        features3D = .ok out) ∧
    ∀ out, calc3DPoints depth_float kinect_calibration features2D features2D_undistored
        features3D = .ok out →
      ∀ (k : Nat) (pt : Point3d), out[k]? = some pt →
        ∃ (p : Point2f) (d : DepthSample), features2D[k]? = some p ∧
          depth_float.sample (toInt p.y) (toInt p.x) = some d ∧
          pt.z = depthOrFallback d ∧
          (0 < pt.z ↔ (d = DepthSample.nan ∨ ∃ z, d = DepthSample.val z ∧ 0 < z)) := by
  refine ⟨fun hK hread => calc3DPoints_ok _ _ _ _ _ hK hread, ?_⟩
  intro out h k pt hpt
  obtain ⟨_, hlen, hent⟩ := calc3DPoints_spec _ _ _ _ _ _ h
  have hk : k < features2D_undistored.length := by
    rw [← hlen]
    exact (List.getElem?_eq_some_iff.1 hpt).1
  obtain ⟨p, d, h1, h2, h3⟩ := hent k _ (List.getElem?_eq_getElem hk)
  rw [h3] at hpt
  simp only [Option.some.injEq] at hpt
  subst hpt
  refine ⟨p, d, h1, h2, rfl, ?_⟩
  cases d with
  | nan => simp [depthOrFallback]; norm_num
  | val z => simp [depthOrFallback]

/-- Claim C5 (amended) run on the same input, at the second feature. -/
theorem calc3DPoints_z_pos_iff_witness :
    (∃ out, calc3DPoints depthExample unitCalibration rawExample undistortedExample []
        = .ok out) ∧
    ∃ (p : Point2f) (d : DepthSample), rawExample[1]? = some p ∧
      depthExample.sample (toInt p.y) (toInt p.x) = some d ∧
      (Point3d.mk 6 2 2).z = depthOrFallback d ∧
      (0 < (Point3d.mk 6 2 2).z ↔ (d = DepthSample.nan ∨ ∃ z, d = DepthSample.val z ∧ 0 < z)) :=
  ⟨(calc3DPoints_z_pos_iff depthExample unitCalibration rawExample undistortedExample []).1
      (by simp [unitCalibration])
      (by
        intro k hk
        have hk2 : k < 2 := hk
        interval_cases k
        · exact ⟨⟨0, 0⟩, rfl, by simp [DepthImage.sample, vecAt, toInt_zero, depthExample]⟩
        · exact ⟨⟨1, 0⟩, rfl,
            by simp [DepthImage.sample, vecAt, toInt_zero, toInt_one, depthExample]⟩),
   (calc3DPoints_z_pos_iff depthExample unitCalibration rawExample undistortedExample []).2
      _ calc3DPoints_example 1 ⟨6, 2, 2⟩ rfl⟩

/-- What `setReferenceView` does when fewer than 200 features are detected: it returns with the
three reference images and the reference 2D features overwritten by the new frame, and nothing
else changed. -/
theorem setReferenceView_few (env : Vision) (self : PoseEstimator) (visual_image : Image)
    (depth_image_float : DepthImage) (depth_image_CV8UC1 : Image)
    (h : (env.detect self.num_features_ (env.cvtColor visual_image) depth_image_CV8UC1).length
      < 200) :
    setReferenceView env self visual_image depth_image_float depth_image_CV8UC1 =
      .ok { self with
            reference_img_RGB_ := visual_image
            reference_img_gray_ := env.cvtColor visual_image
            reference_img_depth_ := depth_image_float
            reference2D_features_ :=
              env.detect self.num_features_ (env.cvtColor visual_image) depth_image_CV8UC1 } := by
  unfold setReferenceView
  simp [h]

/-- Claim C7. On a freshly constructed estimator, after any number of `setReferenceView` calls that
each detect fewer than 200 features, the calls have all returned, the reference is still unset,
and a subsequent `setCurrentAndFindTransform` fails its reference-set assertion instead of
returning a result. -/
theorem unset_reference_asserts (env : Vision) (optimize display : Bool)
    (frames : List RefFrame) (a : Args) (out : Outputs)
    (hfew : ∀ f ∈ frames,
      (detectedIn env (PoseEstimator.construct optimize display) f).length < 200) :
    ∃ self, setReferenceViews env (PoseEstimator.construct optimize display) frames = .ok self ∧
      self.reference_set_ = false ∧
      setCurrentAndFindTransform env self a out = .error Fault.assertion := by
  have key : ∀ (frames : List RefFrame) (st : PoseEstimator),
      st.reference_set_ = false →
      st.num_features_ = (PoseEstimator.construct optimize display).num_features_ →
      (∀ f ∈ frames,
        (detectedIn env (PoseEstimator.construct optimize display) f).length < 200) →
      ∃ self, setReferenceViews env st frames = .ok self ∧ self.reference_set_ = false := by
    intro frames
    induction frames with
    | nil => intro st h1 _ _; exact ⟨st, rfl, h1⟩
    | cons f rest ih =>
      intro st h1 h2 h3
      have hf := h3 f (List.mem_cons_self _ _)
      unfold detectedIn at hf
      rw [← h2] at hf
      unfold setReferenceViews
      rw [setReferenceView_few env st _ _ _ hf]
      exact ih _ h1 h2 (fun g hg => h3 g (List.mem_cons_of_mem _ hg))
  obtain ⟨self, h1, h2⟩ := key frames _ rfl rfl hfew
  refine ⟨self, h1, h2, ?_⟩
  unfold setCurrentAndFindTransform
  simp [h2]

/-- Claim C9. If `setCurrentAndFindTransform` is called (reference set) with `setAsReference = true`
and the current frame yields zero detected features, the call returns 0, and afterwards the
reference-set flag is false while every other member, the reference data included, and the
caller's outputs are as before: the reference is unset, not replaced by empty data. -/
theorem zero_features_reset (env : Vision) (self : PoseEstimator) (a : Args) (out : Outputs)
    (href : self.reference_set_ = true) (hset : a.setAsReference = true)
    (hzero : currentFeatures env self a = []) :
    setCurrentAndFindTransform env self a out =
      .ok (0, { self with reference_set_ := false }, out) := by
  unfold currentFeatures at hzero
  unfold setCurrentAndFindTransform
  simp [href, hset, hzero]

/-- What a processed current frame holds: the gray image, the key points and descriptors from
`compute`, the idealized points (none if undistortion threw) and the 3D points `calc3DPoints`
returned for them. -/
theorem processCurrent_spec (env : Vision) (self : PoseEstimator) (a : Args) (gray_image : Image)
    (current2D_features : List KeyPoint) (cf : CurrentFrame)
    (h : processCurrent env self a gray_image current2D_features = .ok cf) :
    cf.gray_image = gray_image ∧
    cf.current2D_features = (env.compute (env.GaussianBlur gray_image) current2D_features).1 ∧
    cf.current_descriptors = (env.compute (env.GaussianBlur gray_image) current2D_features).2 ∧
    cf.idealized_curr_pts =
      (env.undistortPoints (KeyPoint.convert cf.current2D_features) self.rgb_camera_matrix_
        self.rgb_camera_distortion_ self.rgb_camera_P_).getD [] ∧
    calc3DPoints a.depth_curr_image_float self.rgb_info_ (KeyPoint.convert cf.current2D_features)
      cf.idealized_curr_pts [] = .ok cf.current3D_features := by
  simp only [processCurrent] at h
  generalize hu : (match env.undistortPoints
      (KeyPoint.convert (env.compute (env.GaussianBlur gray_image) current2D_features).1)
      self.rgb_camera_matrix_ self.rgb_camera_distortion_ self.rgb_camera_P_ with
    | none => ([] : List Point2f)
    | some pts => pts) = ideal at h
  have hu2 : ideal = (env.undistortPoints
      (KeyPoint.convert (env.compute (env.GaussianBlur gray_image) current2D_features).1)
      self.rgb_camera_matrix_ self.rgb_camera_distortion_ self.rgb_camera_P_).getD [] := by
    rw [← hu]
    cases env.undistortPoints
      (KeyPoint.convert (env.compute (env.GaussianBlur gray_image) current2D_features).1)
      self.rgb_camera_matrix_ self.rgb_camera_distortion_ self.rgb_camera_P_ <;> rfl
  cases hc : calc3DPoints a.depth_curr_image_float self.rgb_info_
      (KeyPoint.convert (env.compute (env.GaussianBlur gray_image) current2D_features).1)
      ideal [] with
  | error e => rw [hc] at h; simp at h
  | ok pts =>
    rw [hc] at h
    simp only [Except.ok.injEq] at h
    subst h
    exact ⟨rfl, rfl, rfl, hu2, hc⟩

/-- Claim C10. If `setCurrentAndFindTransform` is called (reference set) with `setAsReference = true`
on a frame with detected features that is processed to `cf` and has at most 3 mutual matches
(one, two, three, or none), the call returns 0 and afterwards the reference is set and every
reference member equals the current frame's data: colour, gray and depth image, 2D features,
idealized points, 3D points, descriptors. -/
theorem weak_match_promotes (env : Vision) (self : PoseEstimator) (a : Args) (out : Outputs)
    (cf : CurrentFrame) (final_matches : List DMatch)
    (href : self.reference_set_ = true) (hset : a.setAsReference = true)
    (hfeat : currentFeatures env self a ≠ [])
    (hcf : currentFrame env self a = .ok cf)
    (hm : currentMutualMatches env self a cf = .ok final_matches)
    (hfew : final_matches.length ≤ 3) :
    ∃ self1 out1, setCurrentAndFindTransform env self a out = .ok (0, self1, out1) ∧
      self1.reference_set_ = true ∧
      self1.reference_img_RGB_ = a.visual_cur_image ∧
      self1.reference_img_gray_ = env.cvtColor a.visual_cur_image ∧
      self1.reference_img_depth_ = a.depth_curr_image_float ∧
      self1.reference2D_features_ = cf.current2D_features ∧
      self1.reference2D_idealized_ = cf.idealized_curr_pts ∧
      self1.reference3D_features_ = cf.current3D_features ∧
      self1.reference_descriptors_ = cf.current_descriptors := by
  have hgray : cf.gray_image = env.cvtColor a.visual_cur_image :=
    (processCurrent_spec env self a _ _ cf hcf).1
  unfold currentFeatures at hfeat
  unfold currentFrame currentFeatures at hcf
  refine ⟨promote self a cf,
    { out with
      corresponding := final_matches.length
      total := cf.idealized_curr_pts.length }, ?_, ?_⟩
  · unfold setCurrentAndFindTransform
    simp only [href, hcf, hm]
    simp [hfeat, hfew]
  · simp [promote, hset, setCurrentAsReference, hgray]

/-- Return path "no features": the result of the call. -/
theorem run_zero (env : Vision) (self : PoseEstimator) (a : Args) (out : Outputs)
    (href : self.reference_set_ = true) (hzero : currentFeatures env self a = []) :
    setCurrentAndFindTransform env self a out =
      .ok (0, if a.setAsReference then { self with reference_set_ := false } else self, out) := by
  unfold currentFeatures at hzero
  unfold setCurrentAndFindTransform
  cases hs : a.setAsReference <;> simp [href, hzero, hs]

/-- Return path "not enough matches": the result of the call. -/
theorem run_weak (env : Vision) (self : PoseEstimator) (a : Args) (out : Outputs)
    (cf : CurrentFrame) (final_matches : List DMatch)
    (href : self.reference_set_ = true) (hfeat : currentFeatures env self a ≠ [])
    (hcf : currentFrame env self a = .ok cf)
    (hm : currentMutualMatches env self a cf = .ok final_matches)
    (hfew : final_matches.length ≤ 3) :
    setCurrentAndFindTransform env self a out =
      .ok (0, promote self a cf,
        { out with
          corresponding := final_matches.length
          total := cf.idealized_curr_pts.length }) := by
  unfold currentFeatures at hfeat
  unfold currentFrame currentFeatures at hcf
  unfold setCurrentAndFindTransform
  simp only [href, hcf, hm]
  simp [hfeat, hfew]

/-- Return path "RANSAC rotation not 3×3": the result of the call. -/
theorem run_ransac_failed (env : Vision) (self : PoseEstimator) (a : Args) (out : Outputs)
    (cf : CurrentFrame) (final_matches : List DMatch) (ord : Ordered)
    (href : self.reference_set_ = true) (hfeat : currentFeatures env self a ≠ [])
    (hcf : currentFrame env self a = .ok cf)
    (hm : currentMutualMatches env self a cf = .ok final_matches)
    (hmany : 3 < final_matches.length)
    (hord : orderCorrespondences self.reference3D_features_ self.reference2D_idealized_
      cf.current3D_features cf.idealized_curr_pts final_matches = .ok ord)
    (hrot : ¬ ((callRANSAC env self ord out.inliers).final_rotation.cols = 3 ∧
      (callRANSAC env self ord out.inliers).final_rotation.rows = 3)) :
    setCurrentAndFindTransform env self a out =
      .ok (0, promote self a cf,
        { out with
          inliers := (callRANSAC env self ord out.inliers).inliers
          corresponding := final_matches.length
          total := (promote self a cf).reference2D_idealized_.length }) := by
  unfold currentFeatures at hfeat
  unfold currentFrame currentFeatures at hcf
  unfold setCurrentAndFindTransform
  have hmany2 : ¬ (final_matches.length : Int) ≤ 3 := by
    intro hc
    have : final_matches.length ≤ 3 := by exact_mod_cast hc
    omega
  simp only [href, hcf, hm, hord]
  simp only [hfeat, hmany2, hrot]
  simp [hfeat]

/-- Return path "success": the result of the call. -/
theorem run_success (env : Vision) (self : PoseEstimator) (a : Args) (out : Outputs)
    (cf : CurrentFrame) (final_matches : List DMatch) (ord : Ordered) (t : Vector3d)
    (href : self.reference_set_ = true) (hfeat : currentFeatures env self a ≠ [])
    (hcf : currentFrame env self a = .ok cf)
    (hm : currentMutualMatches env self a cf = .ok final_matches)
    (hmany : 3 < final_matches.length)
    (hord : orderCorrespondences self.reference3D_features_ self.reference2D_idealized_
      cf.current3D_features cf.idealized_curr_pts final_matches = .ok ord)
    (hrot : (callRANSAC env self ord out.inliers).final_rotation.cols = 3 ∧
      (callRANSAC env self ord out.inliers).final_rotation.rows = 3)
    (ht : readTranslation (callRANSAC env self ord out.inliers).final_translation = .ok t) :
    setCurrentAndFindTransform env self a out =
      .ok (1,
        promote (if self.enable_display_ then
            { self with pose_vertex_id_ := self.pose_vertex_id_ + 1 } else self) a cf,
        { rotation := if self.enable_optimizer_ then out.rotation
            else env.convertRToQuaternion (callRANSAC env self ord out.inliers).final_rotation
          translation := if self.enable_optimizer_ then out.translation else t
          covariance := fixedCovariance
          inliers := (callRANSAC env self ord out.inliers).inliers
          corresponding := final_matches.length
          total := cf.idealized_curr_pts.length
          rot_opt := if self.enable_optimizer_ then out.rot_opt else ⟨1, 0, 0, 0⟩
          tran_opt := if self.enable_optimizer_ then out.tran_opt else ⟨0, 0, 0⟩ }) := by
  unfold currentFeatures at hfeat
  unfold currentFrame currentFeatures at hcf
  unfold setCurrentAndFindTransform
  have hmany2 : ¬ (final_matches.length : Int) ≤ 3 := by
    intro hc
    have : final_matches.length ≤ 3 := by exact_mod_cast hc
    omega
  simp only [href, hcf, hm, hord]
  simp only [hfeat, hmany2, hrot, ht]
  cases self.enable_optimizer_ <;> simp [hfeat]

/-- Claim C8. With the reference set, `setCurrentAndFindTransform` returns a value on every run that
reaches a `return` (first part: zero features; or a processed frame with at most 3 mutual matches;
or ordered arrays and a RANSAC rotation that is not 3×3; or a 3×3 rotation and a readable
translation). Whenever it returns, the value is 0 or 1, and it is 0 exactly when the current frame
yields zero features, or fewer than 4 mutual matches exist, or RANSAC returns a rotation that is
not 3×3. -/
theorem return_value_classification (env : Vision) (self : PoseEstimator) (a : Args)
    (out : Outputs) (href : self.reference_set_ = true) :
    ((currentFeatures env self a = [] ∨
      ∃ cf final, currentFrame env self a = .ok cf ∧
        currentMutualMatches env self a cf = .ok final ∧
        (final.length ≤ 3 ∨
          ∃ ord, orderCorrespondences self.reference3D_features_ self.reference2D_idealized_
              cf.current3D_features cf.idealized_curr_pts final = .ok ord ∧
            (¬ ((callRANSAC env self ord out.inliers).final_rotation.cols = 3 ∧
                (callRANSAC env self ord out.inliers).final_rotation.rows = 3) ∨
              ∃ t, readTranslation (callRANSAC env self ord out.inliers).final_translation
                = .ok t))) →
      ∃ res, setCurrentAndFindTransform env self a out = .ok res) ∧
    ∀ ret self1 out1, setCurrentAndFindTransform env self a out = .ok (ret, self1, out1) →
      (ret = 0 ∨ ret = 1) ∧
      (ret = 0 ↔
        (currentFeatures env self a = [] ∨
          (∃ cf final, currentFrame env self a = .ok cf ∧
            currentMutualMatches env self a cf = .ok final ∧ final.length < 4) ∨
          (∃ cf final ord, currentFrame env self a = .ok cf ∧
            currentMutualMatches env self a cf = .ok final ∧
            orderCorrespondences self.reference3D_features_ self.reference2D_idealized_
              cf.current3D_features cf.idealized_curr_pts final = .ok ord ∧
            ¬ ((callRANSAC env self ord out.inliers).final_rotation.cols = 3 ∧
               (callRANSAC env self ord out.inliers).final_rotation.rows = 3)))) := by
  unfold currentFrame currentFeatures
  unfold setCurrentAndFindTransform
  simp only [href, Bool.true_eq_false, if_false]
  generalize env.detect self.num_features_ (env.cvtColor a.visual_cur_image)
    a.depth_curr_image_CV8UC1 = feats
  by_cases hfe : feats = []
  · subst hfe
    refine ⟨fun _ => ?_, ?_⟩
    · cases a.setAsReference <;> simp
    · intro ret self1 out1 h
      cases hs : a.setAsReference <;> simp [hs] at h <;> simp [h.1.symm]
  · have hne : feats.isEmpty = false := by
      cases feats with
      | nil => exact absurd rfl hfe
      | cons _ _ => rfl
    simp only [hne, Bool.false_eq_true, if_false, hfe, false_or]
    cases hcf : processCurrent env self a (env.cvtColor a.visual_cur_image) feats with
    | error e => simp
    | ok cf =>
      simp only [Except.ok.injEq, exists_and_left, exists_eq_left']
      cases hm : currentMutualMatches env self a cf with
      | error e => simp [hm]
      | ok final =>
        simp only [hm, Except.ok.injEq, exists_and_left, exists_eq_left']
        by_cases hfew : final.length ≤ 3
        · have hfew2 : (final.length : Int) ≤ 3 := by exact_mod_cast hfew
          have hlt : final.length < 4 := by omega
          simp only [hfew2, if_true]
          refine ⟨fun _ => ⟨_, rfl⟩, ?_⟩
          intro ret self1 out1 h
          simp only [Except.ok.injEq, Prod.mk.injEq] at h
          simp [h.1.symm, hlt]
        · have hfew2 : ¬ (final.length : Int) ≤ 3 := by
            intro hc
            exact hfew (by exact_mod_cast hc)
          have hlt : ¬ final.length < 4 := by omega
          simp only [hfew2, if_false, hfew, hlt, false_or]
          cases hord : orderCorrespondences self.reference3D_features_
              self.reference2D_idealized_ cf.current3D_features cf.idealized_curr_pts final with
          | error e => simp [hord]
          | ok ord =>
            simp only [hord, Except.ok.injEq, exists_and_left, exists_eq_left']
            by_cases hrot : (callRANSAC env self ord out.inliers).final_rotation.cols = 3 ∧
                (callRANSAC env self ord out.inliers).final_rotation.rows = 3
            · simp only [hrot, not_true_eq_false, if_false, false_or, and_self]
              cases ht : readTranslation (callRANSAC env self ord out.inliers).final_translation
                with
              | error e => simp [ht]
              | ok t =>
                refine ⟨fun _ => ⟨_, rfl⟩, ?_⟩
                intro ret self1 out1 h
                simp only [Except.ok.injEq, Prod.mk.injEq] at h
                simp [h.1.symm]
            · simp only [hrot, not_false_eq_true, if_true]
              refine ⟨fun _ => ⟨_, rfl⟩, ?_⟩
              intro ret self1 out1 h
              simp only [Except.ok.injEq, Prod.mk.injEq] at h
              simp [h.1.symm]

/-- Truncation of `2`. -/
theorem toInt_two : toInt 2 = 2 := by simp [toInt]

/-- Truncation of `3`. -/
theorem toInt_three : toInt 3 = 3 := by simp [toInt]

/-- The features detected in the four-feature frame. -/
theorem example_currentFeatures4 :
    currentFeatures exampleVision exampleEstimator exampleArgs4 = keyPoints4 := by
  simp [currentFeatures, exampleVision, exampleArgs4, mask4, keyPoints4]

/-- The four-feature frame, processed. -/
theorem example_currentFrame4 :
    currentFrame exampleVision exampleEstimator exampleArgs4 = .ok exampleFrame4 := by
  rw [currentFrame, example_currentFeatures4]
  simp [processCurrent, exampleVision, exampleArgs4, keyPoints4, KeyPoint.convert,
    exampleEstimator, setCurrentAsReference, calibratedEstimator, calc3DPoints, calc3DPointsLoop,
    unitCalibration, depthRow4, DepthImage.sample, vecAt, toInt_zero, toInt_one, toInt_two,
    toInt_three, depthOrFallback, exampleFrame4, points4]
  norm_num

/-- The window for a zero rotation guess is the default one. -/
theorem example_window (a : CvMat) (h : a = CvMat.zeros 3 3) :
    matchingWindow exampleVision a = .ok (300, 200) := by
  subst h
  simp [matchingWindow, CvMat.zeros, CvMat.entry]
  norm_num

/-- The mutual matches of the four-feature frame. -/
theorem example_mutual4 :
    currentMutualMatches exampleVision exampleEstimator exampleArgs4 exampleFrame4
      = .ok [⟨0, 0, 0⟩, ⟨1, 1, 0⟩, ⟨2, 2, 0⟩, ⟨3, 3, 0⟩] := by
  rw [currentMutualMatches, example_window exampleArgs4.rotation_guess rfl]
  rfl

/-- The ordered arrays of the four-feature frame. -/
theorem example_order4 :
    orderCorrespondences exampleEstimator.reference3D_features_
      exampleEstimator.reference2D_idealized_ exampleFrame4.current3D_features
      exampleFrame4.idealized_curr_pts [⟨0, 0, 0⟩, ⟨1, 1, 0⟩, ⟨2, 2, 0⟩, ⟨3, 3, 0⟩]
      = .ok ⟨points4, KeyPoint.convert keyPoints4, points4, KeyPoint.convert keyPoints4⟩ := by
  rfl

/-- The run of `setCurrentAndFindTransform` on the four-feature frame: success. -/
theorem example_run4 :
    setCurrentAndFindTransform exampleVision exampleEstimator exampleArgs4 exampleOut
      = .ok (1, exampleEstimator,
          { exampleOut with
            corresponding := 4
            total := 4
            covariance := fixedCovariance }) := by
  rw [run_success exampleVision exampleEstimator exampleArgs4 exampleOut exampleFrame4 _ _
    ⟨0, 0, 0⟩ rfl (by rw [example_currentFeatures4]; simp [keyPoints4]) example_currentFrame4
    example_mutual4 (by simp) example_order4 (by simp [callRANSAC, exampleVision, CvMat.zeros])
    (by simp [callRANSAC, exampleVision, CvMat.zeros, readTranslation, CvMat.entry])]
  simp [exampleEstimator, setCurrentAsReference, keyPoints4, callRANSAC, exampleVision,
    promote, exampleArgs4, calibratedEstimator, PoseEstimator.construct, exampleOut,
    exampleFrame4, KeyPoint.convert]

/-- The features detected in the two-feature frame. -/
theorem example_currentFeatures2 :
    currentFeatures exampleVision exampleEstimator exampleArgs2 = keyPoints4.take 2 := by
  simp [currentFeatures, exampleVision, exampleArgs2, mask2, keyPoints4]

/-- The two-feature frame, processed. -/
theorem example_currentFrame2 :
    currentFrame exampleVision exampleEstimator exampleArgs2 = .ok exampleFrame2 := by
  rw [currentFrame, example_currentFeatures2]
  simp [processCurrent, exampleVision, exampleArgs2, keyPoints4, KeyPoint.convert,
    exampleEstimator, setCurrentAsReference, calibratedEstimator, calc3DPoints, calc3DPointsLoop,
    unitCalibration, depthRow4, DepthImage.sample, vecAt, toInt_zero, toInt_one,
    depthOrFallback, exampleFrame2, points4]
  norm_num

/-- The mutual matches of the two-feature frame. -/
theorem example_mutual2 :
    currentMutualMatches exampleVision exampleEstimator exampleArgs2 exampleFrame2
      = .ok [⟨0, 0, 0⟩, ⟨1, 1, 0⟩] := by
  rw [currentMutualMatches, example_window exampleArgs2.rotation_guess rfl]
  rfl

/-- Claim C6 fails on the code: on an estimator whose reference is set and holds four features, a
`setReferenceView` call that detects two features (fewer than 200) returns with the flag still
raised but with the reference colour, gray and depth images and the reference 2D features
overwritten by the new frame, so that two reference features stand against four idealized points,
four 3D points and four descriptor rows. -/
theorem setReferenceView_few_overwrites :
    (detectedIn exampleVision exampleEstimator fewFeaturesFrame).length < 200 ∧
    exampleEstimator.reference_set_ = true ∧
    exampleEstimator.reference_img_RGB_ = [[7]] ∧
    exampleEstimator.reference_img_gray_ = [[7]] ∧
    exampleEstimator.reference_img_depth_ = depthRow4 ∧
    exampleEstimator.reference2D_features_ = keyPoints4 ∧
    ∃ self1, setReferenceView exampleVision exampleEstimator fewFeaturesFrame.visual_image
        fewFeaturesFrame.depth_image_float fewFeaturesFrame.depth_image_CV8UC1 = .ok self1 ∧
      self1.reference_set_ = true ∧
      self1.reference_img_RGB_ = [[1]] ∧
      self1.reference_img_gray_ = [[1]] ∧
      self1.reference_img_depth_ = [[DepthSample.val 5]] ∧
      self1.reference2D_features_ = keyPoints4.take 2 ∧
      self1.reference2D_idealized_ = KeyPoint.convert keyPoints4 ∧
      self1.reference3D_features_ = points4 ∧
      self1.reference_descriptors_ = [[0], [0], [0], [0]] := by
  have hfew : (exampleVision.detect exampleEstimator.num_features_
      (exampleVision.cvtColor fewFeaturesFrame.visual_image)
      fewFeaturesFrame.depth_image_CV8UC1).length < 200 := by
    simp [exampleVision, fewFeaturesFrame, mask2]
  refine ⟨hfew, rfl, rfl, rfl, rfl, rfl, _, setReferenceView_few _ _ _ _ _ hfew, rfl, rfl, rfl,
    rfl, ?_, rfl, rfl, rfl⟩
  simp [exampleVision, fewFeaturesFrame, mask2, keyPoints4]

/-- Claim C7 run on two frames with two features each. -/
theorem unset_reference_asserts_witness :
    ∃ self, setReferenceViews exampleVision (PoseEstimator.construct false false)
        [fewFeaturesFrame, fewFeaturesFrame] = .ok self ∧
      self.reference_set_ = false ∧
      setCurrentAndFindTransform exampleVision self exampleArgs4 exampleOut
        = .error Fault.assertion :=
  unset_reference_asserts exampleVision false false [fewFeaturesFrame, fewFeaturesFrame]
    exampleArgs4 exampleOut
    (by
      intro f hf
      have hf2 : f = fewFeaturesFrame := by simpa using hf
      subst hf2
      simp [detectedIn, exampleVision, fewFeaturesFrame, mask2])

/-- Claim C8 run on the four-feature frame, which succeeds. -/
theorem return_value_classification_witness :
    (∃ res, setCurrentAndFindTransform exampleVision exampleEstimator exampleArgs4 exampleOut
        = .ok res) ∧
    ((1 : Int) = 0 ∨ (1 : Int) = 1) :=
  ⟨(return_value_classification exampleVision exampleEstimator exampleArgs4 exampleOut rfl).1
      (Or.inr ⟨exampleFrame4, _, example_currentFrame4, example_mutual4,
        Or.inr ⟨_, example_order4, Or.inr ⟨⟨0, 0, 0⟩,
          by simp [callRANSAC, exampleVision, CvMat.zeros, readTranslation, CvMat.entry]⟩⟩⟩),
   ((return_value_classification exampleVision exampleEstimator exampleArgs4 exampleOut rfl).2
      1 _ _ example_run4).1⟩

/-- Claim C9 run on a frame without features. -/
theorem zero_features_reset_witness :
    setCurrentAndFindTransform exampleVision exampleEstimator exampleArgs0 exampleOut =
      .ok (0, { exampleEstimator with reference_set_ := false }, exampleOut) :=
  zero_features_reset exampleVision exampleEstimator exampleArgs0 exampleOut rfl rfl
    (by simp [currentFeatures, exampleVision, exampleArgs0])

/-- Claim C10 run on the two-feature frame (two mutual matches). -/
theorem weak_match_promotes_witness :
    ∃ self1 out1, setCurrentAndFindTransform exampleVision exampleEstimator exampleArgs2
        exampleOut = .ok (0, self1, out1) ∧
      self1.reference_set_ = true ∧
      self1.reference_img_RGB_ = exampleArgs2.visual_cur_image ∧
      self1.reference_img_gray_ = exampleVision.cvtColor exampleArgs2.visual_cur_image ∧
      self1.reference_img_depth_ = exampleArgs2.depth_curr_image_float ∧
      self1.reference2D_features_ = exampleFrame2.current2D_features ∧
      self1.reference2D_idealized_ = exampleFrame2.idealized_curr_pts ∧
      self1.reference3D_features_ = exampleFrame2.current3D_features ∧
      self1.reference_descriptors_ = exampleFrame2.current_descriptors :=
  weak_match_promotes exampleVision exampleEstimator exampleArgs2 exampleOut exampleFrame2
    [⟨0, 0, 0⟩, ⟨1, 1, 0⟩] rfl rfl
    (by rw [example_currentFeatures2]; simp [keyPoints4])
    example_currentFrame2 example_mutual2 (by simp)

/-- A call that returned 1 went down the success path. -/
theorem success_inversion (env : Vision) (self : PoseEstimator) (a : Args) (out : Outputs)
    (self1 : PoseEstimator) (out1 : Outputs)
    (h : setCurrentAndFindTransform env self a out = .ok (1, self1, out1)) :
    ∃ (cf : CurrentFrame) (final_matches : List DMatch) (ord : Ordered) (t : Vector3d),
      self.reference_set_ = true ∧ currentFeatures env self a ≠ [] ∧
      currentFrame env self a = .ok cf ∧
      currentMutualMatches env self a cf = .ok final_matches ∧
      3 < final_matches.length ∧
      orderCorrespondences self.reference3D_features_ self.reference2D_idealized_
        cf.current3D_features cf.idealized_curr_pts final_matches = .ok ord ∧
      ((callRANSAC env self ord out.inliers).final_rotation.cols = 3 ∧
        (callRANSAC env self ord out.inliers).final_rotation.rows = 3) ∧
      readTranslation (callRANSAC env self ord out.inliers).final_translation = .ok t := by
  have href : self.reference_set_ = true := by
    cases hr : self.reference_set_ with
    | true => rfl
    | false => simp [setCurrentAndFindTransform, hr] at h
  by_cases hfeat : currentFeatures env self a = []
  · rw [run_zero env self a out href hfeat] at h
    simp at h
  cases hcf : currentFrame env self a with
  | error e =>
    exfalso
    unfold currentFeatures at hfeat
    unfold currentFrame currentFeatures at hcf
    unfold setCurrentAndFindTransform at h
    simp [href, hfeat, hcf] at h
  | ok cf =>
    cases hm : currentMutualMatches env self a cf with
    | error e =>
      exfalso
      unfold currentFeatures at hfeat
      unfold currentFrame currentFeatures at hcf
      unfold setCurrentAndFindTransform at h
      simp [href, hfeat, hcf, hm] at h
    | ok final_matches =>
      by_cases hfew : final_matches.length ≤ 3
      · rw [run_weak env self a out cf final_matches href hfeat hcf hm hfew] at h
        simp at h
      have hmany : 3 < final_matches.length := by omega
      have hmany2 : ¬ (final_matches.length : Int) ≤ 3 := by
        intro hc
        have : final_matches.length ≤ 3 := by exact_mod_cast hc
        omega
      cases hord : orderCorrespondences self.reference3D_features_
          self.reference2D_idealized_ cf.current3D_features cf.idealized_curr_pts
          final_matches with
      | error e =>
        exfalso
        unfold currentFeatures at hfeat
        unfold currentFrame currentFeatures at hcf
        unfold setCurrentAndFindTransform at h
        simp [href, hfeat, hcf, hm, hmany2, hord] at h
      | ok ord =>
        by_cases hrot : (callRANSAC env self ord out.inliers).final_rotation.cols = 3 ∧
            (callRANSAC env self ord out.inliers).final_rotation.rows = 3
        · cases ht : readTranslation (callRANSAC env self ord out.inliers).final_translation
            with
          | error e =>
            exfalso
            unfold currentFeatures at hfeat
            unfold currentFrame currentFeatures at hcf
            unfold setCurrentAndFindTransform at h
            simp only [href, hcf, hm, hord] at h
            simp only [hfeat, hmany2, hrot, ht] at h
            simp [hfeat] at h
          | ok t => exact ⟨cf, final_matches, ord, t, href, hfeat, rfl, hm, hmany, hord, hrot, ht⟩
        · rw [run_ransac_failed env self a out cf final_matches ord href hfeat hcf hm hmany
            hord hrot] at h
          simp at h

/-- A call that returned 1 wrote the fixed covariance. -/
theorem success_covariance (env : Vision) (self : PoseEstimator) (a : Args) (out : Outputs)
    (self1 : PoseEstimator) (out1 : Outputs)
    (h : setCurrentAndFindTransform env self a out = .ok (1, self1, out1)) :
    out1.covariance = fixedCovariance := by
  obtain ⟨cf, final_matches, ord, t, href, hfeat, hcf, hm, hmany, hord, hrot, ht⟩ :=
    success_inversion env self a out self1 out1 h
  rw [run_success env self a out cf final_matches ord t href hfeat hcf hm hmany hord hrot ht] at h
  simp only [Except.ok.injEq, Prod.mk.injEq, true_and] at h
  rw [← h.2]

/-- Claim C11. On the success path with `setAsReference = true` (reference set, frame processed
to `cf`, more than 3 mutual matches, ordered arrays `ord` built from the reference members held
before the call, a 3×3 RANSAC rotation and a readable translation): the call returns 1; RANSAC
was run on `ord`, so the inlier count and, with the optimizer off, the rotation and translation
outputs come from the reference held before the call; the outputs are exactly those of the same
call made with `setAsReference = false`, and the estimator afterwards is the estimator left by
that call with the current frame stored as the reference by `setCurrentAsReference`, so that after
return every reference member equals the current frame's data. -/
theorem promotion_after_pose (env : Vision) (self : PoseEstimator) (a : Args) (out : Outputs)
    (cf : CurrentFrame) (final_matches : List DMatch) (ord : Ordered) (t : Vector3d)
    (href : self.reference_set_ = true) (hset : a.setAsReference = true)
    (hfeat : currentFeatures env self a ≠ [])
    (hcf : currentFrame env self a = .ok cf)
    (hm : currentMutualMatches env self a cf = .ok final_matches)
    (hmany : 3 < final_matches.length)
    (hord : orderCorrespondences self.reference3D_features_ self.reference2D_idealized_
      cf.current3D_features cf.idealized_curr_pts final_matches = .ok ord)
    (hrot : (callRANSAC env self ord out.inliers).final_rotation.cols = 3 ∧
      (callRANSAC env self ord out.inliers).final_rotation.rows = 3)
    (ht : readTranslation (callRANSAC env self ord out.inliers).final_translation = .ok t) :
    ∃ (self0 : PoseEstimator) (out1 : Outputs),
      setCurrentAndFindTransform env self { a with setAsReference := false } out
        = .ok (1, self0, out1) ∧
      setCurrentAndFindTransform env self a out
        = .ok (1, setCurrentAsReference self0 a.visual_cur_image
            (env.cvtColor a.visual_cur_image) a.depth_curr_image_float cf.current2D_features
            cf.idealized_curr_pts cf.current3D_features cf.current_descriptors, out1) ∧
      self0.reference2D_features_ = self.reference2D_features_ ∧
      self0.reference2D_idealized_ = self.reference2D_idealized_ ∧
      self0.reference3D_features_ = self.reference3D_features_ ∧
      self0.reference_descriptors_ = self.reference_descriptors_ ∧
      out1.inliers = (callRANSAC env self ord out.inliers).inliers ∧
      (self.enable_optimizer_ = false →
        out1.rotation =
          env.convertRToQuaternion (callRANSAC env self ord out.inliers).final_rotation ∧
        out1.translation = t) ∧
      out1.covariance = fixedCovariance := by
  have hgray : cf.gray_image = env.cvtColor a.visual_cur_image :=
    (processCurrent_spec env self a _ _ cf hcf).1
  have h0 := run_success env self { a with setAsReference := false } out cf final_matches ord t
    href hfeat hcf hm hmany hord hrot ht
  have h1 := run_success env self a out cf final_matches ord t href hfeat hcf hm hmany hord
    hrot ht
  refine ⟨_, _, h0, ?_, ?_, ?_, ?_, ?_, rfl, ?_, rfl⟩
  · rw [h1]
    simp [promote, hset, hgray]
  · cases self.enable_display_ <;> simp [promote]
  · cases self.enable_display_ <;> simp [promote]
  · cases self.enable_display_ <;> simp [promote]
  · cases self.enable_display_ <;> simp [promote]
  · intro hopt
    simp [hopt]

/-- Claim C11 run on the four-feature frame with promotion requested. -/
theorem promotion_after_pose_witness :
    ∃ (self0 : PoseEstimator) (out1 : Outputs),
      setCurrentAndFindTransform exampleVision exampleEstimator
        { ({ exampleArgs4 with setAsReference := true } : Args) with setAsReference := false }
        exampleOut = .ok (1, self0, out1) ∧
      setCurrentAndFindTransform exampleVision exampleEstimator
        { exampleArgs4 with setAsReference := true } exampleOut
        = .ok (1, setCurrentAsReference self0 [[1]] (exampleVision.cvtColor [[1]]) depthRow4
            exampleFrame4.current2D_features exampleFrame4.idealized_curr_pts
            exampleFrame4.current3D_features exampleFrame4.current_descriptors, out1) ∧
      self0.reference2D_features_ = exampleEstimator.reference2D_features_ ∧
      self0.reference2D_idealized_ = exampleEstimator.reference2D_idealized_ ∧
      self0.reference3D_features_ = exampleEstimator.reference3D_features_ ∧
      self0.reference_descriptors_ = exampleEstimator.reference_descriptors_ ∧
      out1.inliers = (callRANSAC exampleVision exampleEstimator
        ⟨points4, KeyPoint.convert keyPoints4, points4, KeyPoint.convert keyPoints4⟩
        exampleOut.inliers).inliers ∧
      (exampleEstimator.enable_optimizer_ = false →
        out1.rotation = exampleVision.convertRToQuaternion (callRANSAC exampleVision
          exampleEstimator
          ⟨points4, KeyPoint.convert keyPoints4, points4, KeyPoint.convert keyPoints4⟩
          exampleOut.inliers).final_rotation ∧
        out1.translation = ⟨0, 0, 0⟩) ∧
      out1.covariance = fixedCovariance :=
  promotion_after_pose exampleVision exampleEstimator
    { exampleArgs4 with setAsReference := true } exampleOut exampleFrame4
    [⟨0, 0, 0⟩, ⟨1, 1, 0⟩, ⟨2, 2, 0⟩, ⟨3, 3, 0⟩]
    ⟨points4, KeyPoint.convert keyPoints4, points4, KeyPoint.convert keyPoints4⟩ ⟨0, 0, 0⟩
    rfl rfl
    (by
      rw [show currentFeatures exampleVision exampleEstimator
        { exampleArgs4 with setAsReference := true } = keyPoints4 from example_currentFeatures4]
      simp [keyPoints4])
    example_currentFrame4 example_mutual4 (by simp) example_order4
    (by simp [callRANSAC, exampleVision, CvMat.zeros])
    (by simp [callRANSAC, exampleVision, CvMat.zeros, readTranslation, CvMat.entry])

/-- Claim C12 fails on the code, at two of the three returns with 0. (1) No feature: the call
returns 0 and the caller's `corresponding` and `total` still hold the stale 7 and 9, though no
match was found and the frame has no feature. (2) RANSAC without a fit, on a reference of five
features and a current frame of four features and four mutual matches, not promoted: the call
returns 0 with `corresponding = 4` but `total = 5`, the size of the reference, not of the current
frame. -/
theorem failure_diagnostics_stale :
    (currentFeatures exampleVision exampleEstimator exampleArgs0 = [] ∧
      diagnosticsOf (setCurrentAndFindTransform exampleVision exampleEstimator exampleArgs0
        staleOut) = some (0, 7, 9)) ∧
    ((currentFrame failingRansacVision exampleEstimator5 exampleArgs4).toOption.map
        (fun cf => (cf.current2D_features.length, cf.idealized_curr_pts.length)) = some (4, 4) ∧
      (currentFrame failingRansacVision exampleEstimator5 exampleArgs4).toOption.bind
        (fun cf => (currentMutualMatches failingRansacVision exampleEstimator5 exampleArgs4
          cf).toOption.map (fun final => final.length)) = some 4 ∧
      exampleEstimator5.reference2D_idealized_.length = 5 ∧
      diagnosticsOf (setCurrentAndFindTransform failingRansacVision exampleEstimator5
        exampleArgs4 exampleOut) = some (0, 4, 5)) := by
  refine ⟨⟨?_, ?_⟩, ?_, ?_, ?_, ?_⟩
  · simp [currentFeatures, exampleVision, exampleArgs0]
  · decide!
  · decide!
  · decide!
  · decide!
  · decide!

/-- Claim C13 fails on the code with the optimizer flag set: on an estimator constructed with
`optimize = true`, the successful call on the four-feature frame returns 1 and leaves in the
rotation and translation outputs the values the caller had there, which are neither the
quaternion of RANSAC's best rotation nor RANSAC's best translation. -/
theorem optimizer_pose_unwritten :
    optimizingEstimator.enable_optimizer_ = true ∧
    poseOf (setCurrentAndFindTransform exampleVision optimizingEstimator exampleArgs4 staleOut)
      = some (1, staleOut.rotation, staleOut.translation) ∧
    orderCorrespondences optimizingEstimator.reference3D_features_
      optimizingEstimator.reference2D_idealized_ exampleFrame4.current3D_features
      exampleFrame4.idealized_curr_pts [⟨0, 0, 0⟩, ⟨1, 1, 0⟩, ⟨2, 2, 0⟩, ⟨3, 3, 0⟩]
      = .ok ⟨points4, KeyPoint.convert keyPoints4, points4, KeyPoint.convert keyPoints4⟩ ∧
    staleOut.rotation ≠ exampleVision.convertRToQuaternion (callRANSAC exampleVision
      optimizingEstimator
      ⟨points4, KeyPoint.convert keyPoints4, points4, KeyPoint.convert keyPoints4⟩
      staleOut.inliers).final_rotation ∧
    readTranslation (callRANSAC exampleVision optimizingEstimator
      ⟨points4, KeyPoint.convert keyPoints4, points4, KeyPoint.convert keyPoints4⟩
      staleOut.inliers).final_translation = .ok ⟨0, 0, 0⟩ ∧
    staleOut.translation ≠ ⟨0, 0, 0⟩ := by
  refine ⟨rfl, ?_, rfl, ?_, ?_, ?_⟩
  · decide!
  · decide!
  · simp [callRANSAC, exampleVision, CvMat.zeros, readTranslation, CvMat.entry]
  · decide!

/-- A diagonal matrix with non-negative entries is symmetric positive semi-definite. -/
theorem isPSD_diagonal {n : Type} [Fintype n] [DecidableEq n] (d : n → ℚ)
    (hd : ∀ i, 0 ≤ d i) : IsPSD (Matrix.diagonal d) := by
  refine ⟨Matrix.diagonal_transpose d, ?_⟩
  intro x
  unfold Matrix.dotProduct
  apply Finset.sum_nonneg
  intro i _
  rw [Matrix.mulVec_diagonal]
  have : x i * (d i * x i) = d i * (x i * x i) := by ring
  rw [this]
  exact mul_nonneg (hd i) (mul_self_nonneg _)

/-- Every eigenvalue of a diagonal matrix with non-negative entries is non-negative. -/
theorem eigenvalue_diagonal_nonneg {n : Type} [Fintype n] [DecidableEq n] (d : n → ℚ)
    (hd : ∀ i, 0 ≤ d i) (μ : ℚ) (v : n → ℚ) (hv : v ≠ 0)
    (h : (Matrix.diagonal d).mulVec v = μ • v) : 0 ≤ μ := by
  have hex : ∃ i, v i ≠ 0 := by
    by_contra hc
    push_neg at hc
    exact hv (funext hc)
  obtain ⟨i, hi⟩ := hex
  have h1 := congrFun h i
  rw [Matrix.mulVec_diagonal] at h1
  simp only [Pi.smul_apply, smul_eq_mul] at h1
  have h2 : d i = μ := mul_right_cancel₀ hi h1
  rw [← h2]
  exact hd i

/-- The entries of the fixed covariance are non-negative. -/
theorem fixedCovariance_entries_nonneg :
    ∀ i : Fin 7, (0 : ℚ) ≤ ![0.0015, 0.0015, 0.0012, 4.8e-5, 4.4e-4, 3.2e-5, 7.1e-8] i := by
  decide!

/-- Claim C15. For every successful call (every call that returns 1), the 7×7 covariance written
by `setCurrentAndFindTransform` is symmetric, its quadratic form is nowhere negative, and all of
its eigenvalues are `≥ 0`. -/
theorem success_covariance_psd (env : Vision) (self : PoseEstimator) (a : Args) (out : Outputs)
    (self1 : PoseEstimator) (out1 : Outputs)
    (h : setCurrentAndFindTransform env self a out = .ok (1, self1, out1)) :
    out1.covariance.IsSymm ∧ IsPSD out1.covariance ∧
    ∀ (μ : ℚ) (v : Fin 7 → ℚ), v ≠ 0 → out1.covariance.mulVec v = μ • v → 0 ≤ μ := by
  rw [success_covariance env self a out self1 out1 h]
  have hpsd := isPSD_diagonal _ fixedCovariance_entries_nonneg
  refine ⟨hpsd.1, hpsd, ?_⟩
  intro μ v hv hev
  exact eigenvalue_diagonal_nonneg _ fixedCovariance_entries_nonneg μ v hv hev

/-- Claim C15 run on the successful call on the four-feature frame. -/
theorem success_covariance_psd_witness :
    fixedCovariance.IsSymm ∧ IsPSD fixedCovariance ∧
    ∀ (μ : ℚ) (v : Fin 7 → ℚ), v ≠ 0 → fixedCovariance.mulVec v = μ • v → 0 ≤ μ :=
  success_covariance_psd exampleVision exampleEstimator exampleArgs4 exampleOut
    exampleEstimator
    { exampleOut with corresponding := 4, total := 4, covariance := fixedCovariance }
    example_run4

/-- Claim C19 fails on the code: when undistortion of the current frame throws, the frame has
four key points but no idealized point and no 3D point; matching still runs on the descriptors
and finds four mutual matches with current indices 0 to 3; with more than three matches the
ordering loop reads the empty current arrays at index 0, and the call stops on that out-of-range
read instead of returning. -/
theorem undistort_failure_reads_out_of_range :
    (currentFrame throwingVision exampleEstimator exampleArgs4).toOption.map
        (fun cf => (cf.current2D_features.length, cf.idealized_curr_pts.length,
          cf.current3D_features.length)) = some (4, 0, 0) ∧
    (currentFrame throwingVision exampleEstimator exampleArgs4).toOption.bind
        (fun cf => (currentMutualMatches throwingVision exampleEstimator exampleArgs4
          cf).toOption.map (fun final => final.map (fun m => m.queryIdx))) = some [0, 1, 2, 3] ∧
    vecAt ([] : List Point3d) 0 = none ∧
    faultOf (setCurrentAndFindTransform throwingVision exampleEstimator exampleArgs4 exampleOut)
      = some Fault.outOfRange := by
  refine ⟨?_, ?_, rfl, ?_⟩
  · decide!
  · decide!
  · decide!

/-- Claim C16 fails as stated: for the half turn about `(1, 1, 1)` the angles returned by
`extractAngles` are large (`|roll| = 2.03 > 0.2`), but entry `(0,0)` of the guess is `-1/3 < 0.1`,
so the angles are not consulted and the window is the default `(300, 200)`. -/
theorem large_roll_default_window :
    (extractAngles tableVision halfTurnGuess).toOption = some (2.03, 2.03, -0.73) ∧
    |(2.03 : ℚ)| > 0.2 ∧
    (matchingWindow tableVision halfTurnGuess).toOption = some (300, 200) := by
  refine ⟨?_, ?_, ?_⟩
  · decide!
  · decide!
  · decide!

/-- Claim C16, amended. The matching window is returned for every 3×3 rotation guess, and is
never larger than the default `(300, 200)` in either dimension. Whenever entry `(0,0)` of the
guess is at least `0.1` and the angles returned by `extractAngles` have `|roll| > 0.2`,
`|pitch| > 0.12` or `|yaw| > 0.12`, the window is one of the three presets `(120,120)`,
`(300,180)`, `(250,200)`, chosen in the priority roll, pitch, yaw, and is strictly smaller than
the default in at least one dimension. -/
theorem matching_window_presets (env : Vision) (rotation_guess : CvMat) :
    (rotation_guess.rows = 3 ∧ rotation_guess.cols = 3 ∧ rotation_guess.data.length = 9 →
      ∃ w, matchingWindow env rotation_guess = .ok w) ∧
    (∀ w, matchingWindow env rotation_guess = .ok w → w.1 ≤ 300 ∧ w.2 ≤ 200) ∧
    (∀ (g roll pitch yaw : ℚ), rotation_guess.entry 0 0 = some g → g ≥ 0.1 →
      extractAngles env rotation_guess = .ok (roll, pitch, yaw) →
      (|roll| > 0.2 ∨ |pitch| > 0.12 ∨ |yaw| > 0.12) →
      ∃ w, matchingWindow env rotation_guess = .ok w ∧
        (|roll| > 0.2 → w = (120, 120)) ∧
        (¬ |roll| > 0.2 → |pitch| > 0.12 → w = (300, 180)) ∧
        (¬ |roll| > 0.2 → ¬ |pitch| > 0.12 → w = (250, 200)) ∧
        (w.1 < 300 ∨ w.2 < 200)) := by
  have hwin : ∀ roll pitch yaw : ℚ, (windowForAngles roll pitch yaw).1 ≤ 300 ∧
      (windowForAngles roll pitch yaw).2 ≤ 200 := by
    intro roll pitch yaw
    unfold windowForAngles
    split_ifs <;> simp
  refine ⟨?_, ?_, ?_⟩
  · rintro ⟨hr, hc, hl⟩
    have hentry : ∀ i j, i < 3 → j < 3 → ∃ v, rotation_guess.entry i j = some v := by
      intro i j hi hj
      have hlt : i * rotation_guess.cols + j < rotation_guess.data.length := by
        rw [hc, hl]; omega
      refine ⟨rotation_guess.data[i * rotation_guess.cols + j], ?_⟩
      unfold CvMat.entry
      rw [if_pos ⟨by omega, by omega⟩]
      exact List.getElem?_eq_getElem hlt
    obtain ⟨m00, h00⟩ := hentry 0 0 (by omega) (by omega)
    obtain ⟨m12, h12⟩ := hentry 1 2 (by omega) (by omega)
    obtain ⟨m22, h22⟩ := hentry 2 2 (by omega) (by omega)
    obtain ⟨m02, h02⟩ := hentry 0 2 (by omega) (by omega)
    obtain ⟨m01, h01⟩ := hentry 0 1 (by omega) (by omega)
    unfold matchingWindow extractAngles
    simp only [h00, h12, h22, h02, h01]
    split_ifs <;> exact ⟨_, rfl⟩
  · intro w h
    unfold matchingWindow at h
    split at h
    · simp at h
    · split_ifs at h
      · split at h
        · simp at h
        · simp only [Except.ok.injEq] at h
          rw [← h]
          exact hwin _ _ _
      · simp only [Except.ok.injEq] at h
        rw [← h]
        simp
  · intro g roll pitch yaw hg hge hang hlarge
    refine ⟨windowForAngles roll pitch yaw, ?_, ?_, ?_, ?_, ?_⟩
    · unfold matchingWindow
      simp only [hg, hang]
      rw [if_pos (Or.inl hge)]
    · intro h
      simp [windowForAngles, h]
    · intro h1 h2
      simp [windowForAngles, h1, h2]
    · intro h1 h2
      have h3 : |yaw| > 0.12 := by
        rcases hlarge with h | h | h
        · exact absurd h h1
        · exact absurd h h2
        · exact h
      simp [windowForAngles, h1, h2, h3]
    · unfold windowForAngles
      rcases hlarge with h | h | h
      · simp [h]
      · split_ifs <;> simp
      · split_ifs <;> simp

/-- A result observed through `toOption` is the result. -/
theorem eq_ok_of_toOption {α : Type} (r : Except Fault α) (x : α)
    (h : r.toOption = some x) : r = .ok x := by
  cases r with
  | error e => simp [Except.toOption] at h
  | ok y =>
    simp only [Except.toOption, Option.some.injEq] at h
    rw [h]

/-- A fault observed through `faultOf` is the result. -/
theorem eq_error_of_faultOf {α : Type} (r : Except Fault α) (e : Fault)
    (h : faultOf r = some e) : r = .error e := by
  cases r with
  | error e' =>
    simp only [faultOf, Option.some.injEq] at h
    rw [h]
  | ok y => simp [faultOf] at h

/-- Claim C16 (amended) run on a guess with entry `(0,0) = 0.9` and a roll of `0.42`. -/
theorem matching_window_presets_witness :
    (∃ w, matchingWindow tableVision rolledGuess = .ok w) ∧
    ((120 : Int) ≤ 300 ∧ (120 : Int) ≤ 200) ∧
    ∃ w, matchingWindow tableVision rolledGuess = .ok w ∧
      (|(0.42 : ℚ)| > 0.2 → w = (120, 120)) ∧
      (¬ |(0.42 : ℚ)| > 0.2 → |(0 : ℚ)| > 0.12 → w = (300, 180)) ∧
      (¬ |(0.42 : ℚ)| > 0.2 → ¬ |(0 : ℚ)| > 0.12 → w = (250, 200)) ∧
      (w.1 < 300 ∨ w.2 < 200) :=
  ⟨(matching_window_presets tableVision rolledGuess).1 ⟨rfl, rfl, rfl⟩,
   (matching_window_presets tableVision rolledGuess).2.1 (120, 120)
      (eq_ok_of_toOption _ _ (by decide!)),
   (matching_window_presets tableVision rolledGuess).2.2 (9/10) 0.42 0 0 (by decide!)
      (by decide!) (eq_ok_of_toOption _ _ (by decide!)) (Or.inl (by decide!))⟩

/-- Invariant of the sampler loop: started on a duplicate-free set of at most `number_samples`
values, the loop returns a duplicate-free set of exactly `number_samples` values, each of them in
the initial set or among the draws. -/
theorem uniformSamplerLoop_spec (number_samples : Int) :
    ∀ (draws sample result : List Int),
      uniformSamplerLoop number_samples draws sample = some result →
      sample.Nodup → (sample.length : Int) ≤ number_samples →
      result.Nodup ∧ (result.length : Int) = number_samples ∧
      ∀ v ∈ result, v ∈ sample ∨ v ∈ draws := by
  intro draws
  induction draws with
  | nil =>
    intro sample result h hnd hlen
    unfold uniformSamplerLoop at h
    split_ifs at h with hlt
    simp only [Option.some.injEq] at h
    subst h
    exact ⟨hnd, by omega, fun v hv => Or.inl hv⟩
  | cons value rest ih =>
    intro sample result h hnd hlen
    unfold uniformSamplerLoop at h
    split_ifs at h with hlt hc
    · obtain ⟨h1, h2, h3⟩ := ih _ _ h hnd hlen
      refine ⟨h1, h2, ?_⟩
      intro v hv
      rcases h3 v hv with h4 | h4
      · exact Or.inl h4
      · exact Or.inr (List.mem_cons_of_mem _ h4)
    · have hni : value ∉ sample := by
        intro hin
        exact hc (by simpa using hin)
      have hnd2 : (sample ++ [value]).Nodup := by
        rw [List.nodup_append]
        refine ⟨hnd, by simp, ?_⟩
        intro a ha hb
        simp only [List.mem_singleton] at hb
        subst hb
        exact hni ha
      have hlen2 : ((sample ++ [value]).length : Int) ≤ number_samples := by
        simp only [List.length_append, List.length_singleton]
        push_cast
        omega
      obtain ⟨h1, h2, h3⟩ := ih _ _ h hnd2 hlen2
      refine ⟨h1, h2, ?_⟩
      intro v hv
      rcases h3 v hv with h4 | h4
      · rcases List.mem_append.1 h4 with h5 | h5
        · exact Or.inl h5
        · simp only [List.mem_singleton] at h5
          subst h5
          exact Or.inr (List.mem_cons_self _ _)
      · exact Or.inr (List.mem_cons_of_mem _ h4)
    · simp only [Option.some.injEq] at h
      subst h
      exact ⟨hnd, by omega, fun v hv => Or.inl hv⟩

/-- The sampler loop returns once the set built so far and the draws together hold
`number_samples` distinct values. -/
theorem uniformSamplerLoop_returns (number_samples : Int) :
    ∀ (draws sample : List Int), sample.Nodup →
      number_samples ≤ ((sample ++ draws).toFinset.card : Int) →
      ∃ result, uniformSamplerLoop number_samples draws sample = some result := by
  intro draws
  induction draws with
  | nil =>
    intro sample hnd hcard
    unfold uniformSamplerLoop
    rw [List.append_nil, List.toFinset_card_of_nodup hnd] at hcard
    rw [if_neg (by omega)]
    exact ⟨_, rfl⟩
  | cons value rest ih =>
    intro sample hnd hcard
    unfold uniformSamplerLoop
    split_ifs with hlt hc
    · apply ih _ hnd
      have hin : value ∈ sample := by simpa using hc
      have : (sample ++ value :: rest).toFinset = (sample ++ rest).toFinset := by
        ext v
        simp only [List.mem_toFinset, List.mem_append, List.mem_cons]
        constructor
        · rintro (h | h | h)
          · exact Or.inl h
          · subst h; exact Or.inl hin
          · exact Or.inr h
        · rintro (h | h)
          · exact Or.inl h
          · exact Or.inr (Or.inr h)
      rw [← this]
      exact hcard
    · have hni : value ∉ sample := by
        intro hin
        exact hc (by simpa using hin)
      have hnd2 : (sample ++ [value]).Nodup := by
        rw [List.nodup_append]
        refine ⟨hnd, by simp, ?_⟩
        intro a ha hb
        simp only [List.mem_singleton] at hb
        subst hb
        exact hni ha
      apply ih _ hnd2
      rw [List.append_assoc]
      exact hcard
    · exact ⟨_, rfl⟩

/-- Claim C17. For every `n` and every sequence of random draws in `[0, n)`: the call
`uniformSampler(3, 0, n)` returns as soon as the draws hold 3 distinct values, and whenever it
returns, its result holds exactly 3 pairwise distinct indices, each in `[0, n)` (so `n ≥ 3`). -/
theorem uniformSampler_three_distinct (rt : QtRuntime) (n : Int) (draws : List Int) :
    (3 ≤ draws.toFinset.card → ∃ result, uniformSampler rt 3 0 n draws = some result) ∧
    ∀ result, (∀ v ∈ draws, 0 ≤ v ∧ v < n) → uniformSampler rt 3 0 n draws = some result →
      result.length = 3 ∧ result.Nodup ∧ (∀ v ∈ result, 0 ≤ v ∧ v < n) ∧ 3 ≤ n := by
  constructor
  · intro hcard
    obtain ⟨r, hr⟩ := uniformSamplerLoop_returns 3 draws [] List.nodup_nil
      (by simpa using (by exact_mod_cast hcard : (3 : Int) ≤ (draws.toFinset.card : Int)))
    exact ⟨rt.toList r, by simp [uniformSampler, hr]⟩
  · intro result hrange h
    unfold uniformSampler at h
    cases hl : uniformSamplerLoop 3 draws [] with
    | none => simp [hl] at h
    | some s =>
      simp only [hl, Option.map_some', Option.some.injEq] at h
      subst h
      obtain ⟨h1, h2, h3⟩ := uniformSamplerLoop_spec 3 draws [] s hl List.nodup_nil (by simp)
      have hperm := rt.toList_perm s
      have hlen : (rt.toList s).length = 3 := by
        rw [hperm.length_eq]
        exact_mod_cast h2
      have hmem : ∀ v ∈ rt.toList s, 0 ≤ v ∧ v < n := by
        intro v hv
        rcases h3 v (hperm.mem_iff.1 hv) with h4 | h4
        · simp at h4
        · exact hrange v h4
      have hnd : (rt.toList s).Nodup := hperm.nodup_iff.2 h1
      refine ⟨hlen, hnd, hmem, ?_⟩
      have hsub : (rt.toList s).toFinset ⊆ Finset.Ico 0 n := by
        intro v hv
        rw [Finset.mem_Ico]
        exact hmem v (List.mem_toFinset.1 hv)
      have hc := Finset.card_le_card hsub
      rw [List.toFinset_card_of_nodup hnd, hlen, Int.card_Ico] at hc
      omega

/-- Claim C17 run on the draws `2, 0, 2, 1` with `n = 3`. -/
theorem uniformSampler_three_distinct_witness :
    (∃ result, uniformSampler insertionOrder 3 0 3 [2, 0, 2, 1] = some result) ∧
    ([2, 0, 1] : List Int).length = 3 ∧ ([2, 0, 1] : List Int).Nodup ∧
    (∀ v ∈ ([2, 0, 1] : List Int), 0 ≤ v ∧ v < 3) ∧ (3 : Int) ≤ 3 :=
  ⟨(uniformSampler_three_distinct insertionOrder 3 [2, 0, 2, 1]).1 (by decide),
   (uniformSampler_three_distinct insertionOrder 3 [2, 0, 2, 1]).2 [2, 0, 1] (by decide)
     (by decide)⟩

/-- Claim C18 fails on the code: called on output vectors that already hold entries, `sample`
clears `reference_sample` and `current_sample` but not `current2D_sample` and `list`; on the draws
`2, 0, 2, 1` it returns with 3 reference and 3 current points but 4 entries in `current2D_sample`
and in `list`, whose entry 0 is the old index 7, not an index of the sample. -/
theorem sample_keeps_prior_entries :
    (sample insertionOrder [2, 0, 2, 1] points4 points4 (KeyPoint.convert keyPoints4)
        priorSamples).map Except.toOption =
      some (some
        { reference_sample := [⟨3, -3, 3⟩, ⟨-8, -8, 8⟩, ⟨0, -2, 2⟩]
          current_sample := [⟨3, -3, 3⟩, ⟨-8, -8, 8⟩, ⟨0, -2, 2⟩]
          current2D_sample := [⟨9, 9⟩, ⟨2, 0⟩, ⟨0, 0⟩, ⟨1, 0⟩]
          list := [7, 2, 0, 1] }) ∧
    priorSamples.current2D_sample = [⟨9, 9⟩] ∧ priorSamples.list = [7] := by
  refine ⟨?_, rfl, rfl⟩
  decide!

/-! ## Positive semi-definiteness of the propagated covariance -/

/-- The zero matrix is symmetric positive semi-definite. -/
theorem isPSD_zero {n : Type} [Fintype n] : IsPSD (0 : Matrix n n ℚ) := by
  refine ⟨Matrix.transpose_zero, ?_⟩
  intro x
  simp

/-- A sum of two symmetric positive semi-definite matrices is one. -/
theorem isPSD_add {n : Type} [Fintype n] (A B : Matrix n n ℚ) (hA : IsPSD A) (hB : IsPSD B) :
    IsPSD (A + B) := by
  refine ⟨hA.1.add hB.1, ?_⟩
  intro x
  rw [Matrix.add_mulVec, Matrix.dotProduct_add]
  exact add_nonneg (hA.2 x) (hB.2 x)

/-- A non-negative multiple of a symmetric positive semi-definite matrix is one. -/
theorem isPSD_smul {n : Type} [Fintype n] (c : ℚ) (A : Matrix n n ℚ) (hc : 0 ≤ c)
    (hA : IsPSD A) : IsPSD (c • A) := by
  refine ⟨hA.1.smul c, ?_⟩
  intro x
  rw [Matrix.smul_mulVec_assoc, Matrix.dotProduct_smul]
  exact mul_nonneg hc (hA.2 x)

/-- Propagation `J * M * Jᵀ` of a symmetric positive semi-definite matrix is one. -/
theorem isPSD_congr {m n : Type} [Fintype m] [Fintype n] (J : Matrix m n ℚ) (M : Matrix n n ℚ)
    (hM : IsPSD M) : IsPSD (J * M * J.transpose) := by
  constructor
  · unfold Matrix.IsSymm
    rw [Matrix.transpose_mul, Matrix.transpose_mul, Matrix.transpose_transpose, hM.1.eq,
      Matrix.mul_assoc]
  · intro x
    have h := hM.2 (J.transpose.mulVec x)
    have e : Matrix.dotProduct x ((J * M * J.transpose).mulVec x) =
        Matrix.dotProduct (J.transpose.mulVec x) (M.mulVec (J.transpose.mulVec x)) := by
      rw [← Matrix.mulVec_mulVec, ← Matrix.mulVec_mulVec, Matrix.dotProduct_mulVec,
        Matrix.mulVec_transpose]
    rw [e]
    exact h

/-- A sum of a list of symmetric positive semi-definite matrices is one. -/
theorem isPSD_list_sum {n : Type} [Fintype n] (l : List (Matrix n n ℚ))
    (h : ∀ M ∈ l, IsPSD M) : IsPSD l.sum := by
  induction l with
  | nil => exact isPSD_zero
  | cons M rest ih =>
    rw [List.sum_cons]
    exact isPSD_add _ _ (h M (List.mem_cons_self _ _))
      (ih (fun N hN => h N (List.mem_cons_of_mem _ hN)))

/-- Row `c` of `blockSelector * B` is row `c - off` of `B` inside the block and zero outside. -/
theorem blockSelector_mul_apply (N k off : ℕ) (B : Matrix (Fin k) (Fin k) ℚ) (c : Fin N)
    (b : Fin k) :
    (blockSelector N k off * B) c b =
      if h : off ≤ c.val ∧ c.val < off + k then B ⟨c.val - off, by omega⟩ b else 0 := by
  rw [Matrix.mul_apply]
  split
  · rename_i h
    rw [Finset.sum_eq_single (⟨c.val - off, by omega⟩ : Fin k)]
    · simp only [blockSelector]
      rw [if_pos (by show c.val = off + (c.val - off); omega)]
      ring
    · intro a _ ha
      simp only [blockSelector]
      rw [if_neg]
      · ring
      · intro hc
        apply ha
        apply Fin.ext
        simp only []
        omega
    · intro hc
      exact absurd (Finset.mem_univ _) hc
  · rename_i h
    apply Finset.sum_eq_zero
    intro a _
    simp only [blockSelector]
    rw [if_neg]
    · ring
    · intro hc
      apply h
      have := a.isLt
      omega

/-- A block assigned into the zero matrix is the block propagated through its selector. -/
theorem setBlock_zero_eq (N k off : ℕ) (B : Matrix (Fin k) (Fin k) ℚ) :
    setBlock (0 : Matrix (Fin N) (Fin N) ℚ) off B =
      blockSelector N k off * B * (blockSelector N k off).transpose := by
  ext c d
  rw [Matrix.mul_apply]
  simp only [blockSelector_mul_apply, Matrix.transpose_apply]
  unfold setBlock
  by_cases hc : off ≤ c.val ∧ c.val < off + k
  · by_cases hd : off ≤ d.val ∧ d.val < off + k
    · rw [dif_pos ⟨hc.1, hc.2, hd.1, hd.2⟩]
      simp only [dif_pos hc]
      rw [Finset.sum_eq_single (⟨d.val - off, by omega⟩ : Fin k)]
      · simp only [blockSelector]
        rw [if_pos (by show d.val = off + (d.val - off); omega)]
        ring
      · intro b _ hb
        simp only [blockSelector]
        rw [if_neg]
        · ring
        · intro hcb
          apply hb
          apply Fin.ext
          simp only []
          omega
      · intro hcb
        exact absurd (Finset.mem_univ _) hcb
    · rw [dif_neg (fun h => hd ⟨h.2.2.1, h.2.2.2⟩)]
      symm
      apply Finset.sum_eq_zero
      intro b _
      simp only [blockSelector]
      rw [if_neg]
      · simp
      · intro hcb
        apply hd
        have := b.isLt
        omega
  · rw [dif_neg (fun h => hc ⟨h.1, h.2.1⟩)]
    symm
    apply Finset.sum_eq_zero
    intro b _
    simp only [dif_neg hc]
    simp

/-- Assigning a symmetric positive semi-definite block on the diagonal of a symmetric positive
semi-definite matrix that is zero on the positions of the block gives such a matrix. -/
theorem isPSD_setBlock {N k : ℕ} (X : Matrix (Fin N) (Fin N) ℚ) (off : ℕ)
    (B : Matrix (Fin k) (Fin k) ℚ) (hX : IsPSD X) (hB : IsPSD B)
    (hzero : ∀ c d : Fin N, off ≤ c.val → c.val < off + k → off ≤ d.val → d.val < off + k →
      X c d = 0) :
    IsPSD (setBlock X off B) := by
  have e : setBlock X off B = X + setBlock (0 : Matrix (Fin N) (Fin N) ℚ) off B := by
    ext c d
    simp only [setBlock, Matrix.add_apply, Matrix.zero_apply]
    split
    · rename_i h
      rw [hzero c d h.1 h.2.1 h.2.2.1 h.2.2.2]
      ring
    · ring
  rw [e, setBlock_zero_eq]
  exact isPSD_add _ _ hX (isPSD_congr _ _ hB)

/-- Step 1 keeps what was pushed before, pushes one matrix per iteration onto each vector, and
every matrix it pushes is symmetric positive semi-definite when the noise matrix is. -/
theorem pointCovariancesLoop_spec (image_noise_ : Matrix3d) (fx fy ox oy : ℚ)
    (reference_image_pts current_image_pts : List Point2f)
    (reference_3D_pts current_3D_pts : List Point3d) (hN : IsPSD image_noise_) :
    ∀ (remaining i : Nat) (accR accC covR covC : List Matrix3d),
      pointCovariancesLoop image_noise_ fx fy ox oy reference_image_pts current_image_pts
        reference_3D_pts current_3D_pts remaining i accR accC = .ok (covR, covC) →
      (∀ M ∈ accR, IsPSD M) → (∀ M ∈ accC, IsPSD M) →
      (∀ M ∈ covR, IsPSD M) ∧ (∀ M ∈ covC, IsPSD M) ∧
      covR.length = accR.length + remaining ∧ covC.length = accC.length + remaining := by
  intro remaining
  induction remaining with
  | zero =>
    intro i accR accC covR covC h hR hC
    simp only [pointCovariancesLoop, Except.ok.injEq, Prod.mk.injEq] at h
    obtain ⟨h1, h2⟩ := h
    subst h1 h2
    exact ⟨hR, hC, rfl, rfl⟩
  | succ k ih =>
    intro i accR accC covR covC h hR hC
    unfold pointCovariancesLoop at h
    split at h
    · obtain ⟨h1, h2, h3, h4⟩ := ih _ _ _ _ _ h
        (by
          intro M hM
          rcases List.mem_append.1 hM with hM | hM
          · exact hR M hM
          · simp only [List.mem_singleton] at hM
            subst hM
            exact isPSD_congr _ _ hN)
        (by
          intro M hM
          rcases List.mem_append.1 hM with hM | hM
          · exact hC M hM
          · simp only [List.mem_singleton] at hM
            subst hM
            exact isPSD_congr _ _ hN)
      refine ⟨h1, h2, ?_, ?_⟩
      · rw [h3]; simp; omega
      · rw [h4]; simp; omega
    · simp at h

/-- Step 1 returns when the four input vectors have an entry at each index it visits. -/
theorem pointCovariancesLoop_ok (image_noise_ : Matrix3d) (fx fy ox oy : ℚ)
    (reference_image_pts current_image_pts : List Point2f)
    (reference_3D_pts current_3D_pts : List Point3d) :
    ∀ (remaining i : Nat) (accR accC : List Matrix3d),
      i + remaining ≤ reference_image_pts.length → i + remaining ≤ current_image_pts.length →
      i + remaining ≤ reference_3D_pts.length → i + remaining ≤ current_3D_pts.length →
      ∃ res, pointCovariancesLoop image_noise_ fx fy ox oy reference_image_pts
        current_image_pts reference_3D_pts current_3D_pts remaining i accR accC = .ok res := by
  intro remaining
  induction remaining with
  | zero => intro i accR accC _ _ _ _; exact ⟨_, rfl⟩
  | succ k ih =>
    intro i accR accC h1 h2 h3 h4
    unfold pointCovariancesLoop
    rw [List.getElem?_eq_getElem (show i < reference_3D_pts.length by omega),
      List.getElem?_eq_getElem (show i < reference_image_pts.length by omega),
      List.getElem?_eq_getElem (show i < current_3D_pts.length by omega),
      List.getElem?_eq_getElem (show i < current_image_pts.length by omega)]
    exact ih _ _ _ (by omega) (by omega) (by omega) (by omega)

/-- Step 2a: a centered covariance is symmetric positive semi-definite when the point
covariances are. -/
theorem isPSD_centeredCovariance (n : ℚ) (covs : List Matrix3d) (i : Nat)
    (h : ∀ M ∈ covs, IsPSD M) : IsPSD (centeredCovariance n covs i) := by
  unfold centeredCovariance
  apply isPSD_list_sum
  intro M hM
  obtain ⟨jc, hjc, rfl⟩ := List.mem_map.1 hM
  have hmem : jc.2 ∈ covs := by
    obtain ⟨hlt, heq⟩ := List.mem_enum hjc
    rw [heq]
    exact List.getElem_mem _
  split
  · exact isPSD_add _ _ (isPSD_smul _ _ (mul_self_nonneg _) (h _ hmem)) isPSD_zero
  · exact isPSD_add _ _ (isPSD_smul _ _ (mul_self_nonneg _) (h _ hmem)) isPSD_zero

/-- Step 5: a centroid covariance is symmetric positive semi-definite when the point
covariances are. -/
theorem isPSD_centroidCovariance (n : ℚ) (covs : List Matrix3d)
    (h : ∀ M ∈ covs, IsPSD M) : IsPSD (centroidCovariance n covs) := by
  unfold centroidCovariance
  apply isPSD_list_sum
  intro M hM
  obtain ⟨c, hc, rfl⟩ := List.mem_map.1 hM
  refine isPSD_smul _ _ ?_ (h c hc)
  exact div_nonneg (by norm_num) (mul_self_nonneg n)

/-- Step 2b: `CovarianceH` stays symmetric positive semi-definite through the loop. -/
theorem covarianceHLoop_spec (reference_cent_3D_pts current_cent_3D_pts : List Point3d) :
    ∀ (rest : List (Matrix3d × Matrix3d)) (i : Nat) (acc H : Matrix (Fin 9) (Fin 9) ℚ),
      covarianceHLoop reference_cent_3D_pts current_cent_3D_pts rest i acc = .ok H →
      (∀ p ∈ rest, IsPSD p.1 ∧ IsPSD p.2) → IsPSD acc → IsPSD H := by
  intro rest
  induction rest with
  | nil =>
    intro i acc H h _ hacc
    simp only [covarianceHLoop, Except.ok.injEq] at h
    subst h
    exact hacc
  | cons p rest ih =>
    intro i acc H h hp hacc
    obtain ⟨rc, cc⟩ := p
    unfold covarianceHLoop at h
    have hpsd := hp (rc, cc) (List.mem_cons_self _ _)
    split at h
    · refine ih _ _ _ h (fun q hq => hp q (List.mem_cons_of_mem _ hq)) ?_
      exact isPSD_add _ _ hacc
        (isPSD_add _ _ (isPSD_congr _ _ hpsd.1) (isPSD_congr _ _ hpsd.2))
    · simp at h

/-- Step 2b returns when the centered point vectors have an entry at each index it visits. -/
theorem covarianceHLoop_ok (reference_cent_3D_pts current_cent_3D_pts : List Point3d) :
    ∀ (rest : List (Matrix3d × Matrix3d)) (i : Nat) (acc : Matrix (Fin 9) (Fin 9) ℚ),
      i + rest.length ≤ reference_cent_3D_pts.length →
      i + rest.length ≤ current_cent_3D_pts.length →
      ∃ H, covarianceHLoop reference_cent_3D_pts current_cent_3D_pts rest i acc = .ok H := by
  intro rest
  induction rest with
  | nil => intro i acc _ _; exact ⟨_, rfl⟩
  | cons p rest ih =>
    intro i acc h1 h2
    obtain ⟨rc, cc⟩ := p
    simp only [List.length_cons] at h1 h2
    unfold covarianceHLoop
    rw [List.getElem?_eq_getElem (show i < current_cent_3D_pts.length by omega),
      List.getElem?_eq_getElem (show i < reference_cent_3D_pts.length by omega)]
    exact ih _ _ (by omega) (by omega)

/-- An entry of a block assignment outside the block is the entry of the matrix assigned to. -/
theorem setBlock_apply_outside {N k : ℕ} (X : Matrix (Fin N) (Fin N) ℚ) (off : ℕ)
    (B : Matrix (Fin k) (Fin k) ℚ) (c d : Fin N)
    (h : ¬ (off ≤ c.val ∧ c.val < off + k ∧ off ≤ d.val ∧ d.val < off + k)) :
    setBlock X off B c d = X c d := by
  unfold setBlock
  rw [dif_neg h]

/-- Step 5: the block-diagonal `Combined_Covariance` is symmetric positive semi-definite when its
three blocks are. -/
theorem isPSD_combined (CovarianceR : Matrix (Fin 9) (Fin 9) ℚ)
    (Covariance_Ref_C Covariance_Cur_C : Matrix3d) (hR : IsPSD CovarianceR)
    (hRef : IsPSD Covariance_Ref_C) (hCur : IsPSD Covariance_Cur_C) :
    IsPSD (setBlock (setBlock (setBlock (0 : Matrix (Fin 15) (Fin 15) ℚ) 0 CovarianceR) 9
      Covariance_Ref_C) 12 Covariance_Cur_C) := by
  have h1 : IsPSD (setBlock (0 : Matrix (Fin 15) (Fin 15) ℚ) 0 CovarianceR) :=
    isPSD_setBlock _ 0 _ isPSD_zero hR (fun _ _ _ _ _ _ => rfl)
  have h2 : IsPSD (setBlock (setBlock (0 : Matrix (Fin 15) (Fin 15) ℚ) 0 CovarianceR) 9
      Covariance_Ref_C) := by
    refine isPSD_setBlock _ 9 _ h1 hRef ?_
    intro c d hc1 _ _ _
    rw [setBlock_apply_outside _ _ _ _ _ (by omega)]
    rfl
  refine isPSD_setBlock _ 12 _ h2 hCur ?_
  intro c d hc1 _ _ _
  rw [setBlock_apply_outside _ _ _ _ _ (by omega), setBlock_apply_outside _ _ _ _ _ (by omega)]
  rfl

/-- The assembled `finalCovariance` is symmetric positive semi-definite when the translation and
quaternion blocks are. -/
theorem isPSD_finalCovariance (CovarianceT : Matrix3d) (CovarianceQ : Matrix (Fin 4) (Fin 4) ℚ)
    (hT : IsPSD CovarianceT) (hQ : IsPSD CovarianceQ) :
    IsPSD (setBlock (setBlock (0 : Matrix (Fin 7) (Fin 7) ℚ) 0 CovarianceT) 3 CovarianceQ) := by
  have h1 : IsPSD (setBlock (0 : Matrix (Fin 7) (Fin 7) ℚ) 0 CovarianceT) :=
    isPSD_setBlock _ 0 _ isPSD_zero hT (fun _ _ _ _ _ _ => rfl)
  refine isPSD_setBlock _ 3 _ h1 hQ ?_
  intro c d hc1 _ _ _
  rw [setBlock_apply_outside _ _ _ _ _ (by omega)]
  rfl

/-- The pairs of centered covariances handed to step 2b are symmetric positive
semi-definite. -/
theorem isPSD_centered_pairs (n : ℚ) (number : Nat) (covR covC : List Matrix3d)
    (hR : ∀ M ∈ covR, IsPSD M) (hC : ∀ M ∈ covC, IsPSD M) :
    ∀ p ∈ ((List.range number).map (centeredCovariance n covR)).zip
        ((List.range number).map (centeredCovariance n covC)), IsPSD p.1 ∧ IsPSD p.2 := by
  intro p hp
  obtain ⟨a, b⟩ := p
  have h1 := List.of_mem_zip hp
  obtain ⟨i, _, hi⟩ := List.mem_map.1 h1.1
  obtain ⟨j, _, hj⟩ := List.mem_map.1 h1.2
  simp only at hi hj ⊢
  rw [← hi, ← hj]
  exact ⟨isPSD_centeredCovariance n covR i hR, isPSD_centeredCovariance n covC j hC⟩

/-- Steps 3 to 5 give a symmetric positive semi-definite matrix when `CovarianceH` and the
point covariances are symmetric positive semi-definite. -/
theorem isPSD_covarianceFromH (sqrt : ℚ → ℚ) (pow : ℚ → ℚ → ℚ) (n : ℚ)
    (covR covC : List Matrix3d) (H : Matrix (Fin 9) (Fin 9) ℚ) (reference_centroid_pt : Point3d)
    (svd_U svd_V svd_D R : Matrix3d) (hR : ∀ M ∈ covR, IsPSD M) (hC : ∀ M ∈ covC, IsPSD M)
    (hH : IsPSD H) :
    IsPSD (covarianceFromH sqrt pow n covR covC H reference_centroid_pt svd_U svd_V svd_D R) := by
  have hCovR := isPSD_congr (jacobian3 svd_D svd_U svd_V) H hH
  exact isPSD_finalCovariance _ _
    (isPSD_smul _ _ (by norm_num)
      (isPSD_congr _ _ (isPSD_combined _ _ _ hCovR
        (isPSD_centroidCovariance _ _ hR) (isPSD_centroidCovariance _ _ hC))))
    (isPSD_smul _ _ (by norm_num) (isPSD_congr _ _ hCovR))

/-- A returned `calculateNewCovariance` went through steps 1 and 2 without fault, and its result
is `covarianceFromH` of what they produced. -/
theorem calculateNewCovariance_inversion (sqrt : ℚ → ℚ) (pow : ℚ → ℚ → ℚ)
    (self : PoseEstimator) (reference_image_pts current_image_pts : List Point2f)
    (reference_3D_pts current_3D_pts reference_cent_3D_pts current_cent_3D_pts : List Point3d)
    (reference_centroid_pt : Point3d) (svd_U svd_V svd_D R : Matrix3d) (T : Vector3d)
    (C : Matrix (Fin 7) (Fin 7) ℚ)
    (h : calculateNewCovariance sqrt pow self reference_image_pts current_image_pts
      reference_3D_pts current_3D_pts reference_cent_3D_pts current_cent_3D_pts
      reference_centroid_pt svd_U svd_V svd_D R T = .ok C) :
    ∃ (fx fy ox oy : ℚ) (covR covC : List Matrix3d) (H : Matrix (Fin 9) (Fin 9) ℚ),
      self.rgb_camera_P_.entry 0 0 = some fx ∧ self.rgb_camera_P_.entry 1 1 = some fy ∧
      self.rgb_camera_P_.entry 0 2 = some ox ∧ self.rgb_camera_P_.entry 1 2 = some oy ∧
      pointCovariancesLoop self.image_noise_ fx fy ox oy reference_image_pts current_image_pts
        reference_3D_pts current_3D_pts reference_image_pts.length 0 [] [] = .ok (covR, covC) ∧
      covarianceHLoop reference_cent_3D_pts current_cent_3D_pts
        (((List.range reference_image_pts.length).map
            (centeredCovariance (reference_image_pts.length : ℚ) covR)).zip
          ((List.range reference_image_pts.length).map
            (centeredCovariance (reference_image_pts.length : ℚ) covC))) 0 0 = .ok H ∧
      C = covarianceFromH sqrt pow (reference_image_pts.length : ℚ) covR covC H
        reference_centroid_pt svd_U svd_V svd_D R := by
  unfold calculateNewCovariance at h
  cases h1 : self.rgb_camera_P_.entry 0 0 with
  | none => simp [h1] at h
  | some fx =>
    cases h2 : self.rgb_camera_P_.entry 1 1 with
    | none => simp [h1, h2] at h
    | some fy =>
      cases h3 : self.rgb_camera_P_.entry 0 2 with
      | none => simp [h1, h2, h3] at h
      | some ox =>
        cases h4 : self.rgb_camera_P_.entry 1 2 with
        | none => simp [h1, h2, h3, h4] at h
        | some oy =>
          simp only [h1, h2, h3, h4] at h
          cases hres : pointCovariancesLoop self.image_noise_ fx fy ox oy reference_image_pts
              current_image_pts reference_3D_pts current_3D_pts reference_image_pts.length 0
              [] [] with
          | error e => simp [hres] at h
          | ok p =>
            obtain ⟨covR, covC⟩ := p
            simp only [hres] at h
            cases hH : covarianceHLoop reference_cent_3D_pts current_cent_3D_pts
                (((List.range reference_image_pts.length).map
                    (centeredCovariance (reference_image_pts.length : ℚ) covR)).zip
                  ((List.range reference_image_pts.length).map
                    (centeredCovariance (reference_image_pts.length : ℚ) covC))) 0 0 with
            | error e => simp [hH] at h
            | ok H =>
              simp only [hH, Except.ok.injEq] at h
              exact ⟨fx, fy, ox, oy, covR, covC, H, rfl, rfl, rfl, rfl, hres, hH, h.symm⟩

/-- The matrix of `calculateNewCovariance` with exact quotients is symmetric and positive
semi-definite for a diagonal non-negative image/depth noise matrix and any `sqrt` and `pow`, and
the method returns whenever the four entries of the projection matrix it reads exist and the
point vectors are at least as long as the vector of reference image points. This is the code's
matrix where no divisor is zero; at a zero divisor the code's quotient is not a number. -/
theorem calculateNewCovariance_psd (sqrt : ℚ → ℚ) (pow : ℚ → ℚ → ℚ) (self : PoseEstimator)
    (reference_image_pts current_image_pts : List Point2f)
    (reference_3D_pts current_3D_pts reference_cent_3D_pts current_cent_3D_pts : List Point3d)
    (reference_centroid_pt : Point3d) (svd_U svd_V svd_D R : Matrix3d) (T : Vector3d)
    (noise : Fin 3 → ℚ) (hnoise : self.image_noise_ = Matrix.diagonal noise)
    (hnonneg : ∀ i, 0 ≤ noise i) :
    ((∃ fx fy ox oy, self.rgb_camera_P_.entry 0 0 = some fx ∧
        self.rgb_camera_P_.entry 1 1 = some fy ∧ self.rgb_camera_P_.entry 0 2 = some ox ∧
        self.rgb_camera_P_.entry 1 2 = some oy) →
      reference_image_pts.length ≤ current_image_pts.length →
      reference_image_pts.length ≤ reference_3D_pts.length →
      reference_image_pts.length ≤ current_3D_pts.length →
      reference_image_pts.length ≤ reference_cent_3D_pts.length →
      reference_image_pts.length ≤ current_cent_3D_pts.length →
      ∃ C, calculateNewCovariance sqrt pow self reference_image_pts current_image_pts
        reference_3D_pts current_3D_pts reference_cent_3D_pts current_cent_3D_pts
        reference_centroid_pt svd_U svd_V svd_D R T = .ok C) ∧
    ∀ C, calculateNewCovariance sqrt pow self reference_image_pts current_image_pts
        reference_3D_pts current_3D_pts reference_cent_3D_pts current_cent_3D_pts
        reference_centroid_pt svd_U svd_V svd_D R T = .ok C →
      C.IsSymm ∧ ∀ x : Fin 7 → ℚ, 0 ≤ Matrix.dotProduct x (C.mulVec x) := by
  have hN : IsPSD self.image_noise_ := by
    rw [hnoise]
    exact isPSD_diagonal noise hnonneg
  constructor
  · rintro ⟨fx, fy, ox, oy, h1, h2, h3, h4⟩ l1 l2 l3 l4 l5
    unfold calculateNewCovariance
    simp only [h1, h2, h3, h4]
    obtain ⟨⟨covR, covC⟩, hres⟩ := pointCovariancesLoop_ok self.image_noise_ fx fy ox oy
      reference_image_pts current_image_pts reference_3D_pts current_3D_pts
      reference_image_pts.length 0 [] [] (by omega) (by omega) (by omega) (by omega)
    simp only [hres]
    obtain ⟨H, hH⟩ := covarianceHLoop_ok reference_cent_3D_pts current_cent_3D_pts
      (((List.range reference_image_pts.length).map
        (centeredCovariance (reference_image_pts.length : ℚ) covR)).zip
        ((List.range reference_image_pts.length).map
        (centeredCovariance (reference_image_pts.length : ℚ) covC))) 0 0
      (by simp; omega) (by simp; omega)
    simp only [hH]
    exact ⟨_, rfl⟩
  · intro C h
    obtain ⟨fx, fy, ox, oy, covR, covC, H, _, _, _, _, hres, hH, hC⟩ :=
      calculateNewCovariance_inversion _ _ _ _ _ _ _ _ _ _ _ _ _ _ _ _ h
    obtain ⟨hR, hCur, _, _⟩ := pointCovariancesLoop_spec self.image_noise_ fx fy ox oy
      reference_image_pts current_image_pts reference_3D_pts current_3D_pts hN _ _ _ _ _ _
      hres (by simp) (by simp)
    have hHpsd : IsPSD H := covarianceHLoop_spec _ _ _ _ _ _ hH
      (isPSD_centered_pairs _ _ _ _ hR hCur) isPSD_zero
    rw [hC]
    exact isPSD_covarianceFromH _ _ _ _ _ _ _ _ _ _ _ hR hCur hHpsd

/-- A diagonal entry of `J * M * Jᵀ` is the quadratic form of `M` at the row of `J`. -/
theorem congr_diag_apply {m n : Type} [Fintype m] [DecidableEq m] [Fintype n] (J : Matrix m n ℚ)
    (M : Matrix n n ℚ) (a : m) :
    (J * M * J.transpose) a a = Matrix.dotProduct (J a) (M.mulVec (J a)) := by
  have h : (J * M * J.transpose) a a =
      Matrix.dotProduct (Pi.single a 1) ((J * M * J.transpose).mulVec (Pi.single a 1)) := by
    simp [Matrix.mulVec_single, Matrix.single_dotProduct]
  rw [h, ← Matrix.mulVec_mulVec, ← Matrix.mulVec_mulVec, Matrix.dotProduct_mulVec,
    Matrix.mulVec_transpose]
  have hrow : Matrix.vecMul (Pi.single a 1) J = J a := by
    ext c
    simp [Matrix.single_vecMul]
  rw [hrow]

/-- Step 5: entry `(0,0)` of `J5 * Combined_Covariance * J5ᵀ` is at least entry `(0,0)` of the
covariance of the current centroid, the other two blocks being positive semi-definite. -/
theorem translation_entry_bound (reference_centroid_pt : Point3d) (R : Matrix3d)
    (CovarianceR : Matrix (Fin 9) (Fin 9) ℚ) (Covariance_Ref_C Covariance_Cur_C : Matrix3d)
    (hR : IsPSD CovarianceR) (hRef : IsPSD Covariance_Ref_C) :
    Covariance_Cur_C 0 0 ≤
      (jacobian5 reference_centroid_pt R *
        setBlock (setBlock (setBlock (0 : Matrix (Fin 15) (Fin 15) ℚ) 0 CovarianceR) 9
          Covariance_Ref_C) 12 Covariance_Cur_C *
        (jacobian5 reference_centroid_pt R).transpose) 0 0 := by
  have h1 : IsPSD (setBlock (0 : Matrix (Fin 15) (Fin 15) ℚ) 0 CovarianceR) :=
    isPSD_setBlock _ 0 _ isPSD_zero hR (fun _ _ _ _ _ _ => rfl)
  have h2 : IsPSD (setBlock (setBlock (0 : Matrix (Fin 15) (Fin 15) ℚ) 0 CovarianceR) 9
      Covariance_Ref_C) := by
    refine isPSD_setBlock _ 9 _ h1 hRef ?_
    intro c d hc1 _ _ _
    rw [setBlock_apply_outside _ _ _ _ _ (by omega)]
    rfl
  have e : setBlock (setBlock (setBlock (0 : Matrix (Fin 15) (Fin 15) ℚ) 0 CovarianceR) 9
      Covariance_Ref_C) 12 Covariance_Cur_C =
      setBlock (setBlock (0 : Matrix (Fin 15) (Fin 15) ℚ) 0 CovarianceR) 9 Covariance_Ref_C +
        blockSelector 15 3 12 * Covariance_Cur_C * (blockSelector 15 3 12).transpose := by
    rw [← setBlock_zero_eq]
    ext c d
    simp only [setBlock, Matrix.add_apply, Matrix.zero_apply]
    split
    · rename_i h
      rw [dif_neg (by omega), dif_neg (by omega)]
      ring
    · ring
  rw [congr_diag_apply, e, Matrix.add_mulVec, Matrix.dotProduct_add]
  have hsel : Matrix.dotProduct (jacobian5 reference_centroid_pt R 0)
      ((blockSelector 15 3 12 * Covariance_Cur_C * (blockSelector 15 3 12).transpose).mulVec
        (jacobian5 reference_centroid_pt R 0)) = Covariance_Cur_C 0 0 := by
    rw [← Matrix.mulVec_mulVec, ← Matrix.mulVec_mulVec, Matrix.dotProduct_mulVec,
      Matrix.mulVec_transpose]
    have hv : Matrix.vecMul (jacobian5 reference_centroid_pt R 0) (blockSelector 15 3 12) =
        ![1, 0, 0] := by
      ext a
      rw [Matrix.vecMul, Matrix.dotProduct]
      rw [Finset.sum_eq_single (⟨12 + a.val, by omega⟩ : Fin 15)]
      · simp only [blockSelector, if_true, mul_one]
        fin_cases a <;> rfl
      · intro b _ hb
        simp only [blockSelector]
        rw [if_neg]
        · ring
        · intro hc
          apply hb
          apply Fin.ext
          exact hc
      · intro hc
        exact absurd (Finset.mem_univ _) hc
    rw [hv]
    simp [Matrix.dotProduct, Matrix.mulVec, Fin.sum_univ_succ]
  rw [hsel]
  have := h2.2 (jacobian5 reference_centroid_pt R 0)
  linarith

/-- An entry of a block assignment inside the block is the entry of the block. -/
theorem setBlock_apply_inside {N k : ℕ} (X : Matrix (Fin N) (Fin N) ℚ) (off : ℕ)
    (B : Matrix (Fin k) (Fin k) ℚ) (c d : Fin N)
    (h : off ≤ c.val ∧ c.val < off + k ∧ off ≤ d.val ∧ d.val < off + k) :
    setBlock X off B c d = B ⟨c.val - off, by omega⟩ ⟨d.val - off, by omega⟩ := by
  unfold setBlock
  rw [dif_pos h]

/-- Entry `(0,0)` of the matrix of steps 3 to 5 is at least 20 times entry `(0,0)` of the
covariance of the current centroid. -/
theorem covarianceFromH_entry_bound (sqrt : ℚ → ℚ) (pow : ℚ → ℚ → ℚ) (n : ℚ)
    (covR covC : List Matrix3d) (H : Matrix (Fin 9) (Fin 9) ℚ) (reference_centroid_pt : Point3d)
    (svd_U svd_V svd_D R : Matrix3d) (hR : ∀ M ∈ covR, IsPSD M) (hH : IsPSD H) :
    20 * (centroidCovariance n covC) 0 0 ≤
      covarianceFromH sqrt pow n covR covC H reference_centroid_pt svd_U svd_V svd_D R 0 0 := by
  have hCovR := isPSD_congr (jacobian3 svd_D svd_U svd_V) H hH
  have hb := translation_entry_bound reference_centroid_pt R _ _ (centroidCovariance n covC)
    hCovR (isPSD_centroidCovariance n covR hR)
  unfold covarianceFromH
  rw [setBlock_apply_outside _ _ _ _ _ (by simp),
    setBlock_apply_inside _ _ _ _ _ (by simp)]
  simp only [Matrix.smul_apply, smul_eq_mul]
  have h0 : (⟨(0 : Fin 7).val - 0, by simp⟩ : Fin 3) = 0 := rfl
  rw [h0]
  linarith

/-- Entry `(0,0)` of whatever `calculateNewCovariance` returns is at least 20 times entry
`(0,0)` of the current-centroid covariance of every run of step 1 on the same inputs. -/
theorem calculateNewCovariance_entry_bound (sqrt : ℚ → ℚ) (pow : ℚ → ℚ → ℚ)
    (self : PoseEstimator) (reference_image_pts current_image_pts : List Point2f)
    (reference_3D_pts current_3D_pts reference_cent_3D_pts current_cent_3D_pts : List Point3d)
    (reference_centroid_pt : Point3d) (svd_U svd_V svd_D R : Matrix3d) (T : Vector3d)
    (C : Matrix (Fin 7) (Fin 7) ℚ) (hN : IsPSD self.image_noise_)
    (h : calculateNewCovariance sqrt pow self reference_image_pts current_image_pts
      reference_3D_pts current_3D_pts reference_cent_3D_pts current_cent_3D_pts
      reference_centroid_pt svd_U svd_V svd_D R T = .ok C) :
    ∃ (fx fy ox oy : ℚ) (covR covC : List Matrix3d),
      self.rgb_camera_P_.entry 0 0 = some fx ∧ self.rgb_camera_P_.entry 1 1 = some fy ∧
      self.rgb_camera_P_.entry 0 2 = some ox ∧ self.rgb_camera_P_.entry 1 2 = some oy ∧
      pointCovariancesLoop self.image_noise_ fx fy ox oy reference_image_pts current_image_pts
        reference_3D_pts current_3D_pts reference_image_pts.length 0 [] [] = .ok (covR, covC) ∧
      20 * (centroidCovariance (reference_image_pts.length : ℚ) covC) 0 0 ≤ C 0 0 := by
  obtain ⟨fx, fy, ox, oy, covR, covC, H, h1, h2, h3, h4, hres, hH, hC⟩ :=
    calculateNewCovariance_inversion _ _ _ _ _ _ _ _ _ _ _ _ _ _ _ _ h
  obtain ⟨hR, hCur, _, _⟩ := pointCovariancesLoop_spec self.image_noise_ fx fy ox oy
    reference_image_pts current_image_pts reference_3D_pts current_3D_pts hN _ _ _ _ _ _
    hres (by simp) (by simp)
  have hHpsd : IsPSD H := covarianceHLoop_spec _ _ _ _ _ _ hH
    (isPSD_centered_pairs _ _ _ _ hR hCur) isPSD_zero
  refine ⟨fx, fy, ox, oy, covR, covC, h1, h2, h3, h4, hres, ?_⟩
  rw [hC]
  exact covarianceFromH_entry_bound _ _ _ _ _ _ _ _ _ _ _ hR hHpsd

/-- A call observed through `poseOf` to have returned `ret` did return `ret`. -/
theorem exists_ok_of_poseOf (r : Except Fault (Int × PoseEstimator × Outputs)) (ret : Int)
    (h : (poseOf r).map (fun p => p.1) = some ret) :
    ∃ self1 out1, r = .ok (ret, self1, out1) := by
  cases r with
  | error e => simp [poseOf] at h
  | ok p =>
    obtain ⟨ret1, self1, out1⟩ := p
    simp only [poseOf, Option.map_some', Option.some.injEq] at h
    subst h
    exact ⟨self1, out1, rfl⟩

/-- Claim C14 fails on the code: on the four-feature frame, with a RANSAC that reports the
identity motion fitted on the sample `0, 1, 2` and its SVD factors, the call returns 1; the
ordered arrays are `exampleOrdered4`; `calculateNewCovariance` applied to the winning sample
returns a matrix; and the covariance the call wrote differs from that matrix (entry `(0,0)` is
`0.0015` against a value above 20 times the current-centroid variance). -/
theorem covariance_not_from_sample :
    ∃ (self1 : PoseEstimator) (out1 : Outputs) (C : Matrix (Fin 7) (Fin 7) ℚ),
      setCurrentAndFindTransform svdVision covarianceEstimator exampleArgs4 exampleOut
        = .ok (1, self1, out1) ∧
      orderCorrespondences covarianceEstimator.reference3D_features_
        covarianceEstimator.reference2D_idealized_ exampleFrame4.current3D_features
        exampleFrame4.idealized_curr_pts [⟨0, 0, 0⟩, ⟨1, 1, 0⟩, ⟨2, 2, 0⟩, ⟨3, 3, 0⟩]
        = .ok exampleOrdered4 ∧
      winningSampleCovariance sqrtTable powTable covarianceEstimator exampleOrdered4
        (callRANSAC svdVision covarianceEstimator exampleOrdered4 exampleOut.inliers)
        out1.translation = .ok C ∧
      out1.covariance ≠ C := by
  obtain ⟨self1, out1, hcall⟩ := exists_ok_of_poseOf
    (setCurrentAndFindTransform svdVision covarianceEstimator exampleArgs4 exampleOut) 1
    (by decide!)
  have hcov := success_covariance _ _ _ _ _ _ hcall
  have hsome : (winningSampleCovariance sqrtTable powTable covarianceEstimator exampleOrdered4
      (callRANSAC svdVision covarianceEstimator exampleOrdered4 exampleOut.inliers)
      out1.translation).toOption.isSome = true := by
    rfl
  cases hC : winningSampleCovariance sqrtTable powTable covarianceEstimator exampleOrdered4
      (callRANSAC svdVision covarianceEstimator exampleOrdered4 exampleOut.inliers)
      out1.translation with
  | error e => rw [hC] at hsome; simp [Except.toOption] at hsome
  | ok C =>
    refine ⟨self1, out1, C, hcall, rfl, hC, ?_⟩
    have hcalc : calculateNewCovariance sqrtTable powTable covarianceEstimator
        [⟨0, 0⟩, ⟨1, 0⟩, ⟨2, 0⟩] [⟨0, 0⟩, ⟨1, 0⟩, ⟨2, 0⟩]
        [⟨-8, -8, 8⟩, ⟨0, -2, 2⟩, ⟨3, -3, 3⟩] [⟨-8, -8, 8⟩, ⟨0, -2, 2⟩, ⟨3, -3, 3⟩]
        (findCentroid [⟨-8, -8, 8⟩, ⟨0, -2, 2⟩, ⟨3, -3, 3⟩]).1
        (findCentroid [⟨-8, -8, 8⟩, ⟨0, -2, 2⟩, ⟨3, -3, 3⟩]).1
        (findCentroid [⟨-8, -8, 8⟩, ⟨0, -2, 2⟩, ⟨3, -3, 3⟩]).2
        (callRANSAC svdVision covarianceEstimator exampleOrdered4
          exampleOut.inliers).svd_U.toMatrix3d
        (callRANSAC svdVision covarianceEstimator exampleOrdered4
          exampleOut.inliers).svd_V.toMatrix3d
        (callRANSAC svdVision covarianceEstimator exampleOrdered4
          exampleOut.inliers).svd_D.toMatrix3d
        (callRANSAC svdVision covarianceEstimator exampleOrdered4
          exampleOut.inliers).final_rotation.toMatrix3d
        out1.translation = .ok C := hC
    have hN : IsPSD covarianceEstimator.image_noise_ :=
      isPSD_diagonal _ (by decide!)
    obtain ⟨fx, fy, ox, oy, covR, covC, h1, h2, h3, h4, hres, hbound⟩ :=
      calculateNewCovariance_entry_bound _ _ _ _ _ _ _ _ _ _ _ _ _ _ _ C hN hcalc
    have e1 : covarianceEstimator.rgb_camera_P_.entry 0 0 = some 1 := by decide!
    have e2 : covarianceEstimator.rgb_camera_P_.entry 1 1 = some 1 := by decide!
    have e3 : covarianceEstimator.rgb_camera_P_.entry 0 2 = some 1 := by decide!
    have e4 : covarianceEstimator.rgb_camera_P_.entry 1 2 = some 1 := by decide!
    rw [e1] at h1
    rw [e2] at h2
    rw [e3] at h3
    rw [e4] at h4
    simp only [Option.some.injEq] at h1 h2 h3 h4
    subst h1 h2 h3 h4
    have hval : (pointCovariancesLoop covarianceEstimator.image_noise_ 1 1 1 1
        [⟨0, 0⟩, ⟨1, 0⟩, ⟨2, 0⟩] [⟨0, 0⟩, ⟨1, 0⟩, ⟨2, 0⟩]
        [⟨-8, -8, 8⟩, ⟨0, -2, 2⟩, ⟨3, -3, 3⟩] [⟨-8, -8, 8⟩, ⟨0, -2, 2⟩, ⟨3, -3, 3⟩]
        ([⟨0, 0⟩, ⟨1, 0⟩, ⟨2, 0⟩] : List Point2f).length 0 [] []).toOption.map
        (fun p => decide ((0.0015 : ℚ) <
          20 * centroidCovariance (([⟨0, 0⟩, ⟨1, 0⟩, ⟨2, 0⟩] : List Point2f).length : ℚ)
            p.2 0 0)) = some true := by
      decide!
    rw [hres] at hval
    simp only [Except.toOption, Option.map_some', Option.some.injEq, decide_eq_true_eq] at hval
    intro heq
    have h00 : out1.covariance 0 0 = 0.0015 := by
      rw [hcov]
      simp [fixedCovariance]
    rw [heq] at h00
    linarith

/-- Claim C14, amended. On success (every call that returns 1), the covariance written by
`setCurrentAndFindTransform` is the fixed diagonal matrix with diagonal
`0.0015, 0.0015, 0.0012, 4.8e-5, 4.4e-4, 3.2e-5, 7.1e-8`, whatever the RANSAC winning sample, its
observations and its SVD factors; `calculateNewCovariance` is not called. -/
theorem success_covariance_fixed (env : Vision) (self : PoseEstimator) (a : Args)
    (out : Outputs) (self1 : PoseEstimator) (out1 : Outputs)
    (h : setCurrentAndFindTransform env self a out = .ok (1, self1, out1)) :
    out1.covariance =
      Matrix.diagonal ![0.0015, 0.0015, 0.0012, 4.8e-5, 4.4e-4, 3.2e-5, 7.1e-8] := by
  rw [success_covariance env self a out self1 out1 h]
  rfl

/-- Claim C14 (amended) run on the successful call on the four-feature frame. -/
theorem success_covariance_fixed_witness :
    ({ exampleOut with corresponding := 4, total := 4, covariance := fixedCovariance }
        : Outputs).covariance =
      Matrix.diagonal ![0.0015, 0.0015, 0.0012, 4.8e-5, 4.4e-4, 3.2e-5, 7.1e-8] :=
  success_covariance_fixed exampleVision exampleEstimator exampleArgs4 exampleOut
    exampleEstimator
    { exampleOut with corresponding := 4, total := 4, covariance := fixedCovariance }
    example_run4

/-! ## The covariance propagation against the quantities it is claimed to compute -/

/-- Claim C21 fails on the code. For every `maximum` and every triple of singular values the flag
`unique` stays true and the diagnostic is not issued: the pairwise tests form an `else if` chain,
so at most one pairwise flag is cleared, while `unique` needs two. On the singular values
`2.01, 2, 1`, whose first pair is within the relative tolerance, the flags are
`unique = true, unique12 = false`; on `2.01, 2, 1.99`, where every pair is within the tolerance,
they are the same; and entry `(0,1)` of the generators for entry `(0,1)` of `H` is the closed-form
quotient by `d2² − d1² = −0.0401` (values `−20000/401` and `20100/401`), not a minimum-norm
solution. -/
theorem nonunique_singular_values_unflagged :
    (∀ (maximum : ℚ → ℚ → ℚ → ℚ) (svd_D : Matrix3d),
      (singularValueFlags maximum svd_D).unique = true ∧ warnsNonUnique maximum svd_D = false) ∧
    |closeSingularValues 0 0 - closeSingularValues 1 0| ≤
      0.01 * max 1 (max |closeSingularValues 0 0| |closeSingularValues 1 0|) ∧
    singularValueFlags maximum closeSingularValues = ⟨true, false, true, true⟩ ∧
    warnsNonUnique maximum closeSingularValues = false ∧
    singularValueFlags maximum crowdedSingularValues = ⟨true, false, true, true⟩ ∧
    closeSingularValues 1 0 * closeSingularValues 1 0 -
      closeSingularValues 0 0 * closeSingularValues 0 0 = -401/10000 ∧
    omegaU (closeSingularValues 0 0) (closeSingularValues 1 0) (closeSingularValues 2 0) 1 1 0 1
      0 1 = -20000/401 ∧
    omegaV (closeSingularValues 0 0) (closeSingularValues 1 0) (closeSingularValues 2 0) 1 1 0 1
      0 1 = 20100/401 := by
  refine ⟨?_, ?_, ?_, ?_, ?_, ?_, ?_, ?_⟩
  · intro maximum svd_D
    unfold warnsNonUnique singularValueFlags
    simp only
    split_ifs <;> simp_all
  · decide!
  · decide!
  · decide!
  · decide!
  · decide!
  · decide!
  · decide!

/-- Claim C22 fails on the code. For every input the generators `omega_Uij` and `omega_Vij` have
a zero diagonal but are symmetric, not skew-symmetric: the entries below the diagonal are copied
from those above it without a change of sign. On the singular values `3, 2, 1` with `U = V = I`,
for entry `(0,1)` of `H`: `Ω_U(0,1) = Ω_U(1,0) = −2/5` and `Ω_V(0,1) = Ω_V(1,0) = 3/5`. -/
theorem omega_generators_symmetric :
    (∀ (d1 d2 d3 : ℚ) (svd_U svd_V : Matrix3d) (i j a b : Fin 3),
      omegaU d1 d2 d3 svd_U svd_V i j a a = 0 ∧ omegaV d1 d2 d3 svd_U svd_V i j a a = 0 ∧
      omegaU d1 d2 d3 svd_U svd_V i j b a = omegaU d1 d2 d3 svd_U svd_V i j a b ∧
      omegaV d1 d2 d3 svd_U svd_V i j b a = omegaV d1 d2 d3 svd_U svd_V i j a b) ∧
    omegaU 3 2 1 1 1 0 1 0 1 = -2/5 ∧ omegaU 3 2 1 1 1 0 1 1 0 = -2/5 ∧
    omegaU 3 2 1 1 1 0 1 1 0 ≠ -omegaU 3 2 1 1 1 0 1 0 1 ∧
    omegaV 3 2 1 1 1 0 1 0 1 = 3/5 ∧ omegaV 3 2 1 1 1 0 1 1 0 = 3/5 ∧
    omegaV 3 2 1 1 1 0 1 1 0 ≠ -omegaV 3 2 1 1 1 0 1 0 1 := by
  refine ⟨?_, ?_, ?_, ?_, ?_, ?_, ?_⟩
  · intro d1 d2 d3 svd_U svd_V i j a b
    refine ⟨?_, ?_, ?_, ?_⟩
    · fin_cases a <;> simp [omegaU]
    · fin_cases a <;> simp [omegaV]
    · fin_cases a <;> fin_cases b <;> simp [omegaU]
    · fin_cases a <;> fin_cases b <;> simp [omegaV]
  · decide!
  · decide!
  · decide!
  · decide!
  · decide!
  · decide!

/-- Moving reference point `i` of the sample by `δ` changes `H` by `current_i · δᵀ`. -/
theorem crossCovarianceH_displace_reference {n : ℕ} (c r : Fin n → Point3d) (i : Fin n)
    (δ : Fin 3 → ℚ) :
    crossCovarianceH c (Function.update r i ((r i).displace δ)) =
      crossCovarianceH c r + Matrix.vecMulVec (c i).toVec δ := by
  unfold crossCovarianceH
  have hterm : ∀ k, Matrix.vecMulVec (c k).toVec
      ((Function.update r i ((r i).displace δ)) k).toVec =
      Matrix.vecMulVec (c k).toVec (r k).toVec +
        (if k = i then Matrix.vecMulVec (c i).toVec δ else 0) := by
    intro k
    by_cases hk : k = i
    · subst hk
      simp only [Function.update_same, if_true]
      ext a b
      simp only [Matrix.vecMulVec_apply, Matrix.add_apply, Point3d.displace, Point3d.toVec]
      fin_cases b <;> simp <;> ring
    · simp [Function.update_noteq hk, hk]
  simp_rw [hterm, Finset.sum_add_distrib, Finset.sum_ite_eq', Finset.mem_univ, if_true]

/-- Moving current point `i` of the sample by `δ` changes `H` by `δ · reference_iᵀ`. -/
theorem crossCovarianceH_displace_current {n : ℕ} (c r : Fin n → Point3d) (i : Fin n)
    (δ : Fin 3 → ℚ) :
    crossCovarianceH (Function.update c i ((c i).displace δ)) r =
      crossCovarianceH c r + Matrix.vecMulVec δ (r i).toVec := by
  unfold crossCovarianceH
  have hterm : ∀ k, Matrix.vecMulVec
      ((Function.update c i ((c i).displace δ)) k).toVec (r k).toVec =
      Matrix.vecMulVec (c k).toVec (r k).toVec +
        (if k = i then Matrix.vecMulVec δ (r i).toVec else 0) := by
    intro k
    by_cases hk : k = i
    · subst hk
      simp only [Function.update_same, if_true]
      ext a b
      simp only [Matrix.vecMulVec_apply, Matrix.add_apply, Point3d.displace, Point3d.toVec]
      fin_cases a <;> simp <;> ring
    · simp [Function.update_noteq hk, hk]
  simp_rw [hterm, Finset.sum_add_distrib, Finset.sum_ite_eq', Finset.mem_univ, if_true]

/-- The entries of `JacobianC2`: row `3a + b` holds coordinate `b` of the point in column `a`. -/
theorem jacobianC2_apply (p : Point3d) (row : Fin 9) (k : Fin 3) :
    jacobianC2 p row k = if (rowMajor row).1 = k then p.toVec (rowMajor row).2 else 0 := by
  fin_cases row <;> fin_cases k <;> rfl

/-- The entries of `JacobianR2`: every row of the `k`-th group of three rows holds coordinate `k`
of the point in column `k`. -/
theorem jacobianR2_apply (p : Point3d) (row : Fin 9) (k : Fin 3) :
    jacobianR2 p row k = if k.val = row.val / 3 then p.toVec k else 0 := by
  fin_cases row <;> fin_cases k <;> rfl

/-- Claim C23 fails on the code for the Jacobian paired with the reference covariance. For the
flattening of `H` by rows, `JacobianC2` is the derivative of the flattened `H` by current point
`i`: moving that point by `δ` changes entry `row` of the flattened `H` by `(JacobianC2·δ)(row)`
(`H` is linear in each point, so the expansion is exact). `JacobianR2`, filled from the current
point `(1, 2, 3)`, has the three rows `(1, 0, 0)` first, then three rows `(0, 2, 0)`, then three
rows `(0, 0, 3)`, and for no flattening of `H` (no one-to-one assignment of the nine positions to
the entries of `H`) is it the derivative of the flattened `H` by the reference point. -/
theorem jacobianR2_not_a_derivative :
    (∀ (n : ℕ) (c r : Fin n → Point3d) (i : Fin n) (δ : Fin 3 → ℚ) (row : Fin 9),
      crossCovarianceH (Function.update c i ((c i).displace δ)) r (rowMajor row).1
          (rowMajor row).2 - crossCovarianceH c r (rowMajor row).1 (rowMajor row).2 =
        (jacobianC2 (r i)).mulVec δ row) ∧
    jacobianR2 (sampleCentered 0) =
      !![1, 0, 0; 1, 0, 0; 1, 0, 0; 0, 2, 0; 0, 2, 0; 0, 2, 0; 0, 0, 3; 0, 0, 3; 0, 0, 3] ∧
    ¬ ∃ σ : Fin 9 → Fin 3 × Fin 3, Function.Injective σ ∧
      ∀ (r : Fin 3 → Point3d) (δ : Fin 3 → ℚ) (row : Fin 9),
        crossCovarianceH sampleCentered (Function.update r 0 ((r 0).displace δ)) (σ row).1
            (σ row).2 - crossCovarianceH sampleCentered r (σ row).1 (σ row).2 =
          (jacobianR2 (sampleCentered 0)).mulVec δ row := by
  refine ⟨?_, ?_, ?_⟩
  · intro n c r i δ row
    rw [crossCovarianceH_displace_current]
    simp only [Matrix.add_apply, add_sub_cancel_left, Matrix.vecMulVec_apply, Matrix.mulVec,
      Matrix.dotProduct, jacobianC2_apply]
    simp [Finset.sum_ite_eq, mul_comm]
  · decide!
  · rintro ⟨σ, hinj, h⟩
    have key : ∀ row : Fin 9, row.val / 3 = 0 → σ row = (0, 0) := by
      intro row hrow
      have h0 := h (fun _ => ⟨0, 0, 0⟩) ![1, 0, 0] row
      have h1 := h (fun _ => ⟨0, 0, 0⟩) ![0, 1, 0] row
      have h2 := h (fun _ => ⟨0, 0, 0⟩) ![0, 0, 1] row
      rw [crossCovarianceH_displace_reference] at h0 h1 h2
      simp only [Matrix.add_apply, add_sub_cancel_left, Matrix.vecMulVec_apply, Matrix.mulVec,
        Matrix.dotProduct, jacobianR2_apply, Fin.sum_univ_three, hrow] at h0 h1 h2
      rcases hσ : σ row with ⟨a, b⟩
      rw [hσ] at h0 h1 h2
      fin_cases a <;> fin_cases b <;> simp [sampleCentered, Point3d.toVec] at h0 h1 h2 ⊢
    have h01 : σ 0 = σ 1 := by
      rw [key 0 rfl, key 1 rfl]
    exact absurd (hinj h01) (by decide)

/-- The order of the rotation covariance: row `k` of `Jacobian3`, hence row and column `k` of
`CovarianceR = Jacobian3·CovarianceH·Jacobian3ᵗ`, holds the derivative of the entry
`rotationLayout k` of the rotation. -/
theorem jacobian3_row_layout (svd_D svd_U svd_V : Matrix3d) (row position : Fin 9) :
    jacobian3 svd_D svd_U svd_V row position =
      jacobianVUt svd_D svd_U svd_V ⟨position.val % 3, Nat.mod_lt _ (by decide)⟩
        ⟨position.val / 3, by omega⟩ (rotationLayout row).1 (rotationLayout row).2 :=
  rfl

/-- The rotation block of `Jacobian5`: row `a` holds `−reference_centroid_a` in the three columns
`3a, 3a+1, 3a+2` and zero elsewhere. -/
theorem jacobian5_apply_rotation (rc : Point3d) (R : Matrix3d) (a : Fin 3) (k : Fin 9) :
    jacobian5 rc R a (rotationColumn k) = if k.val / 3 = a.val then -(rc.toVec a) else 0 := by
  fin_cases a <;> fin_cases k <;> simp [jacobian5, rotationColumn, Point3d.toVec] <;> rfl

/-- The reference-centroid block of `Jacobian5` is `−R`. -/
theorem jacobian5_apply_reference (rc : Point3d) (R : Matrix3d) (a k : Fin 3) :
    jacobian5 rc R a (referenceCentroidColumn k) = -R a k := by
  fin_cases a <;> fin_cases k <;> rfl

/-- The current-centroid block of `Jacobian5` is the identity. -/
theorem jacobian5_apply_current (rc : Point3d) (R : Matrix3d) (a k : Fin 3) :
    jacobian5 rc R a (currentCentroidColumn k) = if a = k then 1 else 0 := by
  fin_cases a <;> fin_cases k <;> rfl

/-- Claim C24 fails on the code in the rotation block of `Jacobian5`. The reference-centroid
block is `−R` and the current-centroid block is the identity, as claimed: moving either centroid
by `δ` changes `T` by that block times `δ`. In the rotation block, row `a` holds
`−reference_centroid_a` three times (for the centroid `(1, 2, 3)`, row 0 is
`−1, −1, −1, 0, …, 0`), where the derivative of `T_a` by `R(a, b)` is `−reference_centroid_b`:
adding 1 to `R(0, 1)` changes `T_0` by `−2`, and the block, read in the order in which the
rotation covariance is laid out, gives `0`. For no assignment of the nine columns to the entries
of `R` does the block give the change of `T` under every change of `R`. -/
theorem jacobian5_rotation_block_wrong :
    (∀ (R : Matrix3d) (rc cc : Point3d) (δ : Fin 3 → ℚ) (a : Fin 3),
      translationFromCentroids R (rc.displace δ) cc a - translationFromCentroids R rc cc a =
        ∑ k, jacobian5 rc R a (referenceCentroidColumn k) * δ k) ∧
    (∀ (R : Matrix3d) (rc cc : Point3d) (δ : Fin 3 → ℚ) (a : Fin 3),
      translationFromCentroids R rc (cc.displace δ) a - translationFromCentroids R rc cc a =
        ∑ k, jacobian5 rc R a (currentCentroidColumn k) * δ k) ∧
    (fun k => jacobian5 ⟨1, 2, 3⟩ 1 0 (rotationColumn k)) = ![-1, -1, -1, 0, 0, 0, 0, 0, 0] ∧
    translationFromCentroids (1 + Matrix.stdBasisMatrix 0 1 1) ⟨1, 2, 3⟩ ⟨0, 0, 0⟩ 0 -
      translationFromCentroids 1 ⟨1, 2, 3⟩ ⟨0, 0, 0⟩ 0 = -2 ∧
    ∑ k, jacobian5 ⟨1, 2, 3⟩ 1 0 (rotationColumn k) *
      (Matrix.stdBasisMatrix 0 1 1 : Matrix3d) (rotationLayout k).1 (rotationLayout k).2 = 0 ∧
    ¬ ∃ σ : Fin 9 → Fin 3 × Fin 3, ∀ (Δ : Matrix3d) (a : Fin 3),
      translationFromCentroids (1 + Δ) ⟨1, 2, 3⟩ ⟨0, 0, 0⟩ a -
        translationFromCentroids 1 ⟨1, 2, 3⟩ ⟨0, 0, 0⟩ a =
      ∑ k, jacobian5 ⟨1, 2, 3⟩ 1 a (rotationColumn k) * Δ (σ k).1 (σ k).2 := by
  refine ⟨?_, ?_, ?_, ?_, ?_, ?_⟩
  · intro R rc cc δ a
    simp only [jacobian5_apply_reference, translationFromCentroids, Pi.sub_apply, Matrix.mulVec,
      Matrix.dotProduct, Fin.sum_univ_three, Point3d.displace, Point3d.toVec]
    fin_cases a <;> simp <;> ring
  · intro R rc cc δ a
    simp only [jacobian5_apply_current, translationFromCentroids, Pi.sub_apply, Matrix.mulVec,
      Matrix.dotProduct, Fin.sum_univ_three, Point3d.displace, Point3d.toVec]
    fin_cases a <;> simp
  · decide!
  · decide!
  · decide!
  · rintro ⟨σ, h⟩
    have h1 := h (Matrix.stdBasisMatrix 0 2 1) 0
    have h2 := h (Matrix.stdBasisMatrix 0 0 1) 0
    have e1 : translationFromCentroids (1 + Matrix.stdBasisMatrix 0 2 1) ⟨1, 2, 3⟩ ⟨0, 0, 0⟩ 0 -
        translationFromCentroids 1 ⟨1, 2, 3⟩ ⟨0, 0, 0⟩ 0 = -3 := by decide!
    have e2 : translationFromCentroids (1 + Matrix.stdBasisMatrix 0 0 1) ⟨1, 2, 3⟩ ⟨0, 0, 0⟩ 0 -
        translationFromCentroids 1 ⟨1, 2, 3⟩ ⟨0, 0, 0⟩ 0 = -1 := by decide!
    rw [e1] at h1
    rw [e2] at h2
    simp only [jacobian5_apply_rotation, Matrix.stdBasisMatrix, Matrix.of_apply] at h1 h2
    have s : ∀ f : Fin 9 → ℚ, ∑ k : Fin 9, (if k.val / 3 = (0 : Fin 3).val then
        -((⟨1, 2, 3⟩ : Point3d).toVec 0) else 0) * f k = -(f 0 + f 1 + f 2) := by
      intro f
      simp [Fin.sum_univ_succ, Point3d.toVec]
      ring
    rw [s] at h1 h2
    split_ifs at h1 with c0 c1 c2 <;> norm_num at h1
    have e0 : ¬ ((0 : Fin 3) = (σ 0).1 ∧ (0 : Fin 3) = (σ 0).2) := by
      rintro ⟨_, hb⟩
      exact absurd (c0.2.trans hb.symm) (by decide)
    have e1 : ¬ ((0 : Fin 3) = (σ 1).1 ∧ (0 : Fin 3) = (σ 1).2) := by
      rintro ⟨_, hb⟩
      exact absurd (c1.2.trans hb.symm) (by decide)
    have e2 : ¬ ((0 : Fin 3) = (σ 2).1 ∧ (0 : Fin 3) = (σ 2).2) := by
      rintro ⟨_, hb⟩
      exact absurd (c2.2.trans hb.symm) (by decide)
    simp [e0, e1, e2] at h2

/-- Claim C25 fails on the code. On the rotation `zTurn` about the z axis (`1 + trace = 36/25`,
`qw = 3/5`, `qz = 4/5`): entry `(2,0)` of `Jacobian4` is `(R(1,0) − R(0,1))/(4·pow(dterm, 1/2))
= 2/5`, where the derivative of `qz` by `R(0,0)` is `−(R(1,0) − R(0,1))/(4·dterm^(3/2)) =
−5/18` (the exponent is `1/2` for `3/2` and the sign is missing). On `xTurn`, the same rotation
with the axes permuted cyclically, the corresponding entry `(0,4)` of the `qx` row is `5/18`, so
the rows do not have the same form (`2/5` against `5/18`), and the derivative there is `−5/18`
too. Column 1 stands for `R(1,0)` in the order of the rotation covariance; entry `(2,1)` is
`−5/12`, where adding `t` to `R(1,0)` changes `qz` by `+(5/12)·t`. -/
theorem jacobian4_not_quaternion_derivative :
    1 + (zTurn 0 0 + zTurn 1 1 + zTurn 2 2) = 36 / 25 ∧
    1 + (xTurn 0 0 + xTurn 1 1 + xTurn 2 2) = 36 / 25 ∧
    Real.sqrt (36 / 25) = 6 / 5 ∧
    traceQuaternion sqrtTurn zTurn = ![0, 0, 4 / 5, 3 / 5] ∧
    traceQuaternion sqrtTurn xTurn = ![4 / 5, 0, 0, 3 / 5] ∧
    jacobian4 sqrtTurn powTurn zTurn 2 0 = 2 / 5 ∧
    HasDerivAt (fun t : ℝ => traceQuaternion Real.sqrt
      (zTurn.map (fun q => (q : ℝ)) + t • Matrix.stdBasisMatrix 0 0 1) 2) (-5 / 18) 0 ∧
    jacobian4 sqrtTurn powTurn xTurn 0 4 = 5 / 18 ∧
    HasDerivAt (fun t : ℝ => traceQuaternion Real.sqrt
      (xTurn.map (fun q => (q : ℝ)) + t • Matrix.stdBasisMatrix 1 1 1) 0) (-5 / 18) 0 ∧
    rotationLayout 1 = (1, 0) ∧
    jacobian4 sqrtTurn powTurn zTurn 2 1 = -5 / 12 ∧
    ∀ t : ℚ, traceQuaternion sqrtTurn (zTurn + t • Matrix.stdBasisMatrix 1 0 1) 2 -
      traceQuaternion sqrtTurn zTurn 2 = 5 / 12 * t := by
  have hsqrt : Real.sqrt (36 / 25) = 6 / 5 := by
    rw [show (36 / 25 : ℝ) = (6 / 5) ^ 2 by norm_num]
    exact Real.sqrt_sq (by norm_num)
  have hderiv : HasDerivAt
      (fun t : ℝ => (48 / 25 : ℝ) / (4 * (1 / 2 * Real.sqrt (36 / 25 + t)))) (-5 / 18) 0 := by
    have h1 : HasDerivAt (fun t : ℝ => 36 / 25 + t) 1 0 := by
      simpa using (hasDerivAt_id (0 : ℝ)).const_add (36 / 25)
    have h2 := h1.sqrt (by norm_num)
    have h3 := (h2.const_mul (1 / 2)).const_mul 4
    have hne : (4 : ℝ) * (1 / 2 * Real.sqrt (36 / 25 + 0)) ≠ 0 := by
      rw [add_zero, hsqrt]
      norm_num
    have h4 := (h3.inv hne).const_mul (48 / 25)
    have hfun : (fun t : ℝ => (48 / 25 : ℝ) / (4 * (1 / 2 * Real.sqrt (36 / 25 + t)))) =
        fun y : ℝ => 48 / 25 * (4 * (1 / 2 * Real.sqrt (36 / 25 + y)))⁻¹ := by
      funext t
      rw [div_eq_mul_inv]
    have hval : (48 / 25 : ℝ) * (-(4 * (1 / 2 * (1 / (2 * Real.sqrt (36 / 25 + 0))))) /
        (4 * (1 / 2 * Real.sqrt (36 / 25 + 0))) ^ 2) = -5 / 18 := by
      rw [add_zero, hsqrt]
      norm_num
    rw [hfun, ← hval]
    exact h4
  refine ⟨?_, ?_, hsqrt, ?_, ?_, ?_, ?_, ?_, ?_, ?_, ?_, ?_⟩
  · decide!
  · decide!
  · decide!
  · decide!
  · decide!
  · have hfun : (fun t : ℝ => traceQuaternion Real.sqrt
        (zTurn.map (fun q => (q : ℝ)) + t • Matrix.stdBasisMatrix 0 0 1) 2) =
        fun t : ℝ => (48 / 25 : ℝ) / (4 * (1 / 2 * Real.sqrt (36 / 25 + t))) := by
      funext t
      simp [traceQuaternion, zTurn, Matrix.stdBasisMatrix]
      norm_num
      ring_nf
    rw [hfun]
    exact hderiv
  · decide!
  · have hfun : (fun t : ℝ => traceQuaternion Real.sqrt
        (xTurn.map (fun q => (q : ℝ)) + t • Matrix.stdBasisMatrix 1 1 1) 0) =
        fun t : ℝ => (48 / 25 : ℝ) / (4 * (1 / 2 * Real.sqrt (36 / 25 + t))) := by
      funext t
      simp [traceQuaternion, xTurn, Matrix.stdBasisMatrix]
      norm_num
      ring_nf
    rw [hfun]
    exact hderiv
  · decide
  · decide!
  · intro t
    simp [traceQuaternion, zTurn, Matrix.stdBasisMatrix, sqrtTurn]
    norm_num
    ring

/-- A sum over an enumerated list is the sum over the positions of the list. -/
theorem sum_enumFrom_map (f : ℕ → Matrix3d → Matrix3d) :
    ∀ (covs : List Matrix3d) (k : ℕ),
      ((covs.enumFrom k).map (fun jc => f jc.1 jc.2)).sum =
        ∑ j in Finset.range covs.length, f (k + j) (covs.getD j 0) := by
  intro covs
  induction covs with
  | nil => intro k; simp
  | cons c cs ih =>
    intro k
    simp only [List.enumFrom_cons, List.map_cons, List.sum_cons, List.length_cons]
    rw [ih (k + 1), Finset.sum_range_succ']
    simp only [add_zero, List.getD_cons_zero, List.getD_cons_succ]
    rw [add_comm]
    congr 1
    apply Finset.sum_congr rfl
    intro j _
    rw [show k + 1 + j = k + (j + 1) by omega]

/-- Step 2a computes the centered covariance of the spec: for a point `i` of the sample, the
loop's sum is `(1 − 1/n)²·C_i + Σ_{j≠i} (1/n)²·C_j` with `n` the sample size. -/
theorem centeredCovariance_eq_spec (covs : List Matrix3d) (i : Nat) (hi : i < covs.length) :
    centeredCovariance (covs.length : ℚ) covs i = centeredCovarianceSpec covs i := by
  unfold centeredCovariance centeredCovarianceSpec List.enum
  rw [sum_enumFrom_map (fun j c => if i = j then
      ((1 - 1 / (covs.length : ℚ)) * (1 - 1 / (covs.length : ℚ))) • c + covariance_corresopond
    else ((1 / (covs.length : ℚ)) * (1 / (covs.length : ℚ))) • c + covariance_corresopond)
    covs 0]
  rw [← Finset.add_sum_erase (Finset.range covs.length) _ (Finset.mem_range.2 hi)]
  simp only [zero_add, if_true, covariance_corresopond, add_zero, pow_two]
  congr 1
  apply Finset.sum_congr rfl
  intro j hj
  have hne : i ≠ j := fun e => (Finset.ne_of_mem_erase hj) e.symm
  simp [hne]

/-- Step 1 pushes one matrix per iteration onto each of its two vectors. -/
theorem pointCovariancesLoop_length (image_noise_ : Matrix3d) (fx fy ox oy : ℚ)
    (reference_image_pts current_image_pts : List Point2f)
    (reference_3D_pts current_3D_pts : List Point3d) :
    ∀ (remaining i : Nat) (accR accC covR covC : List Matrix3d),
      pointCovariancesLoop image_noise_ fx fy ox oy reference_image_pts current_image_pts
        reference_3D_pts current_3D_pts remaining i accR accC = .ok (covR, covC) →
      covR.length = accR.length + remaining ∧ covC.length = accC.length + remaining := by
  intro remaining
  induction remaining with
  | zero =>
    intro i accR accC covR covC h
    simp only [pointCovariancesLoop, Except.ok.injEq, Prod.mk.injEq] at h
    obtain ⟨h1, h2⟩ := h
    subst h1 h2
    exact ⟨rfl, rfl⟩
  | succ k ih =>
    intro i accR accC covR covC h
    unfold pointCovariancesLoop at h
    split at h
    · obtain ⟨h3, h4⟩ := ih _ _ _ _ _ h
      refine ⟨?_, ?_⟩
      · rw [h3]; simp; omega
      · rw [h4]; simp; omega
    · simp at h

/-- The method `calculateNewCovariance` returns when the four entries of the projection matrix it
reads exist and the point vectors are at least as long as the vector of reference image points. -/
theorem calculateNewCovariance_returns (sqrt : ℚ → ℚ) (pow : ℚ → ℚ → ℚ) (self : PoseEstimator)
    (reference_image_pts current_image_pts : List Point2f)
    (reference_3D_pts current_3D_pts reference_cent_3D_pts current_cent_3D_pts : List Point3d)
    (reference_centroid_pt : Point3d) (svd_U svd_V svd_D R : Matrix3d) (T : Vector3d)
    (hP : ∃ fx fy ox oy, self.rgb_camera_P_.entry 0 0 = some fx ∧
        self.rgb_camera_P_.entry 1 1 = some fy ∧ self.rgb_camera_P_.entry 0 2 = some ox ∧
        self.rgb_camera_P_.entry 1 2 = some oy)
    (l1 : reference_image_pts.length ≤ current_image_pts.length)
    (l2 : reference_image_pts.length ≤ reference_3D_pts.length)
    (l3 : reference_image_pts.length ≤ current_3D_pts.length)
    (l4 : reference_image_pts.length ≤ reference_cent_3D_pts.length)
    (l5 : reference_image_pts.length ≤ current_cent_3D_pts.length) :
    ∃ C, calculateNewCovariance sqrt pow self reference_image_pts current_image_pts
      reference_3D_pts current_3D_pts reference_cent_3D_pts current_cent_3D_pts
      reference_centroid_pt svd_U svd_V svd_D R T = .ok C := by
  obtain ⟨fx, fy, ox, oy, h1, h2, h3, h4⟩ := hP
  unfold calculateNewCovariance
  simp only [h1, h2, h3, h4]
  obtain ⟨⟨covR, covC⟩, hres⟩ := pointCovariancesLoop_ok self.image_noise_ fx fy ox oy
    reference_image_pts current_image_pts reference_3D_pts current_3D_pts
    reference_image_pts.length 0 [] [] (by omega) (by omega) (by omega) (by omega)
  simp only [hres]
  obtain ⟨H, hH⟩ := covarianceHLoop_ok reference_cent_3D_pts current_cent_3D_pts
    (((List.range reference_image_pts.length).map
      (centeredCovariance (reference_image_pts.length : ℚ) covR)).zip
      ((List.range reference_image_pts.length).map
      (centeredCovariance (reference_image_pts.length : ℚ) covC))) 0 0
    (by simp; omega) (by simp; omega)
  simp only [hH]
  exact ⟨_, rfl⟩

/-- Claim C26. In a returning call of `calculateNewCovariance` on a sample of `n` points
(`n` the number of reference image points), step 1 produced `n` covariances `C_0 .. C_(n-1)` for
the reference points and `n` for the current points, and the centered covariances that step 2b
consumes are, for point `i` and for both the reference and the current points,
`(1 − 1/n)²·C_i + Σ_{j≠i} (1/n)²·C_j` (`centeredCovarianceSpec`): weight `1 − 1/n` on the point
itself and `1/n` on each peer. -/
theorem centered_covariance_propagation (sqrt : ℚ → ℚ) (pow : ℚ → ℚ → ℚ)
    (self : PoseEstimator) (reference_image_pts current_image_pts : List Point2f)
    (reference_3D_pts current_3D_pts reference_cent_3D_pts current_cent_3D_pts : List Point3d)
    (reference_centroid_pt : Point3d) (svd_U svd_V svd_D R : Matrix3d) (T : Vector3d)
    (C : Matrix (Fin 7) (Fin 7) ℚ)
    (h : calculateNewCovariance sqrt pow self reference_image_pts current_image_pts
      reference_3D_pts current_3D_pts reference_cent_3D_pts current_cent_3D_pts
      reference_centroid_pt svd_U svd_V svd_D R T = .ok C) :
    ∃ (fx fy ox oy : ℚ) (covR covC : List Matrix3d) (H : Matrix (Fin 9) (Fin 9) ℚ),
      pointCovariancesLoop self.image_noise_ fx fy ox oy reference_image_pts current_image_pts
        reference_3D_pts current_3D_pts reference_image_pts.length 0 [] [] = .ok (covR, covC) ∧
      covR.length = reference_image_pts.length ∧ covC.length = reference_image_pts.length ∧
      (∀ i, i < reference_image_pts.length →
        centeredCovariance (reference_image_pts.length : ℚ) covR i =
          centeredCovarianceSpec covR i ∧
        centeredCovariance (reference_image_pts.length : ℚ) covC i =
          centeredCovarianceSpec covC i) ∧
      covarianceHLoop reference_cent_3D_pts current_cent_3D_pts
        (((List.range reference_image_pts.length).map (centeredCovarianceSpec covR)).zip
          ((List.range reference_image_pts.length).map (centeredCovarianceSpec covC))) 0 0
        = .ok H ∧
      C = covarianceFromH sqrt pow (reference_image_pts.length : ℚ) covR covC H
        reference_centroid_pt svd_U svd_V svd_D R := by
  obtain ⟨fx, fy, ox, oy, covR, covC, H, _, _, _, _, hres, hH, hC⟩ :=
    calculateNewCovariance_inversion _ _ _ _ _ _ _ _ _ _ _ _ _ _ _ _ h
  obtain ⟨hlR, hlC⟩ := pointCovariancesLoop_length _ _ _ _ _ _ _ _ _ _ _ _ _ _ _ hres
  simp only [List.length_nil, zero_add] at hlR hlC
  have hR : ∀ i, i < reference_image_pts.length →
      centeredCovariance (reference_image_pts.length : ℚ) covR i =
        centeredCovarianceSpec covR i := by
    intro i hi
    rw [← hlR] at hi ⊢
    exact centeredCovariance_eq_spec covR i hi
  have hCur : ∀ i, i < reference_image_pts.length →
      centeredCovariance (reference_image_pts.length : ℚ) covC i =
        centeredCovarianceSpec covC i := by
    intro i hi
    rw [← hlC] at hi ⊢
    exact centeredCovariance_eq_spec covC i hi
  refine ⟨fx, fy, ox, oy, covR, covC, H, hres, hlR, hlC, fun i hi => ⟨hR i hi, hCur i hi⟩, ?_,
    hC⟩
  rw [← hH]
  congr 2
  · apply List.map_congr_left
    intro i hi
    exact (hR i (List.mem_range.1 hi)).symm
  · apply List.map_congr_left
    intro i hi
    exact (hCur i (List.mem_range.1 hi)).symm

/-- Claim C26 run on the sample `0, 1, 2` of the four-feature frame (`n = 3`, weights `4/9` and
`1/9`). -/
theorem centered_covariance_propagation_witness :
    ∃ C, calculateNewCovariance sqrtTable powTable covarianceEstimator sampleImagePoints
        sampleImagePoints samplePoints3D samplePoints3D (findCentroid samplePoints3D).1
        (findCentroid samplePoints3D).1 (findCentroid samplePoints3D).2 1 1
        sampleSingularValues 1 ⟨0, 0, 0⟩ = .ok C ∧
      ∃ (fx fy ox oy : ℚ) (covR covC : List Matrix3d) (H : Matrix (Fin 9) (Fin 9) ℚ),
        pointCovariancesLoop covarianceEstimator.image_noise_ fx fy ox oy sampleImagePoints
          sampleImagePoints samplePoints3D samplePoints3D sampleImagePoints.length 0 [] []
          = .ok (covR, covC) ∧
        covR.length = sampleImagePoints.length ∧ covC.length = sampleImagePoints.length ∧
        (∀ i, i < sampleImagePoints.length →
          centeredCovariance (sampleImagePoints.length : ℚ) covR i =
            centeredCovarianceSpec covR i ∧
          centeredCovariance (sampleImagePoints.length : ℚ) covC i =
            centeredCovarianceSpec covC i) ∧
        covarianceHLoop (findCentroid samplePoints3D).1 (findCentroid samplePoints3D).1
          (((List.range sampleImagePoints.length).map (centeredCovarianceSpec covR)).zip
            ((List.range sampleImagePoints.length).map (centeredCovarianceSpec covC))) 0 0
          = .ok H ∧
        C = covarianceFromH sqrtTable powTable (sampleImagePoints.length : ℚ) covR covC H
          (findCentroid samplePoints3D).2 1 1 sampleSingularValues 1 := by
  obtain ⟨C, hC⟩ := calculateNewCovariance_returns sqrtTable powTable covarianceEstimator
    sampleImagePoints sampleImagePoints samplePoints3D samplePoints3D
    (findCentroid samplePoints3D).1 (findCentroid samplePoints3D).1
    (findCentroid samplePoints3D).2 1 1 sampleSingularValues 1 ⟨0, 0, 0⟩
    ⟨1, 1, 1, 1, by decide!, by decide!, by decide!, by decide!⟩
    (by decide) (by decide) (by decide) (by decide) (by decide)
  exact ⟨C, hC, centered_covariance_propagation _ _ _ _ _ _ _ _ _ _ _ _ _ _ _ C hC⟩

/-- Claim C27 fails on the code. In the branch `det(V·Uᵗ) < 0` the code multiplies the `Ω_U` term
by the flag `negateCol` (the number 1), not by the matrix `negColumn = diag(1,1,−1)`: for every
input the value is `−V·Ω_V·negColumn·Uᵗ − V·Ω_U·Uᵗ`, the `Ω_U` term being that of the `det ≥ 0`
formula. On `U = I`, `V = diag(1,1,−1)`, singular values `3, 2, 1` and entry `(0,2)` of `H` the
flag is raised, the `Ω_U` term differs from the one with `diag(1,1,−1)` inserted (on either side
of `Ω_U`), and so does the whole Jacobian. -/
theorem reflection_not_mirrored_in_omegaU_term :
    (∀ (svd_D svd_U svd_V : Matrix3d) (i j : Fin 3),
      jacobianVUt svd_D svd_U svd_V i j =
        if negateCol svd_U svd_V = false then
          -svd_V * omegaV (svd_D 0 0) (svd_D 1 0) (svd_D 2 0) svd_U svd_V i j * svd_U.transpose -
            svd_V * omegaU (svd_D 0 0) (svd_D 1 0) (svd_D 2 0) svd_U svd_V i j * svd_U.transpose
        else
          -svd_V * omegaV (svd_D 0 0) (svd_D 1 0) (svd_D 2 0) svd_U svd_V i j * negColumn *
              svd_U.transpose -
            svd_V * omegaU (svd_D 0 0) (svd_D 1 0) (svd_D 2 0) svd_U svd_V i j *
              svd_U.transpose) ∧
    negateCol 1 negColumn = true ∧
    omegaU 3 2 1 1 negColumn 0 2 = !![0, 0, 1/8; 0, 0, 0; 1/8, 0, 0] ∧
    negColumn * omegaU 3 2 1 1 negColumn 0 2 * (1 : Matrix3d).transpose
      = !![0, 0, 1/8; 0, 0, 0; -1/8, 0, 0] ∧
    negColumn * negColumn * omegaU 3 2 1 1 negColumn 0 2 * (1 : Matrix3d).transpose
      = !![0, 0, 1/8; 0, 0, 0; 1/8, 0, 0] ∧
    negColumn * omegaU 3 2 1 1 negColumn 0 2 * negColumn * (1 : Matrix3d).transpose
      = !![0, 0, -1/8; 0, 0, 0; -1/8, 0, 0] ∧
    jacobianVUt sampleSingularValues 1 negColumn 0 2 ≠
      -negColumn * omegaV 3 2 1 1 negColumn 0 2 * negColumn * (1 : Matrix3d).transpose -
        negColumn * negColumn * omegaU 3 2 1 1 negColumn 0 2 * (1 : Matrix3d).transpose ∧
    jacobianVUt sampleSingularValues 1 negColumn 0 2 ≠
      -negColumn * omegaV 3 2 1 1 negColumn 0 2 * negColumn * (1 : Matrix3d).transpose -
        negColumn * omegaU 3 2 1 1 negColumn 0 2 * negColumn * (1 : Matrix3d).transpose := by
  refine ⟨?_, ?_, ?_, ?_, ?_, ?_, ?_, ?_⟩
  · intro svd_D svd_U svd_V i j
    unfold jacobianVUt
    cases h : negateCol svd_U svd_V <;> simp
  · decide!
  · decide!
  · decide!
  · decide!
  · decide!
  · decide!
  · decide!

/-! ## Reference frame: reachable states, one-to-one matches, frame effect -/

/-- What `setReferenceView` does when at least 200 features are detected, undistortion returns
and `calc3DPoints` returns: every reference member is written and the flag is raised. -/
theorem setReferenceView_full (env : Vision) (self : PoseEstimator) (visual_image : Image)
    (depth_image_float : DepthImage) (depth_image_CV8UC1 : Image) (idealized_pts : List Point2f)
    (pts : List Point3d)
    (hmany : 200 ≤
      (env.detect self.num_features_ (env.cvtColor visual_image) depth_image_CV8UC1).length)
    (hund : env.undistortPoints
      (KeyPoint.convert (env.compute (env.GaussianBlur (env.cvtColor visual_image))
        (env.detect self.num_features_ (env.cvtColor visual_image) depth_image_CV8UC1)).1)
      self.rgb_camera_matrix_ self.rgb_camera_distortion_ self.rgb_camera_P_
        = some idealized_pts)
    (hcalc : calc3DPoints depth_image_float self.rgb_info_
      (KeyPoint.convert (env.compute (env.GaussianBlur (env.cvtColor visual_image))
        (env.detect self.num_features_ (env.cvtColor visual_image) depth_image_CV8UC1)).1)
      idealized_pts self.reference3D_features_ = .ok pts) :
    setReferenceView env self visual_image depth_image_float depth_image_CV8UC1 =
      .ok { self with
            reference_img_RGB_ := visual_image
            reference_img_gray_ := env.cvtColor visual_image
            reference_img_depth_ := depth_image_float
            reference2D_features_ :=
              (env.compute (env.GaussianBlur (env.cvtColor visual_image))
                (env.detect self.num_features_ (env.cvtColor visual_image)
                  depth_image_CV8UC1)).1
            reference_descriptors_ :=
              (env.compute (env.GaussianBlur (env.cvtColor visual_image))
                (env.detect self.num_features_ (env.cvtColor visual_image)
                  depth_image_CV8UC1)).2
            reference2D_idealized_ := idealized_pts
            reference3D_features_ := pts
            reference_set_ := true } := by
  have hne : (env.detect self.num_features_ (env.cvtColor visual_image)
      depth_image_CV8UC1).isEmpty = false := by
    cases hd : env.detect self.num_features_ (env.cvtColor visual_image) depth_image_CV8UC1 with
    | nil => rw [hd] at hmany; simp at hmany
    | cons _ _ => rfl
  have hlt : ¬ (env.detect self.num_features_ (env.cvtColor visual_image)
      depth_image_CV8UC1).length < 200 := by omega
  unfold setReferenceView
  simp only [hne, hlt, decide_False, Bool.or_self, Bool.false_eq_true, if_false, hund, hcalc]

/-- The calibrated, freshly constructed estimator. -/
theorem example_calibrated :
    setKinectCalibration (PoseEstimator.construct false false) kinectCalibration
      kinectCalibration = .ok calibratedByCall := by
  simp [setKinectCalibration, kinectCalibration, calibratedByCall]

/-- The call `setReferenceView` on `denseFrame`, on the calibrated estimator and with a library
that detects and describes like `exampleVision` and undistorts 200 points to themselves: it
succeeds and stores 200 features, descriptor rows, idealized points and 3D points. -/
theorem setReferenceView_dense (env : Vision)
    (hdet : env.detect calibratedByCall.num_features_ (env.cvtColor denseFrame.visual_image)
      denseFrame.depth_image_CV8UC1 = List.replicate denseCount originKeyPoint)
    (hcvt : env.cvtColor denseFrame.visual_image = [[1]])
    (hcomp : env.compute (env.GaussianBlur (env.cvtColor denseFrame.visual_image))
      (List.replicate denseCount originKeyPoint) =
        (List.replicate denseCount originKeyPoint, List.replicate denseCount [0]))
    (hund : env.undistortPoints (List.replicate denseCount ⟨0, 0⟩) calibratedByCall.rgb_camera_matrix_
      calibratedByCall.rgb_camera_distortion_ calibratedByCall.rgb_camera_P_ =
        some (List.replicate denseCount ⟨0, 0⟩)) :
    ∃ pts : List Point3d, pts.length = denseCount ∧
      setReferenceView env calibratedByCall denseFrame.visual_image
        denseFrame.depth_image_float denseFrame.depth_image_CV8UC1 = .ok (denseReference pts) := by
  have hconv : KeyPoint.convert (List.replicate denseCount originKeyPoint) =
      List.replicate denseCount (⟨0, 0⟩ : Point2f) := by
    simp [KeyPoint.convert, originKeyPoint]
  obtain ⟨pts, hpts⟩ := calc3DPoints_ok denseFrame.depth_image_float calibratedByCall.rgb_info_
    (List.replicate denseCount ⟨0, 0⟩) (List.replicate denseCount ⟨0, 0⟩)
    calibratedByCall.reference3D_features_
    (by simp [calibratedByCall, kinectCalibration])
    (by
      intro k hk
      refine ⟨⟨0, 0⟩, ?_, ?_⟩
      · rw [List.getElem?_replicate]
        simp only [List.length_replicate] at hk
        simp [hk]
      · simp [toInt_zero, DepthImage.sample, vecAt, denseFrame, depthRow4])
  have hlen : pts.length = denseCount := by
    have h := (calc3DPoints_spec _ _ _ _ _ _ hpts).2.1
    simpa using h
  refine ⟨pts, hlen, ?_⟩
  rw [setReferenceView_full env calibratedByCall denseFrame.visual_image
    denseFrame.depth_image_float denseFrame.depth_image_CV8UC1 (List.replicate denseCount ⟨0, 0⟩) pts
    (by rw [hdet, List.length_replicate]; decide)
    (by rw [hdet, hcomp, hconv]; exact hund)
    (by rw [hdet, hcomp, hconv]; exact hpts)]
  rw [hdet, hcomp, hcvt]
  rfl

/-- The estimator after construction, calibration and a `setReferenceView` on `denseFrame`. -/
theorem estimatorAfter_dense (env : Vision)
    (hdet : env.detect calibratedByCall.num_features_ (env.cvtColor denseFrame.visual_image)
      denseFrame.depth_image_CV8UC1 = List.replicate denseCount originKeyPoint)
    (hcvt : env.cvtColor denseFrame.visual_image = [[1]])
    (hcomp : env.compute (env.GaussianBlur (env.cvtColor denseFrame.visual_image))
      (List.replicate denseCount originKeyPoint) =
        (List.replicate denseCount originKeyPoint, List.replicate denseCount [0]))
    (hund : env.undistortPoints (List.replicate denseCount ⟨0, 0⟩) calibratedByCall.rgb_camera_matrix_
      calibratedByCall.rgb_camera_distortion_ calibratedByCall.rgb_camera_P_ =
        some (List.replicate denseCount ⟨0, 0⟩)) :
    ∃ pts : List Point3d, pts.length = denseCount ∧
      estimatorAfter env [denseFrame] = .ok (denseReference pts) ∧
      ∀ rest, estimatorAfter env (denseFrame :: rest) =
        setReferenceViews env (denseReference pts) rest := by
  obtain ⟨pts, hlen, hset⟩ := setReferenceView_dense env hdet hcvt hcomp hund
  refine ⟨pts, hlen, ?_, ?_⟩
  · simp only [estimatorAfter, example_calibrated, setReferenceViews, hset]
  · intro rest
    simp only [estimatorAfter, example_calibrated, setReferenceViews, hset]

/-- The library `exampleVision` meets the conditions of `setReferenceView_dense`. -/
theorem exampleVision_dense :
    exampleVision.detect calibratedByCall.num_features_
        (exampleVision.cvtColor denseFrame.visual_image) denseFrame.depth_image_CV8UC1
      = List.replicate denseCount originKeyPoint ∧
    exampleVision.cvtColor denseFrame.visual_image = [[1]] ∧
    exampleVision.compute (exampleVision.GaussianBlur
        (exampleVision.cvtColor denseFrame.visual_image)) (List.replicate denseCount originKeyPoint)
      = (List.replicate denseCount originKeyPoint, List.replicate denseCount [0]) := by
  refine ⟨?_, rfl, ?_⟩
  · simp [exampleVision, denseFrame, originKeyPoint]
  · simp [exampleVision]

/-- The library `shortThrowVision` meets the conditions of `setReferenceView_dense`. -/
theorem shortThrowVision_dense :
    shortThrowVision.detect calibratedByCall.num_features_
        (shortThrowVision.cvtColor denseFrame.visual_image) denseFrame.depth_image_CV8UC1
      = List.replicate denseCount originKeyPoint ∧
    shortThrowVision.cvtColor denseFrame.visual_image = [[1]] ∧
    shortThrowVision.compute (shortThrowVision.GaussianBlur
        (shortThrowVision.cvtColor denseFrame.visual_image))
        (List.replicate denseCount originKeyPoint)
      = (List.replicate denseCount originKeyPoint, List.replicate denseCount [0]) ∧
    shortThrowVision.undistortPoints (List.replicate denseCount ⟨0, 0⟩)
        calibratedByCall.rgb_camera_matrix_ calibratedByCall.rgb_camera_distortion_
        calibratedByCall.rgb_camera_P_
      = some (List.replicate denseCount ⟨0, 0⟩) := by
  have h := exampleVision_dense
  refine ⟨?_, ?_, ?_, ?_⟩
  · simpa only [shortThrowVision] using h.1
  · simpa only [shortThrowVision] using h.2.1
  · simpa only [shortThrowVision] using h.2.2
  · simp only [shortThrowVision, List.length_replicate]
    rw [if_neg (by decide)]

/-- The two-feature frame processed with an undistortion that throws: two key points and two
descriptor rows, no idealized point and no 3D point. -/
theorem shortThrow_currentFrame (pts : List Point3d) :
    currentFeatures shortThrowVision (denseReference pts) exampleArgs2 = keyPoints4.take 2 ∧
    currentFrame shortThrowVision (denseReference pts) exampleArgs2 =
      .ok ⟨[[1]], keyPoints4.take 2, [[0], [0]], [], []⟩ := by
  have hfeat : currentFeatures shortThrowVision (denseReference pts) exampleArgs2 =
      keyPoints4.take 2 := by
    simp [currentFeatures, shortThrowVision, exampleVision, exampleArgs2, mask2, keyPoints4]
  refine ⟨hfeat, ?_⟩
  rw [currentFrame, hfeat]
  simp [processCurrent, shortThrowVision, exampleVision, exampleArgs2, keyPoints4,
    KeyPoint.convert, denseReference, calibratedByCall, calc3DPoints, calc3DPointsLoop,
    kinectCalibration]

/-- The mutual matches of the two-feature frame against the dense reference. -/
theorem shortThrow_mutual (pts : List Point3d) :
    currentMutualMatches shortThrowVision (denseReference pts) exampleArgs2
      ⟨[[1]], keyPoints4.take 2, [[0], [0]], [], []⟩ = .ok [⟨0, 0, 0⟩, ⟨1, 1, 0⟩] := by
  have hw : matchingWindow shortThrowVision exampleArgs2.rotation_guess = .ok (300, 200) := by
    simp [matchingWindow, exampleArgs2, CvMat.zeros, CvMat.entry]
    norm_num
  have h0 : ((List.range denseCount).map
      (fun (k : Nat) => DMatch.mk (Int.ofNat k) (Int.ofNat k) 0))[0]? = some ⟨0, 0, 0⟩ := by
    rw [List.getElem?_map, List.getElem?_range (by decide)]
    rfl
  have h1 : ((List.range denseCount).map
      (fun (k : Nat) => DMatch.mk (Int.ofNat k) (Int.ofNat k) 0))[1]? = some ⟨1, 1, 0⟩ := by
    rw [List.getElem?_map, List.getElem?_range (by decide)]
    rfl
  have hr2 : List.range 2 = [0, 1] := rfl
  rw [currentMutualMatches, hw]
  simp only [shortThrowVision, exampleVision, denseReference, List.length_replicate,
    List.length_cons, List.length_nil, zero_add, Nat.reduceAdd, hr2, List.map_cons,
    List.map_nil]
  generalize (List.range denseCount).map
    (fun (k : Nat) => DMatch.mk (Int.ofNat k) (Int.ofNat k) 0) = reverse_matches at h0 h1 ⊢
  simp [findMutualMatches, findMutualMatchesLoop, vecAt, h0, h1]

/-- Claim C28 fails on the code. After construction, calibration and a `setReferenceView` on a
frame with 200 features the flag is raised and the four reference arrays have 200 entries each.
A further `setReferenceView` on a frame with two features (fewer than 200) returns early with the
flag still raised and the 2D features already overwritten: 2 reference features against 200
idealized points, 200 3D points and 200 descriptor rows. Likewise a `setCurrentAndFindTransform`
to be promoted, on a two-feature frame whose undistortion throws, returns 0 and leaves the flag
raised with 2 features and 2 descriptor rows against no idealized point and no 3D point. -/
theorem reference_arrays_misaligned :
    (∃ s1 s2 : PoseEstimator,
      estimatorAfter exampleVision [denseFrame] = .ok s1 ∧
      referenceShape s1 = (true, 200, 200, 200, 200) ∧
      (detectedIn exampleVision s1 fewFeaturesFrame).length = 2 ∧
      estimatorAfter exampleVision [denseFrame, fewFeaturesFrame] = .ok s2 ∧
      referenceShape s2 = (true, 2, 200, 200, 200)) ∧
    (∃ (s1 s3 : PoseEstimator) (out3 : Outputs),
      estimatorAfter shortThrowVision [denseFrame] = .ok s1 ∧
      referenceShape s1 = (true, 200, 200, 200, 200) ∧
      exampleArgs2.setAsReference = true ∧
      setCurrentAndFindTransform shortThrowVision s1 exampleArgs2 exampleOut
        = .ok (0, s3, out3) ∧
      referenceShape s3 = (true, 2, 0, 0, 2)) := by
  constructor
  · obtain ⟨pts, hlen, h1, hrest⟩ := estimatorAfter_dense exampleVision exampleVision_dense.1
      exampleVision_dense.2.1 exampleVision_dense.2.2 rfl
    have hdet : (exampleVision.detect (denseReference pts).num_features_
        (exampleVision.cvtColor fewFeaturesFrame.visual_image)
        fewFeaturesFrame.depth_image_CV8UC1).length = 2 := by
      simp [exampleVision, fewFeaturesFrame, mask2]
    have h2 := hrest [fewFeaturesFrame]
    have hfew := setReferenceView_few exampleVision (denseReference pts)
      fewFeaturesFrame.visual_image fewFeaturesFrame.depth_image_float
      fewFeaturesFrame.depth_image_CV8UC1 (by rw [hdet]; decide)
    simp only [setReferenceViews, hfew] at h2
    refine ⟨denseReference pts, _, h1, ?_, hdet, h2, ?_⟩
    · simp only [referenceShape, denseReference, List.length_replicate, hlen]
      rfl
    · simp only [referenceShape, denseReference, List.length_replicate, hlen, hdet]
      rfl
  · obtain ⟨pts, hlen, h1, _⟩ := estimatorAfter_dense shortThrowVision shortThrowVision_dense.1
      shortThrowVision_dense.2.1 shortThrowVision_dense.2.2.1 shortThrowVision_dense.2.2.2
    have hrun := run_weak shortThrowVision (denseReference pts) exampleArgs2 exampleOut
      ⟨[[1]], keyPoints4.take 2, [[0], [0]], [], []⟩ [⟨0, 0, 0⟩, ⟨1, 1, 0⟩] rfl
      (by rw [(shortThrow_currentFrame pts).1]; simp [keyPoints4])
      (shortThrow_currentFrame pts).2 (shortThrow_mutual pts) (by simp)
    refine ⟨denseReference pts, _, _, h1, ?_, rfl, hrun, ?_⟩
    · simp only [referenceShape, denseReference, List.length_replicate, hlen]
      rfl
    · simp [referenceShape, promote, exampleArgs2, setCurrentAsReference, keyPoints4]

/-- The estimator a returning call of `setCurrentAndFindTransform` leaves: the one it was called
on with the flag lowered (hard reset, only when asked to promote), or the one it was called on,
possibly with the display counter advanced, after the optional promotion of the frame. -/
theorem returned_state_cases (env : Vision) (self : PoseEstimator) (a : Args) (out : Outputs)
    (ret : Int) (self1 : PoseEstimator) (out1 : Outputs)
    (h : setCurrentAndFindTransform env self a out = .ok (ret, self1, out1)) :
    (a.setAsReference = true ∧ self1 = { self with reference_set_ := false }) ∨
    self1 = self ∨
    (∃ cf, self1 = promote self a cf) ∨
    (∃ cf, self1 = promote { self with pose_vertex_id_ := self.pose_vertex_id_ + 1 } a cf) := by
  unfold setCurrentAndFindTransform at h
  cases href : self.reference_set_ with
  | false => simp [href] at h
  | true =>
    simp only [href, Bool.true_eq_false, if_false] at h
    generalize env.detect self.num_features_ (env.cvtColor a.visual_cur_image)
      a.depth_curr_image_CV8UC1 = feats at h
    cases hfe : feats.isEmpty with
    | true =>
      simp only [hfe, if_true] at h
      cases hs : a.setAsReference with
      | true =>
        simp only [hs, if_true, Except.ok.injEq, Prod.mk.injEq] at h
        exact Or.inl ⟨rfl, h.2.1.symm⟩
      | false =>
        simp only [hs, Bool.false_eq_true, if_false, Except.ok.injEq, Prod.mk.injEq] at h
        exact Or.inr (Or.inl h.2.1.symm)
    | false =>
      simp only [hfe, Bool.false_eq_true, if_false] at h
      cases hcf : processCurrent env self a (env.cvtColor a.visual_cur_image) feats with
      | error e => simp [hcf] at h
      | ok cf =>
        simp only [hcf] at h
        cases hm : currentMutualMatches env self a cf with
        | error e => simp [hm] at h
        | ok final =>
          simp only [hm] at h
          by_cases hfew : (final.length : Int) ≤ 3
          · simp only [hfew, if_true, Except.ok.injEq, Prod.mk.injEq] at h
            exact Or.inr (Or.inr (Or.inl ⟨cf, h.2.1.symm⟩))
          · simp only [hfew, if_false] at h
            cases hord : orderCorrespondences self.reference3D_features_
                self.reference2D_idealized_ cf.current3D_features cf.idealized_curr_pts final with
            | error e => simp [hord] at h
            | ok ord =>
              simp only [hord] at h
              by_cases hrot : (callRANSAC env self ord out.inliers).final_rotation.cols = 3 ∧
                  (callRANSAC env self ord out.inliers).final_rotation.rows = 3
              · simp only [hrot, and_self, not_true_eq_false, if_false] at h
                cases ht : readTranslation
                    (callRANSAC env self ord out.inliers).final_translation with
                | error e => simp [ht] at h
                | ok t =>
                  simp only [ht, Except.ok.injEq, Prod.mk.injEq] at h
                  cases hd : self.enable_display_ with
                  | true =>
                    simp only [hd, if_true] at h
                    exact Or.inr (Or.inr (Or.inr ⟨cf, h.2.1.symm⟩))
                  | false =>
                    simp only [hd, Bool.false_eq_true, if_false] at h
                    exact Or.inr (Or.inr (Or.inl ⟨cf, h.2.1.symm⟩))
              · simp only [hrot, not_false_eq_true, if_true, Except.ok.injEq,
                  Prod.mk.injEq] at h
                exact Or.inr (Or.inr (Or.inl ⟨cf, h.2.1.symm⟩))

/-- Claim C30. When `setCurrentAndFindTransform` is called with `setAsReference = false` and
returns (on any of its return paths), the reference-set flag and every member of the reference
frame (the three images, the 2D features, the idealized points, the 3D points, the descriptors)
are the same after the call as before it. -/
theorem reference_unchanged_without_promotion (env : Vision) (self : PoseEstimator) (a : Args)
    (out : Outputs) (ret : Int) (self1 : PoseEstimator) (out1 : Outputs)
    (hflag : a.setAsReference = false)
    (h : setCurrentAndFindTransform env self a out = .ok (ret, self1, out1)) :
    self1.reference_set_ = self.reference_set_ ∧
    self1.reference_img_RGB_ = self.reference_img_RGB_ ∧
    self1.reference_img_gray_ = self.reference_img_gray_ ∧
    self1.reference_img_depth_ = self.reference_img_depth_ ∧
    self1.reference2D_features_ = self.reference2D_features_ ∧
    self1.reference2D_idealized_ = self.reference2D_idealized_ ∧
    self1.reference3D_features_ = self.reference3D_features_ ∧
    self1.reference_descriptors_ = self.reference_descriptors_ := by
  rcases returned_state_cases env self a out ret self1 out1 h with
    ⟨hs, _⟩ | rfl | ⟨cf, rfl⟩ | ⟨cf, rfl⟩
  · rw [hflag] at hs
    exact absurd hs (by decide)
  · exact ⟨rfl, rfl, rfl, rfl, rfl, rfl, rfl, rfl⟩
  · simp [promote, hflag]
  · simp [promote, hflag]

/-- Claim C30 run on the successful call on the four-feature frame, not promoted. -/
theorem reference_unchanged_without_promotion_witness :
    exampleArgs4.setAsReference = false ∧
    (∃ res, setCurrentAndFindTransform exampleVision exampleEstimator exampleArgs4 exampleOut
      = .ok res) ∧
    (exampleEstimator.reference_set_ = exampleEstimator.reference_set_ ∧
      exampleEstimator.reference_img_RGB_ = exampleEstimator.reference_img_RGB_ ∧
      exampleEstimator.reference_img_gray_ = exampleEstimator.reference_img_gray_ ∧
      exampleEstimator.reference_img_depth_ = exampleEstimator.reference_img_depth_ ∧
      exampleEstimator.reference2D_features_ = exampleEstimator.reference2D_features_ ∧
      exampleEstimator.reference2D_idealized_ = exampleEstimator.reference2D_idealized_ ∧
      exampleEstimator.reference3D_features_ = exampleEstimator.reference3D_features_ ∧
      exampleEstimator.reference_descriptors_ = exampleEstimator.reference_descriptors_) :=
  ⟨rfl, ⟨_, example_run4⟩,
   reference_unchanged_without_promotion exampleVision exampleEstimator exampleArgs4 exampleOut
     1 exampleEstimator _ rfl example_run4⟩

/-! ## The mutual-match loop with its unchecked read -/

/-- Inside the vector the unchecked read finds the element. -/
theorem uncheckedRead_inside (past : Int → Option DMatch) (reverse_matches : List DMatch)
    (k : Int) (r : DMatch) (h : vecAt reverse_matches k = some r) :
    uncheckedRead past reverse_matches k = some r := by
  simp [uncheckedRead, h]

/-- Outside the vector the unchecked read finds what the memory holds. -/
theorem uncheckedRead_outside (past : Int → Option DMatch) (reverse_matches : List DMatch)
    (k : Int) (h : vecAt reverse_matches k = none) :
    uncheckedRead past reverse_matches k = past k := by
  simp [uncheckedRead, h]

/-- With every forward train index a position of the reverse list, the unchecked loop is the
loop `findMutualMatchesLoop`, whatever the memory past the vector holds. -/
theorem findMutualMatchesLoopUnchecked_inside (past : Int → Option DMatch)
    (reverse_matches : List DMatch) :
    ∀ (rest : List DMatch) (i : Int) (acc : List DMatch),
      (∀ f ∈ rest, 0 ≤ f.trainIdx ∧ f.trainIdx < reverse_matches.length) →
      findMutualMatchesLoopUnchecked past reverse_matches rest i acc =
        findMutualMatchesLoop reverse_matches rest i acc := by
  intro rest
  induction rest with
  | nil => intro i acc _; rfl
  | cons f rest ih =>
    intro i acc h
    have hs : (vecAt reverse_matches f.trainIdx).isSome :=
      (vecAt_isSome_iff _ _).2 (h f (List.mem_cons_self _ _))
    obtain ⟨r, hr⟩ := Option.isSome_iff_exists.1 hs
    have hrest : ∀ g ∈ rest, 0 ≤ g.trainIdx ∧ g.trainIdx < reverse_matches.length :=
      fun g hg => h g (List.mem_cons_of_mem _ hg)
    unfold findMutualMatchesLoopUnchecked findMutualMatchesLoop
    simp only [uncheckedRead_inside past reverse_matches _ r hr, hr, ih _ _ hrest]

/-- With a program that stops at every read past the vector, the unchecked loop is the loop
`findMutualMatchesLoop`. -/
theorem findMutualMatchesLoopUnchecked_stop (reverse_matches : List DMatch) :
    ∀ (rest : List DMatch) (i : Int) (acc : List DMatch),
      findMutualMatchesLoopUnchecked (fun _ => none) reverse_matches rest i acc =
        findMutualMatchesLoop reverse_matches rest i acc := by
  intro rest
  induction rest with
  | nil => intro i acc; rfl
  | cons f rest ih =>
    intro i acc
    unfold findMutualMatchesLoopUnchecked findMutualMatchesLoop
    cases hr : vecAt reverse_matches f.trainIdx with
    | none => simp [uncheckedRead, hr]
    | some r => simp only [uncheckedRead, hr, ih]

/-- Claim C1 fails on the code. The read `reverse_matches[forward_matches[i].trainIdx]` is not
checked against the size of the vector. On a forward list whose match 0 goes to reference index
5 and a reverse list with one entry, there is no `reverse[5]`; the read goes past the vector, and
with memory there that reads as zero the test `... .trainIdx == i` holds at `i = 0`: the pair
`(0, 5)` is accepted although no reverse match maps 5 back to 0. (A program that stops at the
read returns nothing.) -/
theorem mutual_match_without_reverse_entry :
    strayForward = [⟨0, 5, 1⟩] ∧ strayReverse.length = 1 ∧ vecAt strayReverse 5 = none ∧
    uncheckedRead zeroedMemory strayReverse 5 = some ⟨0, 0, 0⟩ ∧
    (findMutualMatchesUnchecked zeroedMemory strayForward strayReverse).toOption
      = some [⟨0, 5, 0⟩] ∧
    (¬ ∃ r : DMatch, vecAt strayReverse 5 = some r ∧ r.trainIdx = 0) ∧
    faultOf (findMutualMatchesUnchecked (fun _ => none) strayForward strayReverse)
      = some Fault.outOfRange := by
  refine ⟨rfl, rfl, rfl, rfl, rfl, ?_, rfl⟩
  rintro ⟨r, hr, _⟩
  have hnone : vecAt strayReverse 5 = none := rfl
  rw [hnone] at hr
  cases hr

/-- The entries of the projection matrix of `covarianceEstimator` that the method reads. -/
theorem covarianceEstimator_entries :
    covarianceEstimator.rgb_camera_P_.entry 0 0 = some 1 ∧
    covarianceEstimator.rgb_camera_P_.entry 1 1 = some 1 ∧
    covarianceEstimator.rgb_camera_P_.entry 0 2 = some 1 ∧
    covarianceEstimator.rgb_camera_P_.entry 1 2 = some 1 :=
  ⟨by decide!, by decide!, by decide!, by decide!⟩

/-- Claim C20 fails as stated: not every input gives a matrix of numbers. At the rotation by a
half turn about the x axis (orthogonal, determinant 1, `1 + trace = 0`), with distinct singular
values `3, 2, 1`, `fx = fy = 1` and the diagonal non-negative noise set by the constructor, `qw`
is `0` and the divisor `4.*qw` of `Jacobian4(0,5)` is `0`: the quotient `-1.0/(4.*qw)` is `-inf`
in `double` arithmetic and the returned matrix has entries that are not numbers, so it is not a
symmetric positive semi-definite matrix. -/
theorem covariance_not_a_matrix_at_half_turn :
    halfTurn * halfTurn.transpose = 1 ∧ halfTurn.det = 1 ∧
    halfTurn 0 0 + halfTurn 1 1 + halfTurn 2 2 + 1.0 = 0 ∧
    covarianceEstimator.image_noise_ = Matrix.diagonal ![4, 4, 0.01 * 0.01] ∧
    covarianceDivisors sqrtTable powTable sampleImagePoints.length 1 1 sampleSingularValues
      halfTurn = [1, 1, -5, -8, -3, 0, 0, 0, 0] ∧
    calculateNewCovarianceDouble sqrtTable powTable covarianceEstimator sampleImagePoints
      sampleImagePoints samplePoints3D samplePoints3D (findCentroid samplePoints3D).1
      (findCentroid samplePoints3D).1 (findCentroid samplePoints3D).2 1 halfTurn
      sampleSingularValues halfTurn ⟨0, 0, 0⟩ = .ok none := by
  have hdiv : covarianceDivisors sqrtTable powTable sampleImagePoints.length 1 1
      sampleSingularValues halfTurn = [1, 1, -5, -8, -3, 0, 0, 0, 0] := by
    simp [covarianceDivisors, sampleImagePoints, sampleSingularValues, halfTurn, sqrtTable,
      powTable]
    norm_num
  refine ⟨?_, ?_, ?_, rfl, hdiv, ?_⟩
  · ext i j
    fin_cases i <;> fin_cases j <;>
      simp [halfTurn, Matrix.mul_apply, Fin.sum_univ_three, Matrix.transpose_apply,
        Matrix.vecHead, Matrix.vecTail]
  · simp [halfTurn, Matrix.det_fin_three]
  · simp [halfTurn]
    norm_num
  · obtain ⟨C, hC⟩ := calculateNewCovariance_returns sqrtTable powTable covarianceEstimator
      sampleImagePoints sampleImagePoints samplePoints3D samplePoints3D
      (findCentroid samplePoints3D).1 (findCentroid samplePoints3D).1
      (findCentroid samplePoints3D).2 1 halfTurn sampleSingularValues halfTurn ⟨0, 0, 0⟩
      ⟨1, 1, 1, 1, covarianceEstimator_entries⟩
      (by decide) (by decide) (by decide) (by decide) (by decide)
    unfold calculateNewCovarianceDouble
    simp only [covarianceEstimator_entries.1, covarianceEstimator_entries.2.1, hC, hdiv]
    simp

/-- Claim C20, amended. For every input (sample points, centroids, SVD factors, rotation) at
which no divisor of the method is zero (`fx` and `fy` when there is a point, the differences of
the squared singular values, and the four divisors of step 4 built from `1 + trace R`), and a
diagonal non-negative image/depth noise matrix, for any `sqrt` and `pow`: the method returns a
matrix of numbers whenever the four entries of the projection matrix it reads exist and the point
vectors are at least as long as the vector of reference image points, and the 7×7 matrix it
returns, over exact arithmetic, is symmetric and positive semi-definite. -/
theorem calculateNewCovariance_psd_nondegenerate (sqrt : ℚ → ℚ) (pow : ℚ → ℚ → ℚ)
    (self : PoseEstimator) (reference_image_pts current_image_pts : List Point2f)
    (reference_3D_pts current_3D_pts reference_cent_3D_pts current_cent_3D_pts : List Point3d)
    (reference_centroid_pt : Point3d) (svd_U svd_V svd_D R : Matrix3d) (T : Vector3d)
    (noise : Fin 3 → ℚ) (hnoise : self.image_noise_ = Matrix.diagonal noise)
    (hnonneg : ∀ i, 0 ≤ noise i) :
    (∀ fx fy ox oy, self.rgb_camera_P_.entry 0 0 = some fx →
      self.rgb_camera_P_.entry 1 1 = some fy → self.rgb_camera_P_.entry 0 2 = some ox →
      self.rgb_camera_P_.entry 1 2 = some oy →
      reference_image_pts.length ≤ current_image_pts.length →
      reference_image_pts.length ≤ reference_3D_pts.length →
      reference_image_pts.length ≤ current_3D_pts.length →
      reference_image_pts.length ≤ reference_cent_3D_pts.length →
      reference_image_pts.length ≤ current_cent_3D_pts.length →
      (0 : ℚ) ∉ covarianceDivisors sqrt pow reference_image_pts.length fx fy svd_D R →
      ∃ C, calculateNewCovarianceDouble sqrt pow self reference_image_pts current_image_pts
        reference_3D_pts current_3D_pts reference_cent_3D_pts current_cent_3D_pts
        reference_centroid_pt svd_U svd_V svd_D R T = .ok (some C)) ∧
    ∀ C, calculateNewCovarianceDouble sqrt pow self reference_image_pts current_image_pts
        reference_3D_pts current_3D_pts reference_cent_3D_pts current_cent_3D_pts
        reference_centroid_pt svd_U svd_V svd_D R T = .ok (some C) →
      (∃ fx fy, self.rgb_camera_P_.entry 0 0 = some fx ∧
        self.rgb_camera_P_.entry 1 1 = some fy ∧
        (0 : ℚ) ∉ covarianceDivisors sqrt pow reference_image_pts.length fx fy svd_D R) ∧
      calculateNewCovariance sqrt pow self reference_image_pts current_image_pts
        reference_3D_pts current_3D_pts reference_cent_3D_pts current_cent_3D_pts
        reference_centroid_pt svd_U svd_V svd_D R T = .ok C ∧
      C.IsSymm ∧ ∀ x : Fin 7 → ℚ, 0 ≤ Matrix.dotProduct x (C.mulVec x) := by
  constructor
  · intro fx fy ox oy h1 h2 h3 h4 l1 l2 l3 l4 l5 hdiv
    obtain ⟨C, hC⟩ := calculateNewCovariance_returns sqrt pow self reference_image_pts
      current_image_pts reference_3D_pts current_3D_pts reference_cent_3D_pts
      current_cent_3D_pts reference_centroid_pt svd_U svd_V svd_D R T
      ⟨fx, fy, ox, oy, h1, h2, h3, h4⟩ l1 l2 l3 l4 l5
    refine ⟨C, ?_⟩
    unfold calculateNewCovarianceDouble
    simp only [h1, h2, hC]
    rw [if_neg hdiv]
  · intro C h
    unfold calculateNewCovarianceDouble at h
    cases h1 : self.rgb_camera_P_.entry 0 0 with
    | none => simp [h1] at h
    | some fx =>
      cases h2 : self.rgb_camera_P_.entry 1 1 with
      | none => simp [h1, h2] at h
      | some fy =>
        simp only [h1, h2] at h
        cases hC : calculateNewCovariance sqrt pow self reference_image_pts current_image_pts
            reference_3D_pts current_3D_pts reference_cent_3D_pts current_cent_3D_pts
            reference_centroid_pt svd_U svd_V svd_D R T with
        | error e => simp [hC] at h
        | ok C0 =>
          simp only [hC] at h
          by_cases hdiv : (0 : ℚ) ∈ covarianceDivisors sqrt pow reference_image_pts.length fx fy
              svd_D R
          · rw [if_pos hdiv] at h
            simp at h
          · rw [if_neg hdiv] at h
            simp only [Except.ok.injEq, Option.some.injEq] at h
            subst h
            exact ⟨⟨fx, fy, rfl, rfl, hdiv⟩, rfl,
              (calculateNewCovariance_psd sqrt pow self reference_image_pts current_image_pts
                reference_3D_pts current_3D_pts reference_cent_3D_pts current_cent_3D_pts
                reference_centroid_pt svd_U svd_V svd_D R T noise hnoise hnonneg).2 _ hC⟩

/-- Claim C20, amended, run on the sample `0, 1, 2` of the four-feature frame at the identity
rotation, with singular values `3, 2, 1`, `fx = fy = 1` and the noise matrix set by the
constructor (`diag(4, 4, 0.01²)`): the divisors are `1, 1, -5, -8, -3, 32, 4, 8, 8`. -/
theorem calculateNewCovariance_psd_nondegenerate_witness :
    covarianceDivisors sqrtTable powTable sampleImagePoints.length 1 1 sampleSingularValues 1
      = [1, 1, -5, -8, -3, 32, 4, 8, 8] ∧
    ∃ C, calculateNewCovarianceDouble sqrtTable powTable covarianceEstimator sampleImagePoints
        sampleImagePoints samplePoints3D samplePoints3D (findCentroid samplePoints3D).1
        (findCentroid samplePoints3D).1 (findCentroid samplePoints3D).2 1 1
        sampleSingularValues 1 ⟨0, 0, 0⟩ = .ok (some C) ∧
      C.IsSymm ∧ ∀ x : Fin 7 → ℚ, 0 ≤ Matrix.dotProduct x (C.mulVec x) := by
  have hdiv : covarianceDivisors sqrtTable powTable sampleImagePoints.length 1 1
      sampleSingularValues 1 = [1, 1, -5, -8, -3, 32, 4, 8, 8] := by
    simp [covarianceDivisors, sampleImagePoints, sampleSingularValues, sqrtTable, powTable]
    norm_num
  have hthm := calculateNewCovariance_psd_nondegenerate sqrtTable powTable covarianceEstimator
    sampleImagePoints sampleImagePoints samplePoints3D samplePoints3D
    (findCentroid samplePoints3D).1 (findCentroid samplePoints3D).1
    (findCentroid samplePoints3D).2 1 1 sampleSingularValues 1 ⟨0, 0, 0⟩
    ![4, 4, 0.01 * 0.01] rfl (by decide!)
  obtain ⟨C, hC⟩ := hthm.1 1 1 1 1 covarianceEstimator_entries.1
    covarianceEstimator_entries.2.1 covarianceEstimator_entries.2.2.1
    covarianceEstimator_entries.2.2.2 (by decide) (by decide) (by decide) (by decide)
    (by decide)
    (by
      rw [hdiv]
      norm_num)
  exact ⟨hdiv, C, hC, (hthm.2 C hC).2.2⟩

end RelativeNav
